import Mathlib

/-!
# OpenHPI client library (`baselib/oh_client.cpp`) and the client `hpifan`

A shallow embedding of the wrappers of `oh_client.cpp` together with the two
sanitising helpers `clean_reading` and `clean_thresholds`, and of the fan
control of `clients/hpifan.c`.

Conventions of the embedding.

* A C pointer argument is an `Option`: `none` is the null pointer, `some v` is a
  pointer to memory that currently holds `v`.  A function that writes through a
  pointer returns the new content of the pointed-to memory.
* The session layer (`ohc_sess_rpc`, `ohc_sess_get_did`, `ohc_sess_open`) lives in
  `oh_client_session.cpp`, which is not part of the sources at hand.  Every
  wrapper takes these functions as arguments.  `ohc_sess_rpc` receives the
  function code, the session id, the input parameters and the current content of
  the output parameters, and returns the status together with the new content of
  the output parameters.
* Every wrapper returns, next to its status and outputs, the list of the
  session-layer calls it made, in order.
* Unions are kept as the bytes they occupy.
* A local variable that the C code leaves uninitialised is an argument of the
  embedded function (its indeterminate initial content).
-/

namespace OpenHpi

/-! ## Constants and scalar types of `SaHpi.h` / `oh_domain.h` -/

/-- Status code `SaErrorT`, a signed 32-bit integer in C. -/
abbrev SaErrorT := Int

/-- Session identifier `SaHpiSessionIdT` (unsigned 32-bit). -/
abbrev SaHpiSessionIdT := Nat

/-- Domain identifier `SaHpiDomainIdT` (unsigned 32-bit). -/
abbrev SaHpiDomainIdT := Nat

/-- Resource identifier `SaHpiResourceIdT` (unsigned 32-bit). -/
abbrev SaHpiResourceIdT := Nat

/-- Entry identifier `SaHpiEntryIdT` (unsigned 32-bit). -/
abbrev SaHpiEntryIdT := Nat

/-- Timeout `SaHpiTimeoutT`, a signed 64-bit integer in C. -/
abbrev SaHpiTimeoutT := Int

/-- Modelled from the spec: the header `SaHpi.h` is not among the sources; value of `SA_OK`. -/
def SA_OK : SaErrorT := 0

/-- Modelled from the spec: the header `SaHpi.h` is not among the sources;
value of `SA_ERR_HPI_INVALID_PARAMS` (`SA_HPI_ERR_BASE - 9`). -/
def SA_ERR_HPI_INVALID_PARAMS : SaErrorT := -1009

/-- Modelled from the spec: the header `SaHpi.h` is not among the sources;
value of `SA_ERR_HPI_INVALID_DATA` (`SA_HPI_ERR_BASE - 10`). -/
def SA_ERR_HPI_INVALID_DATA : SaErrorT := -1010

/-- Modelled from the spec: the header `SaHpi.h` is not among the sources;
value of `SA_ERR_HPI_NOT_PRESENT` (`SA_HPI_ERR_BASE - 11`). -/
def SA_ERR_HPI_NOT_PRESENT : SaErrorT := -1011

/-- Modelled from the spec: the header `SaHpi.h` is not among the sources; `SAHPI_TRUE`. -/
def SAHPI_TRUE : Nat := 1

/-- Modelled from the spec: the header `SaHpi.h` is not among the sources; `SAHPI_FALSE`. -/
def SAHPI_FALSE : Nat := 0

/-- Modelled from the spec: the header `SaHpi.h` is not among the sources;
enumerator `SAHPI_SENSOR_READING_TYPE_INT64`. -/
def SAHPI_SENSOR_READING_TYPE_INT64 : Nat := 0

/-- Modelled from the spec: the header `SaHpi.h` is not among the sources;
enumerator `SAHPI_SENSOR_READING_TYPE_UINT64`. -/
def SAHPI_SENSOR_READING_TYPE_UINT64 : Nat := 1

/-- Modelled from the spec: the header `SaHpi.h` is not among the sources;
enumerator `SAHPI_SENSOR_READING_TYPE_FLOAT64`. -/
def SAHPI_SENSOR_READING_TYPE_FLOAT64 : Nat := 2

/-- Modelled from the spec: the header `SaHpi.h` is not among the sources;
enumerator `SAHPI_SENSOR_READING_TYPE_BUFFER`. -/
def SAHPI_SENSOR_READING_TYPE_BUFFER : Nat := 3

/-- Modelled from the spec: the header `SaHpi.h` is not among the sources;
`SAHPI_SENSOR_BUFFER_LENGTH`, the size in bytes of the reading union. -/
def SAHPI_SENSOR_BUFFER_LENGTH : Nat := 32

/-- Modelled from the spec: the header `SaHpi.h` is not among the sources;
`SAHPI_TIMEOUT_IMMEDIATE`. -/
def SAHPI_TIMEOUT_IMMEDIATE : SaHpiTimeoutT := 0

/-- Modelled from the spec: the header `SaHpi.h` is not among the sources;
`SAHPI_TIMEOUT_BLOCK`. -/
def SAHPI_TIMEOUT_BLOCK : SaHpiTimeoutT := -1

/-- Modelled from the spec: the header `SaHpi.h` is not among the sources;
`SAHPI_UNSPECIFIED_DOMAIN_ID` (`0xFFFFFFFF`). -/
def SAHPI_UNSPECIFIED_DOMAIN_ID : SaHpiDomainIdT := 4294967295

/-- Modelled from the spec: the header `oh_domain.h` is not among the sources;
`OH_DEFAULT_DOMAIN_ID`. -/
def OH_DEFAULT_DOMAIN_ID : SaHpiDomainIdT := 0

/-- Modelled from the spec: the header `SaHpi.h` is not among the sources;
`SAHPI_UNSPECIFIED_RESOURCE_ID` (`0xFFFFFFFF`). -/
def SAHPI_UNSPECIFIED_RESOURCE_ID : SaHpiResourceIdT := 4294967295

/-- Modelled from the spec: the header `SaHpi.h` is not among the sources;
`SAHPI_LAST_ENTRY` (`0xFFFFFFFF`). -/
def SAHPI_LAST_ENTRY : SaHpiEntryIdT := 4294967295

/-- Modelled from the spec: the header `SaHpi.h` is not among the sources;
`SAHPI_NO_MORE_ENTRIES` (`0xFFFFFFFE`). -/
def SAHPI_NO_MORE_ENTRIES : SaHpiEntryIdT := 4294967294

/-- Modelled from the spec: the header `SaHpi.h` is not among the sources;
enumerator `SAHPI_ET_DOMAIN` of `SaHpiEventTypeT`. -/
def SAHPI_ET_DOMAIN : Nat := 1

/-- Modelled from the spec: the header `SaHpi.h` is not among the sources;
enumerator `SAHPI_STATUS_COND_TYPE_USER` of `SaHpiStatusCondTypeT`. -/
def SAHPI_STATUS_COND_TYPE_USER : Nat := 3

/-! ## Raw memory helpers -/

/-- Content of `n` bytes after `memset(p, 0, n)`. -/
def zeroBytes (n : Nat) : List Nat := List.replicate n 0

/-- Content of the destination after `memcpy(dst, src, n)`: the first `n` bytes come from
`src`, the bytes behind them keep their value. -/
def memcpyBytes (dst src : List Nat) (n : Nat) : List Nat :=
  src.take n ++ dst.drop n

/-! ## Sensor readings -/

/-- The structure `SaHpiSensorReadingT`: support flag, discriminant (`Type` in C, written
`Type_` here) and the union `Value` kept as its `SAHPI_SENSOR_BUFFER_LENGTH` bytes.  The
arms `SensorInt64`, `SensorUint64` and `SensorFloat64` occupy the first eight bytes,
`SensorBuffer` all of them. -/
structure SaHpiSensorReadingT where
  IsSupported : Nat
  Type_ : Nat
  Value : List Nat
  deriving DecidableEq, Repr

/-- The structure `SaHpiSensorThresholdsT`. -/
structure SaHpiSensorThresholdsT where
  LowCritical : SaHpiSensorReadingT
  LowMajor : SaHpiSensorReadingT
  LowMinor : SaHpiSensorReadingT
  UpCritical : SaHpiSensorReadingT
  UpMajor : SaHpiSensorReadingT
  UpMinor : SaHpiSensorReadingT
  PosThdHysteresis : SaHpiSensorReadingT
  NegThdHysteresis : SaHpiSensorReadingT
  deriving DecidableEq, Repr

/-- Content of a reading after `memset(read_out, 0, sizeof(SaHpiSensorReadingT))`. -/
def zeroReading : SaHpiSensorReadingT :=
  { IsSupported := 0, Type_ := 0, Value := zeroBytes SAHPI_SENSOR_BUFFER_LENGTH }

/-- The function `clean_reading`.  `lookup` is `oh_lookup_sensorreadingtype` (defined in the
utility library, not among the sources): it returns the name of a known reading type and a
null pointer (`none`) otherwise.  The result is the status and the new content of
`*read_out`. -/
def clean_reading (lookup : Nat → Option String)
    (read_in read_out : Option SaHpiSensorReadingT) :
    SaErrorT × Option SaHpiSensorReadingT :=
  match read_in, read_out with
  | some rin, some _ =>
    -- memset(read_out, 0, sizeof(SaHpiSensorReadingT));
    let out0 := zeroReading
    -- read_out->IsSupported = read_in->IsSupported;
    let out1 := { out0 with IsSupported := rin.IsSupported }
    if rin.IsSupported = SAHPI_TRUE then
      if (lookup rin.Type_).isNone then
        (SA_ERR_HPI_INVALID_DATA, some out1)
      else
        let out2 := { out1 with Type_ := rin.Type_ }
        if rin.Type_ = SAHPI_SENSOR_READING_TYPE_INT64 then
          (SA_OK, some { out2 with Value := memcpyBytes out2.Value rin.Value 8 })
        else if rin.Type_ = SAHPI_SENSOR_READING_TYPE_UINT64 then
          (SA_OK, some { out2 with Value := memcpyBytes out2.Value rin.Value 8 })
        else if rin.Type_ = SAHPI_SENSOR_READING_TYPE_FLOAT64 then
          (SA_OK, some { out2 with Value := memcpyBytes out2.Value rin.Value 8 })
        else if rin.Type_ = SAHPI_SENSOR_READING_TYPE_BUFFER then
          (SA_OK, some { out2 with
            Value := memcpyBytes out2.Value rin.Value SAHPI_SENSOR_BUFFER_LENGTH })
        else
          (SA_OK, some out2)
    else
      -- read_out->Type = SAHPI_SENSOR_READING_TYPE_INT64; read_out->Value.SensorInt64 = 0;
      (SA_OK, some { out1 with
        Type_ := SAHPI_SENSOR_READING_TYPE_INT64,
        Value := memcpyBytes out1.Value (zeroBytes 8) 8 })
  | _, _ => (SA_ERR_HPI_INVALID_PARAMS, read_out)

/-- Call of `clean_reading(&in, &out)` on two members: both pointers are non-null, so the
destination member always has a content afterwards. -/
def clean_member (lookup : Nat → Option String)
    (rin rout : SaHpiSensorReadingT) : SaErrorT × SaHpiSensorReadingT :=
  let r := clean_reading lookup (some rin) (some rout)
  (r.1, r.2.getD rout)

/-- The function `clean_thresholds`: the eight members are cleaned in order and the first
failure is returned at once.  The result is the status and the new content of
`*thrds_out`. -/
def clean_thresholds (lookup : Nat → Option String)
    (thrds_in thrds_out : Option SaHpiSensorThresholdsT) :
    SaErrorT × Option SaHpiSensorThresholdsT :=
  match thrds_in, thrds_out with
  | some tin, some o0 =>
    let r1 := clean_member lookup tin.LowCritical o0.LowCritical
    let o1 := { o0 with LowCritical := r1.2 }
    if r1.1 ≠ SA_OK then (r1.1, some o1) else
    let r2 := clean_member lookup tin.LowMajor o1.LowMajor
    let o2 := { o1 with LowMajor := r2.2 }
    if r2.1 ≠ SA_OK then (r2.1, some o2) else
    let r3 := clean_member lookup tin.LowMinor o2.LowMinor
    let o3 := { o2 with LowMinor := r3.2 }
    if r3.1 ≠ SA_OK then (r3.1, some o3) else
    let r4 := clean_member lookup tin.UpCritical o3.UpCritical
    let o4 := { o3 with UpCritical := r4.2 }
    if r4.1 ≠ SA_OK then (r4.1, some o4) else
    let r5 := clean_member lookup tin.UpMajor o4.UpMajor
    let o5 := { o4 with UpMajor := r5.2 }
    if r5.1 ≠ SA_OK then (r5.1, some o5) else
    let r6 := clean_member lookup tin.UpMinor o5.UpMinor
    let o6 := { o5 with UpMinor := r6.2 }
    if r6.1 ≠ SA_OK then (r6.1, some o6) else
    let r7 := clean_member lookup tin.PosThdHysteresis o6.PosThdHysteresis
    let o7 := { o6 with PosThdHysteresis := r7.2 }
    if r7.1 ≠ SA_OK then (r7.1, some o7) else
    let r8 := clean_member lookup tin.NegThdHysteresis o7.NegThdHysteresis
    let o8 := { o7 with NegThdHysteresis := r8.2 }
    (r8.1, some o8)
  | _, _ => (SA_ERR_HPI_INVALID_PARAMS, thrds_out)

/-! ## The session layer as seen from the wrappers -/

/-- Function codes of `marshal_hpi.h` passed to `ohc_sess_rpc` by the wrappers embedded
here. -/
inductive RpcId where
  | eFsaHpiDomainInfoGet
  | eFsaHpiDrtEntryGet
  | eFsaHpiGetChildEntityPath
  | eFsaHpiEventLogEntryGet
  | eFsaHpiEventGet
  | eFsaHpiAlarmGetNext
  | eFsaHpiAlarmGet
  | eFsaHpiAlarmAdd
  | eFsaHpiSensorReadingGet
  | eFsaHpiSensorThresholdsSet
  | eFsaHpiAutoInsertTimeoutSet
  | eFsaHpiAutoExtractTimeoutSet
  | eFsaHpiResourceLoadIdGet
  | eFsaHpiResourceLoadIdSet
  | eFsaHpiRptEntryGet
  | eFsaHpiResourceSeveritySet
  | eFsaHpiControlSet
  | eFsaHpiWatchdogTimerSet
  | eFsaHpiDimiTestStatusGet
  | eFoHpiHandlerCreate
  | eFoHpiHandlerRetry
  | eFsaHpiControlGet
  | eFsaHpiAnnunciatorAcknowledge
  | eFsaHpiAnnunciatorDelete
  deriving DecidableEq, Repr

/-- A call into the session layer: `ohc_sess_rpc` with its function code, session and input
parameters, `ohc_sess_get_did` with its session, `ohc_sess_open` with its domain id. -/
inductive Call (I : Type) where
  | rpc (id : RpcId) (sid : SaHpiSessionIdT) (iparams : I)
  | get_did (sid : SaHpiSessionIdT)
  | sess_open (did : SaHpiDomainIdT)
  deriving DecidableEq, Repr

/-- What a wrapper leaves behind: the status it returns, the content of the caller's
buffers on return, and the session-layer calls it made. -/
structure Outcome (I O : Type) where
  rv : SaErrorT
  out : O
  calls : List (Call I)
  deriving DecidableEq, Repr

/-- Type of `ohc_sess_rpc` for input parameters `I` and output parameters `O`. -/
abbrev Rpc (I O : Type) := RpcId → SaHpiSessionIdT → I → O → SaErrorT × O

/-- Type of `ohc_sess_get_did(sid, did)`: from the session and the current content of the
reference `did` to the status and the new content of `did`. -/
abbrev GetDid := SaHpiSessionIdT → SaHpiDomainIdT → SaErrorT × SaHpiDomainIdT

/-- Type of `ohc_sess_open(did, sid)`: from the domain id and the current content of the
reference `sid` to the status and the new content of `sid`. -/
abbrev SessOpen := SaHpiDomainIdT → SaHpiSessionIdT → SaErrorT × SaHpiSessionIdT

/-! ## Structures of `SaHpi.h` touched by the wrappers

Only the members that the wrappers read or write are named; the other members are kept
together as the bytes `Rest`. -/

/-- The structure `SaHpiDomainInfoT`. -/
structure SaHpiDomainInfoT where
  DomainId : SaHpiDomainIdT
  Rest : List Nat
  deriving DecidableEq, Repr

/-- The structure `SaHpiDrtEntryT`. -/
structure SaHpiDrtEntryT where
  DomainId : SaHpiDomainIdT
  Rest : List Nat
  deriving DecidableEq, Repr

/-- The structure `SaHpiConditionT`. -/
structure SaHpiConditionT where
  Type_ : Nat
  DomainId : SaHpiDomainIdT
  Rest : List Nat
  deriving DecidableEq, Repr

/-- The structure `SaHpiAlarmT`. -/
structure SaHpiAlarmT where
  AlarmId : Nat
  Severity : Nat
  AlarmCond : SaHpiConditionT
  Rest : List Nat
  deriving DecidableEq, Repr

/-- The structure `SaHpiDomainEventT`. -/
structure SaHpiDomainEventT where
  Type_ : Nat
  DomainId : SaHpiDomainIdT
  deriving DecidableEq, Repr

/-- The union `SaHpiEventUnionT`, seen through its arm `DomainEvent`: the bytes of that arm
as a `SaHpiDomainEventT`, and the bytes of the union behind it. -/
structure SaHpiEventUnionT where
  DomainEvent : SaHpiDomainEventT
  Rest : List Nat
  deriving DecidableEq, Repr

/-- The structure `SaHpiEventT`. -/
structure SaHpiEventT where
  EventType : Nat
  EventDataUnion : SaHpiEventUnionT
  Rest : List Nat
  deriving DecidableEq, Repr

/-- The structure `SaHpiEventLogEntryT`. -/
structure SaHpiEventLogEntryT where
  Event : SaHpiEventT
  Rest : List Nat
  deriving DecidableEq, Repr

/-- The structure `SaHpiRdrT`, as bytes. -/
abbrev SaHpiRdrT := List Nat

/-- The structure `SaHpiRptEntryT`, as bytes. -/
abbrev SaHpiRptEntryT := List Nat

/-- The structure `SaHpiEntityPathT`, as bytes. -/
abbrev SaHpiEntityPathT := List Nat

/-- The structure `SaHpiLoadIdT`, as bytes. -/
abbrev SaHpiLoadIdT := List Nat

/-- The scalar `SaHpiEvtQueueStatusT`. -/
abbrev SaHpiEvtQueueStatusT := Nat

/-- The scalar `SaHpiEventStateT`. -/
abbrev SaHpiEventStateT := Nat

/-- The scalar `SaHpiSensorNumT`. -/
abbrev SaHpiSensorNumT := Nat

/-! ## The wrappers -/

/-- The wrapper `saHpiSessionOpen`.  `SecurityParams` is an untyped pointer, of which only
nullness is tested.  The output is the content of `*SessionId` on return. -/
def saHpiSessionOpen (ohc_sess_open : SessOpen)
    (DomainId : SaHpiDomainIdT) (SessionId : Option SaHpiSessionIdT)
    (SecurityParams : Option Unit) : Outcome Unit (Option SaHpiSessionIdT) :=
  match SessionId, SecurityParams with
  | some sid, none =>
    let DomainId :=
      if DomainId = SAHPI_UNSPECIFIED_DOMAIN_ID then OH_DEFAULT_DOMAIN_ID else DomainId
    let r := ohc_sess_open DomainId sid
    ⟨r.1, some r.2, [Call.sess_open DomainId]⟩
  | _, _ => ⟨SA_ERR_HPI_INVALID_PARAMS, SessionId, []⟩

/-- The wrapper `saHpiDomainInfoGet`.  The output is the content of `*DomainInfo` on
return. -/
def saHpiDomainInfoGet (ohc_sess_rpc : Rpc Unit SaHpiDomainInfoT) (ohc_sess_get_did : GetDid)
    (SessionId : SaHpiSessionIdT) (DomainInfo : Option SaHpiDomainInfoT) :
    Outcome Unit (Option SaHpiDomainInfoT) :=
  match DomainInfo with
  | none => ⟨SA_ERR_HPI_INVALID_PARAMS, none, []⟩
  | some di =>
    let r := ohc_sess_rpc .eFsaHpiDomainInfoGet SessionId () di
    if r.1 = SA_OK then
      let g := ohc_sess_get_did SessionId r.2.DomainId
      ⟨g.1, some { r.2 with DomainId := g.2 },
        [Call.rpc .eFsaHpiDomainInfoGet SessionId (), Call.get_did SessionId]⟩
    else
      ⟨r.1, some r.2, [Call.rpc .eFsaHpiDomainInfoGet SessionId ()]⟩

/-- The wrapper `saHpiDrtEntryGet`.  The output is the content of `*NextEntryId` and of
`*DrtEntry` on return. -/
def saHpiDrtEntryGet (ohc_sess_rpc : Rpc SaHpiEntryIdT (SaHpiEntryIdT × SaHpiDrtEntryT))
    (ohc_sess_get_did : GetDid)
    (SessionId : SaHpiSessionIdT) (EntryId : SaHpiEntryIdT)
    (NextEntryId : Option SaHpiEntryIdT) (DrtEntry : Option SaHpiDrtEntryT) :
    Outcome SaHpiEntryIdT (Option SaHpiEntryIdT × Option SaHpiDrtEntryT) :=
  match DrtEntry, NextEntryId with
  | some de, some ne =>
    if EntryId = SAHPI_LAST_ENTRY then
      ⟨SA_ERR_HPI_INVALID_PARAMS, (NextEntryId, DrtEntry), []⟩
    else
      let r := ohc_sess_rpc .eFsaHpiDrtEntryGet SessionId EntryId (ne, de)
      if r.1 = SA_OK then
        let g := ohc_sess_get_did SessionId r.2.2.DomainId
        ⟨g.1, (some r.2.1, some { r.2.2 with DomainId := g.2 }),
          [Call.rpc .eFsaHpiDrtEntryGet SessionId EntryId, Call.get_did SessionId]⟩
      else
        ⟨r.1, (some r.2.1, some r.2.2), [Call.rpc .eFsaHpiDrtEntryGet SessionId EntryId]⟩
  | _, _ => ⟨SA_ERR_HPI_INVALID_PARAMS, (NextEntryId, DrtEntry), []⟩

/-- The wrapper `saHpiGetChildEntityPath`.  `ChildEntityPath` is handed to `ohc_sess_rpc` as
it comes, null or not.  The output is the content of `*InstanceId`, `*ChildEntityPath` and
`*RptUpdateCount` on return. -/
def saHpiGetChildEntityPath
    (ohc_sess_rpc : Rpc (SaHpiEntityPathT × Nat) (Nat × Option SaHpiEntityPathT × Nat))
    (SessionId : SaHpiSessionIdT) (ParentEntityPath : SaHpiEntityPathT)
    (InstanceId : Option Nat) (ChildEntityPath : Option SaHpiEntityPathT)
    (RptUpdateCount : Option Nat) :
    Outcome (SaHpiEntityPathT × Nat) (Option Nat × Option SaHpiEntityPathT × Option Nat) :=
  match InstanceId, RptUpdateCount with
  | some inst, some cnt =>
    if inst = SAHPI_LAST_ENTRY then
      ⟨SA_ERR_HPI_INVALID_PARAMS, (InstanceId, ChildEntityPath, RptUpdateCount), []⟩
    else
      let r := ohc_sess_rpc .eFsaHpiGetChildEntityPath SessionId (ParentEntityPath, inst)
        (inst, ChildEntityPath, cnt)
      ⟨r.1, (some r.2.1, r.2.2.1, some r.2.2.2),
        [Call.rpc .eFsaHpiGetChildEntityPath SessionId (ParentEntityPath, inst)]⟩
  | _, _ => ⟨SA_ERR_HPI_INVALID_PARAMS, (InstanceId, ChildEntityPath, RptUpdateCount), []⟩

/-- The caller's buffers of `saHpiEventLogEntryGet`. -/
structure EventLogEntryGetOut where
  PrevEntryId : Option SaHpiEntryIdT
  NextEntryId : Option SaHpiEntryIdT
  EventLogEntry : Option SaHpiEventLogEntryT
  Rdr : Option SaHpiRdrT
  RptEntry : Option SaHpiRptEntryT
  deriving DecidableEq, Repr

/-- The wrapper `saHpiEventLogEntryGet`.  `rdr`, `rpte` and `did` are the uninitialised
locals of the C function. -/
def saHpiEventLogEntryGet
    (ohc_sess_rpc : Rpc (SaHpiResourceIdT × SaHpiEntryIdT)
      (SaHpiEntryIdT × SaHpiEntryIdT × SaHpiEventLogEntryT × SaHpiRdrT × SaHpiRptEntryT))
    (ohc_sess_get_did : GetDid)
    (rdr : SaHpiRdrT) (rpte : SaHpiRptEntryT) (did : SaHpiDomainIdT)
    (SessionId : SaHpiSessionIdT) (ResourceId : SaHpiResourceIdT) (EntryId : SaHpiEntryIdT)
    (PrevEntryId NextEntryId : Option SaHpiEntryIdT)
    (EventLogEntry : Option SaHpiEventLogEntryT)
    (Rdr : Option SaHpiRdrT) (RptEntry : Option SaHpiRptEntryT) :
    Outcome (SaHpiResourceIdT × SaHpiEntryIdT) EventLogEntryGetOut :=
  match PrevEntryId, EventLogEntry, NextEntryId with
  | some pe, some ele, some ne =>
    if EntryId = SAHPI_NO_MORE_ENTRIES then
      ⟨SA_ERR_HPI_INVALID_PARAMS, ⟨PrevEntryId, NextEntryId, EventLogEntry, Rdr, RptEntry⟩, []⟩
    else
      let r := ohc_sess_rpc .eFsaHpiEventLogEntryGet SessionId (ResourceId, EntryId)
        (pe, ne, ele, rdr, rpte)
      let rv := r.1
      let pe := r.2.1
      let ne := r.2.2.1
      let ele := r.2.2.2.1
      let rdr := r.2.2.2.2.1
      let rpte := r.2.2.2.2.2
      -- if (Rdr) memcpy(Rdr, &rdr, ...); if (RptEntry) memcpy(RptEntry, &rpte, ...);
      let Rdr := Rdr.map (fun _ => rdr)
      let RptEntry := RptEntry.map (fun _ => rpte)
      let call := Call.rpc .eFsaHpiEventLogEntryGet SessionId (ResourceId, EntryId)
      if ResourceId = SAHPI_UNSPECIFIED_RESOURCE_ID ∧ ele.Event.EventType = SAHPI_ET_DOMAIN then
        if rv = SA_OK then
          let g := ohc_sess_get_did SessionId did
          let ele := { ele with Event := { ele.Event with EventDataUnion :=
            { ele.Event.EventDataUnion with DomainEvent :=
              { ele.Event.EventDataUnion.DomainEvent with DomainId := g.2 } } } }
          ⟨g.1, ⟨some pe, some ne, some ele, Rdr, RptEntry⟩, [call, Call.get_did SessionId]⟩
        else
          ⟨rv, ⟨some pe, some ne, some ele, Rdr, RptEntry⟩, [call]⟩
      else
        ⟨rv, ⟨some pe, some ne, some ele, Rdr, RptEntry⟩, [call]⟩
  | _, _, _ =>
    ⟨SA_ERR_HPI_INVALID_PARAMS, ⟨PrevEntryId, NextEntryId, EventLogEntry, Rdr, RptEntry⟩, []⟩

/-- The caller's buffers of `saHpiEventGet`. -/
structure EventGetOut where
  Event : Option SaHpiEventT
  Rdr : Option SaHpiRdrT
  RptEntry : Option SaHpiRptEntryT
  EventQueueStatus : Option SaHpiEvtQueueStatusT
  deriving DecidableEq, Repr

/-- The wrapper `saHpiEventGet`.  `rdr`, `rpte` and `status` are the uninitialised locals of
the C function. -/
def saHpiEventGet
    (ohc_sess_rpc : Rpc SaHpiTimeoutT
      (SaHpiEventT × SaHpiRdrT × SaHpiRptEntryT × SaHpiEvtQueueStatusT))
    (rdr : SaHpiRdrT) (rpte : SaHpiRptEntryT) (status : SaHpiEvtQueueStatusT)
    (SessionId : SaHpiSessionIdT) (Timeout : SaHpiTimeoutT)
    (Event : Option SaHpiEventT) (Rdr : Option SaHpiRdrT)
    (RptEntry : Option SaHpiRptEntryT) (EventQueueStatus : Option SaHpiEvtQueueStatusT) :
    Outcome SaHpiTimeoutT EventGetOut :=
  match Event with
  | none => ⟨SA_ERR_HPI_INVALID_PARAMS, ⟨Event, Rdr, RptEntry, EventQueueStatus⟩, []⟩
  | some ev =>
    if Timeout < SAHPI_TIMEOUT_BLOCK then
      ⟨SA_ERR_HPI_INVALID_PARAMS, ⟨Event, Rdr, RptEntry, EventQueueStatus⟩, []⟩
    else
      let r := ohc_sess_rpc .eFsaHpiEventGet SessionId Timeout (ev, rdr, rpte, status)
      let ev := r.2.1
      let rdr := r.2.2.1
      let rpte := r.2.2.2.1
      let status := r.2.2.2.2
      ⟨r.1,
        ⟨some ev, Rdr.map (fun _ => rdr), RptEntry.map (fun _ => rpte),
          EventQueueStatus.map (fun _ => status)⟩,
        [Call.rpc .eFsaHpiEventGet SessionId Timeout]⟩

/-- The wrapper `saHpiAlarmGetNext`.  `lookup` is `oh_lookup_severity` (utility library, not
among the sources), which returns a null pointer for an unknown severity.  `*Alarm` is both
input and output of the call.  The output is the content of `*Alarm` on return. -/
def saHpiAlarmGetNext (lookup : Nat → Option String)
    (ohc_sess_rpc : Rpc (Nat × Nat × SaHpiAlarmT) SaHpiAlarmT) (ohc_sess_get_did : GetDid)
    (SessionId : SaHpiSessionIdT) (Severity : Nat) (Unack : Nat)
    (Alarm : Option SaHpiAlarmT) : Outcome (Nat × Nat × SaHpiAlarmT) (Option SaHpiAlarmT) :=
  match Alarm with
  | none => ⟨SA_ERR_HPI_INVALID_PARAMS, none, []⟩
  | some al =>
    if (lookup Severity).isNone then
      ⟨SA_ERR_HPI_INVALID_PARAMS, Alarm, []⟩
    else if al.AlarmId = SAHPI_LAST_ENTRY then
      ⟨SA_ERR_HPI_NOT_PRESENT, Alarm, []⟩
    else
      let call := Call.rpc .eFsaHpiAlarmGetNext SessionId (Severity, Unack, al)
      let r := ohc_sess_rpc .eFsaHpiAlarmGetNext SessionId (Severity, Unack, al) al
      if r.1 = SA_OK then
        let g := ohc_sess_get_did SessionId r.2.AlarmCond.DomainId
        ⟨g.1, some { r.2 with AlarmCond := { r.2.AlarmCond with DomainId := g.2 } },
          [call, Call.get_did SessionId]⟩
      else
        ⟨r.1, some r.2, [call]⟩

/-- The wrapper `saHpiAlarmGet`.  The output is the content of `*Alarm` on return. -/
def saHpiAlarmGet (ohc_sess_rpc : Rpc Nat SaHpiAlarmT) (ohc_sess_get_did : GetDid)
    (SessionId : SaHpiSessionIdT) (AlarmId : Nat) (Alarm : Option SaHpiAlarmT) :
    Outcome Nat (Option SaHpiAlarmT) :=
  match Alarm with
  | none => ⟨SA_ERR_HPI_INVALID_PARAMS, none, []⟩
  | some al =>
    let call := Call.rpc .eFsaHpiAlarmGet SessionId AlarmId
    let r := ohc_sess_rpc .eFsaHpiAlarmGet SessionId AlarmId al
    if r.1 = SA_OK then
      let g := ohc_sess_get_did SessionId r.2.AlarmCond.DomainId
      ⟨g.1, some { r.2 with AlarmCond := { r.2.AlarmCond with DomainId := g.2 } },
        [call, Call.get_did SessionId]⟩
    else
      ⟨r.1, some r.2, [call]⟩

/-- The wrapper `saHpiAlarmAdd`.  `lookup` is `oh_lookup_severity`.  The output is the
content of `*Alarm` on return. -/
def saHpiAlarmAdd (lookup : Nat → Option String)
    (ohc_sess_rpc : Rpc SaHpiAlarmT SaHpiAlarmT) (ohc_sess_get_did : GetDid)
    (SessionId : SaHpiSessionIdT) (Alarm : Option SaHpiAlarmT) :
    Outcome SaHpiAlarmT (Option SaHpiAlarmT) :=
  match Alarm with
  | none => ⟨SA_ERR_HPI_INVALID_PARAMS, none, []⟩
  | some al =>
    if (lookup al.Severity).isNone ∨ al.AlarmCond.Type_ ≠ SAHPI_STATUS_COND_TYPE_USER then
      ⟨SA_ERR_HPI_INVALID_PARAMS, Alarm, []⟩
    else
      let call := Call.rpc .eFsaHpiAlarmAdd SessionId al
      let r := ohc_sess_rpc .eFsaHpiAlarmAdd SessionId al al
      if r.1 = SA_OK then
        let g := ohc_sess_get_did SessionId r.2.AlarmCond.DomainId
        ⟨g.1, some { r.2 with AlarmCond := { r.2.AlarmCond with DomainId := g.2 } },
          [call, Call.get_did SessionId]⟩
      else
        ⟨r.1, some r.2, [call]⟩

/-- The wrapper `saHpiSensorReadingGet`.  `reading` and `state` are the uninitialised locals
of the C function.  The output is the content of `*Reading` and `*EventState` on return. -/
def saHpiSensorReadingGet
    (ohc_sess_rpc : Rpc (SaHpiResourceIdT × SaHpiSensorNumT)
      (SaHpiSensorReadingT × SaHpiEventStateT))
    (reading : SaHpiSensorReadingT) (state : SaHpiEventStateT)
    (SessionId : SaHpiSessionIdT) (ResourceId : SaHpiResourceIdT)
    (SensorNum : SaHpiSensorNumT)
    (Reading : Option SaHpiSensorReadingT) (EventState : Option SaHpiEventStateT) :
    Outcome (SaHpiResourceIdT × SaHpiSensorNumT)
      (Option SaHpiSensorReadingT × Option SaHpiEventStateT) :=
  let r := ohc_sess_rpc .eFsaHpiSensorReadingGet SessionId (ResourceId, SensorNum)
    (reading, state)
  let reading := r.2.1
  let state := r.2.2
  ⟨r.1, (Reading.map (fun _ => reading), EventState.map (fun _ => state)),
    [Call.rpc .eFsaHpiSensorReadingGet SessionId (ResourceId, SensorNum)]⟩

/-- The wrapper `saHpiSensorThresholdsSet`.  `lookup` is `oh_lookup_sensorreadingtype`,
`tholds` the uninitialised local of the C function.  The output is the content of
`*Thresholds` on return. -/
def saHpiSensorThresholdsSet (lookup : Nat → Option String)
    (ohc_sess_rpc : Rpc (SaHpiResourceIdT × SaHpiSensorNumT × SaHpiSensorThresholdsT) Unit)
    (tholds : SaHpiSensorThresholdsT)
    (SessionId : SaHpiSessionIdT) (ResourceId : SaHpiResourceIdT)
    (SensorNum : SaHpiSensorNumT) (Thresholds : Option SaHpiSensorThresholdsT) :
    Outcome (SaHpiResourceIdT × SaHpiSensorNumT × SaHpiSensorThresholdsT)
      (Option SaHpiSensorThresholdsT) :=
  match Thresholds with
  | none => ⟨SA_ERR_HPI_INVALID_PARAMS, none, []⟩
  | some _ =>
    let c := clean_thresholds lookup Thresholds (some tholds)
    if c.1 ≠ SA_OK then ⟨c.1, Thresholds, []⟩
    else
      let tholds := c.2.getD tholds
      let r := ohc_sess_rpc .eFsaHpiSensorThresholdsSet SessionId
        (ResourceId, SensorNum, tholds) ()
      ⟨r.1, Thresholds,
        [Call.rpc .eFsaHpiSensorThresholdsSet SessionId (ResourceId, SensorNum, tholds)]⟩

/-- The wrapper `saHpiAutoInsertTimeoutSet`. -/
def saHpiAutoInsertTimeoutSet (ohc_sess_rpc : Rpc SaHpiTimeoutT Unit)
    (SessionId : SaHpiSessionIdT) (Timeout : SaHpiTimeoutT) : Outcome SaHpiTimeoutT Unit :=
  if Timeout ≠ SAHPI_TIMEOUT_IMMEDIATE ∧ Timeout ≠ SAHPI_TIMEOUT_BLOCK ∧ Timeout < 0 then
    ⟨SA_ERR_HPI_INVALID_PARAMS, (), []⟩
  else
    let r := ohc_sess_rpc .eFsaHpiAutoInsertTimeoutSet SessionId Timeout ()
    ⟨r.1, (), [Call.rpc .eFsaHpiAutoInsertTimeoutSet SessionId Timeout]⟩

/-- The wrapper `saHpiAutoExtractTimeoutSet`. -/
def saHpiAutoExtractTimeoutSet (ohc_sess_rpc : Rpc (SaHpiResourceIdT × SaHpiTimeoutT) Unit)
    (SessionId : SaHpiSessionIdT) (ResourceId : SaHpiResourceIdT)
    (Timeout : SaHpiTimeoutT) : Outcome (SaHpiResourceIdT × SaHpiTimeoutT) Unit :=
  if Timeout ≠ SAHPI_TIMEOUT_IMMEDIATE ∧ Timeout ≠ SAHPI_TIMEOUT_BLOCK ∧ Timeout < 0 then
    ⟨SA_ERR_HPI_INVALID_PARAMS, (), []⟩
  else
    let r := ohc_sess_rpc .eFsaHpiAutoExtractTimeoutSet SessionId (ResourceId, Timeout) ()
    ⟨r.1, (), [Call.rpc .eFsaHpiAutoExtractTimeoutSet SessionId (ResourceId, Timeout)]⟩

/-- The wrapper `saHpiResourceLoadIdGet`.  `LoadId` is handed to `ohc_sess_rpc` as it comes,
null or not.  The output is the content of `*LoadId` on return. -/
def saHpiResourceLoadIdGet (ohc_sess_rpc : Rpc SaHpiResourceIdT (Option SaHpiLoadIdT))
    (SessionId : SaHpiSessionIdT) (ResourceId : SaHpiResourceIdT)
    (LoadId : Option SaHpiLoadIdT) : Outcome SaHpiResourceIdT (Option SaHpiLoadIdT) :=
  let r := ohc_sess_rpc .eFsaHpiResourceLoadIdGet SessionId ResourceId LoadId
  ⟨r.1, r.2, [Call.rpc .eFsaHpiResourceLoadIdGet SessionId ResourceId]⟩

/-- The wrapper `saHpiResourceLoadIdSet`, the sibling of `saHpiResourceLoadIdGet`: it tests
its `LoadId` for null before the call. -/
def saHpiResourceLoadIdSet (ohc_sess_rpc : Rpc (SaHpiResourceIdT × SaHpiLoadIdT) Unit)
    (SessionId : SaHpiSessionIdT) (ResourceId : SaHpiResourceIdT)
    (LoadId : Option SaHpiLoadIdT) : Outcome (SaHpiResourceIdT × SaHpiLoadIdT) Unit :=
  match LoadId with
  | none => ⟨SA_ERR_HPI_INVALID_PARAMS, (), []⟩
  | some l =>
    let r := ohc_sess_rpc .eFsaHpiResourceLoadIdSet SessionId (ResourceId, l) ()
    ⟨r.1, (), [Call.rpc .eFsaHpiResourceLoadIdSet SessionId (ResourceId, l)]⟩

/-! ## Further constants and structures of `SaHpi.h` / `oHpi.h` -/

/-- Modelled from the spec: the header `SaHpi.h` is not among the sources;
value of `SA_ERR_HPI_UNSUPPORTED_API` (`SA_HPI_ERR_BASE - 2`). -/
def SA_ERR_HPI_UNSUPPORTED_API : SaErrorT := -1002

/-- Modelled from the spec: the header `SaHpi.h` is not among the sources;
`SAHPI_MAX_TEXT_BUFFER_LENGTH`. -/
def SAHPI_MAX_TEXT_BUFFER_LENGTH : Nat := 255

/-- Modelled from the spec: the header `SaHpi.h` is not among the sources;
enumerator `SAHPI_CTRL_MODE_AUTO` of `SaHpiCtrlModeT`. -/
def SAHPI_CTRL_MODE_AUTO : Nat := 0

/-- Modelled from the spec: the header `SaHpi.h` is not among the sources;
enumerator `SAHPI_CTRL_TYPE_DIGITAL` of `SaHpiCtrlTypeT`. -/
def SAHPI_CTRL_TYPE_DIGITAL : Nat := 0

/-- Modelled from the spec: the header `SaHpi.h` is not among the sources;
enumerator `SAHPI_CTRL_TYPE_STREAM` of `SaHpiCtrlTypeT`. -/
def SAHPI_CTRL_TYPE_STREAM : Nat := 3

/-- Modelled from the spec: the header `SaHpi.h` is not among the sources;
`SAHPI_CTRL_MAX_STREAM_LENGTH`. -/
def SAHPI_CTRL_MAX_STREAM_LENGTH : Nat := 4

/-- Modelled from the spec: the header `SaHpi.h` is not among the sources;
enumerator `SAHPI_TL_TYPE_BCDPLUS` of `SaHpiTextTypeT`. -/
def SAHPI_TL_TYPE_BCDPLUS : Nat := 1

/-- Modelled from the spec: the header `SaHpi.h` is not among the sources;
enumerator `SAHPI_TL_TYPE_ASCII6` of `SaHpiTextTypeT`. -/
def SAHPI_TL_TYPE_ASCII6 : Nat := 2

/-- Modelled from the spec: the header `SaHpi.h` is not among the sources;
enumerator `SAHPI_TL_TYPE_TEXT` of `SaHpiTextTypeT`. -/
def SAHPI_TL_TYPE_TEXT : Nat := 3

/-- The structure `SaHpiTextBufferT`; `Data` has `SAHPI_MAX_TEXT_BUFFER_LENGTH` bytes and
`DataLength` is an 8-bit value in C. -/
structure SaHpiTextBufferT where
  DataType : Nat
  Language : Nat
  DataLength : Nat
  Data : List Nat
  deriving DecidableEq, Repr

/-- The union `SaHpiCtrlStateUnionT`, seen through the members the wrappers read: `Digital`
(the first word), `Stream.StreamLength` (the word behind `Stream.Repeat`), and the bytes
behind these two words. -/
structure SaHpiCtrlStateUnionT where
  Digital : Nat
  StreamLength : Nat
  Rest : List Nat
  deriving DecidableEq, Repr

/-- The structure `SaHpiCtrlStateT`. -/
structure SaHpiCtrlStateT where
  Type_ : Nat
  StateUnion : SaHpiCtrlStateUnionT
  deriving DecidableEq, Repr

/-- Content of a control state after `memset(&mystate, 0, sizeof(SaHpiCtrlStateT))`; the
union is 268 bytes long, 260 of them behind the two words named in the embedding. -/
def zeroCtrlState : SaHpiCtrlStateT :=
  { Type_ := 0, StateUnion := { Digital := 0, StreamLength := 0, Rest := zeroBytes 260 } }

/-- The structure `SaHpiWatchdogT`. -/
structure SaHpiWatchdogT where
  TimerUse : Nat
  TimerAction : Nat
  PretimerInterrupt : Nat
  PreTimeoutInterval : Nat
  InitialCount : Nat
  Rest : List Nat
  deriving DecidableEq, Repr

/-- The structure `oHpiHandlerConfigParamT`: two arrays of `SAHPI_MAX_TEXT_BUFFER_LENGTH`
bytes. -/
structure oHpiHandlerConfigParamT where
  Name : List Nat
  Value : List Nat
  deriving DecidableEq, Repr

/-- The structure `oHpiHandlerConfigT`: the 8-bit counter `NumberOfParams` and the array
`Params`. -/
structure oHpiHandlerConfigT where
  NumberOfParams : Nat
  Params : List oHpiHandlerConfigParamT
  deriving DecidableEq, Repr

/-- The structure `oh_domain_conf` of the domain registry; `host` is a C string, kept as
its bytes before the terminating NUL. -/
structure oh_domain_conf where
  did : SaHpiDomainIdT
  host : List Nat
  port : Nat
  deriving DecidableEq, Repr

/-- The structure `oHpiDomainEntryT`. -/
structure oHpiDomainEntryT where
  id : SaHpiDomainIdT
  daemonhost : SaHpiTextBufferT
  port : Nat
  deriving DecidableEq, Repr

/-- A call out of the library-level functions: `oh_client_init`, the functions of the domain
registry (`oh_client_conf`), and the text-buffer helpers of the utility library. -/
inductive LibCall where
  | client_init
  | add_domain_conf (host : List Nat) (port : Nat)
  | add_domain_conf_by_id (did : SaHpiDomainIdT) (host : List Nat) (port : Nat)
  | get_domain_conf (did : SaHpiDomainIdT)
  | init_textbuffer
  | append_textbuffer (from_ : List Nat)
  deriving DecidableEq, Repr

/-- What a library-level function leaves behind: status, content of the caller's buffers on
return, and the calls it made. -/
structure LibOutcome (O : Type) where
  rv : SaErrorT
  out : O
  calls : List LibCall
  deriving DecidableEq, Repr

/-- Content of the destination after `strncpy(dst, src, n)`, `src` being a C string given
by its bytes before the terminating NUL: at most `n` bytes of `src` are copied, the
remainder of the `n` bytes is filled with NUL, the bytes behind keep their value. -/
def strncpyBytes (dst src : List Nat) (n : Nat) : List Nat :=
  src.take n ++ List.replicate (n - src.length) 0 ++ dst.drop n

/-! ## Further wrappers -/

/-- The function `__dehash_config`, the callback of `g_hash_table_foreach`: `key` and
`value` are C strings, `hc` the configuration being filled. -/
def __dehash_config (key value : List Nat) (hc : oHpiHandlerConfigT) : oHpiHandlerConfigT :=
  { NumberOfParams := (hc.NumberOfParams + 1) % 256
    Params := hc.Params.modify
      (fun p =>
        { Name := strncpyBytes p.Name key SAHPI_MAX_TEXT_BUFFER_LENGTH
          Value := strncpyBytes p.Value value SAHPI_MAX_TEXT_BUFFER_LENGTH })
      hc.NumberOfParams }

/-- The wrapper `oHpiHandlerCreate`.  The hash table `config` is given by its entries in the
order `g_hash_table_foreach` visits them.  The output is the content of `*id` on return. -/
def oHpiHandlerCreate (ohc_sess_rpc : Rpc oHpiHandlerConfigT Nat)
    (sid : SaHpiSessionIdT) (config : Option (List (List Nat × List Nat)))
    (id : Option Nat) : Outcome oHpiHandlerConfigT (Option Nat) :=
  match config, id with
  | some cfg, some i =>
    if cfg.length = 0 then ⟨SA_ERR_HPI_INVALID_PARAMS, id, []⟩
    else
      -- handler_config.Params = g_new0(oHpiHandlerConfigParamT, g_hash_table_size(config));
      let handler_config : oHpiHandlerConfigT :=
        { NumberOfParams := 0
          Params := List.replicate cfg.length
            { Name := zeroBytes SAHPI_MAX_TEXT_BUFFER_LENGTH
              Value := zeroBytes SAHPI_MAX_TEXT_BUFFER_LENGTH } }
      let handler_config :=
        cfg.foldl (fun hc kv => __dehash_config kv.1 kv.2 hc) handler_config
      let r := ohc_sess_rpc .eFoHpiHandlerCreate sid handler_config i
      ⟨r.1, some r.2, [Call.rpc .eFoHpiHandlerCreate sid handler_config]⟩
  | _, _ => ⟨SA_ERR_HPI_INVALID_PARAMS, id, []⟩

/-- The wrapper `oHpiHandlerRetry`. -/
def oHpiHandlerRetry (ohc_sess_rpc : Rpc Nat Unit) (sid : SaHpiSessionIdT) (id : Nat) :
    Outcome Nat Unit :=
  if id = 0 then ⟨SA_ERR_HPI_INVALID_PARAMS, (), []⟩
  else
    let r := ohc_sess_rpc .eFoHpiHandlerRetry sid id ()
    ⟨r.1, (), [Call.rpc .eFoHpiHandlerRetry sid id]⟩

/-- The wrapper `saHpiRptEntryGet`.  The output is the content of `*NextEntryId` and
`*RptEntry` on return. -/
def saHpiRptEntryGet (ohc_sess_rpc : Rpc SaHpiEntryIdT (SaHpiEntryIdT × SaHpiRptEntryT))
    (SessionId : SaHpiSessionIdT) (EntryId : SaHpiEntryIdT)
    (NextEntryId : Option SaHpiEntryIdT) (RptEntry : Option SaHpiRptEntryT) :
    Outcome SaHpiEntryIdT (Option SaHpiEntryIdT × Option SaHpiRptEntryT) :=
  match NextEntryId, RptEntry with
  | some ne, some re =>
    if EntryId = SAHPI_LAST_ENTRY then
      ⟨SA_ERR_HPI_INVALID_PARAMS, (NextEntryId, RptEntry), []⟩
    else
      let r := ohc_sess_rpc .eFsaHpiRptEntryGet SessionId EntryId (ne, re)
      ⟨r.1, (some r.2.1, some r.2.2), [Call.rpc .eFsaHpiRptEntryGet SessionId EntryId]⟩
  | _, _ => ⟨SA_ERR_HPI_INVALID_PARAMS, (NextEntryId, RptEntry), []⟩

/-- The wrapper `saHpiResourceSeveritySet`.  `lookup` is `oh_lookup_severity`. -/
def saHpiResourceSeveritySet (lookup : Nat → Option String)
    (ohc_sess_rpc : Rpc (SaHpiResourceIdT × Nat) Unit)
    (SessionId : SaHpiSessionIdT) (ResourceId : SaHpiResourceIdT) (Severity : Nat) :
    Outcome (SaHpiResourceIdT × Nat) Unit :=
  if ResourceId = SAHPI_UNSPECIFIED_RESOURCE_ID then ⟨SA_ERR_HPI_INVALID_PARAMS, (), []⟩
  else if (lookup Severity).isNone then ⟨SA_ERR_HPI_INVALID_PARAMS, (), []⟩
  else
    let r := ohc_sess_rpc .eFsaHpiResourceSeveritySet SessionId (ResourceId, Severity) ()
    ⟨r.1, (), [Call.rpc .eFsaHpiResourceSeveritySet SessionId (ResourceId, Severity)]⟩

/-- The local check of `saHpiControlSet` that leads to `SA_ERR_HPI_INVALID_PARAMS`.
`lookup_mode` is `oh_lookup_ctrlmode`, `lookup_digital` is `oh_lookup_ctrlstatedigital`. -/
def saHpiControlSet_invalid_params (lookup_mode lookup_digital : Nat → Option String)
    (Mode : Nat) (State : Option SaHpiCtrlStateT) : Bool :=
  (lookup_mode Mode).isNone ||
  (Mode != SAHPI_CTRL_MODE_AUTO && State.isNone) ||
  State.any (fun st => st.Type_ == SAHPI_CTRL_TYPE_DIGITAL &&
    (lookup_digital st.StateUnion.Digital).isNone) ||
  State.any (fun st => st.Type_ == SAHPI_CTRL_TYPE_STREAM &&
    decide (st.StateUnion.StreamLength > SAHPI_CTRL_MAX_STREAM_LENGTH))

/-- The wrapper `saHpiControlSet`.  `lookup_type` is `oh_lookup_ctrltype`.  The last input
parameter of the call is the pointer `pmystate`. -/
def saHpiControlSet (lookup_mode lookup_digital lookup_type : Nat → Option String)
    (ohc_sess_rpc : Rpc (SaHpiResourceIdT × Nat × Nat × Option SaHpiCtrlStateT) Unit)
    (SessionId : SaHpiSessionIdT) (ResourceId : SaHpiResourceIdT) (CtrlNum : Nat)
    (Mode : Nat) (State : Option SaHpiCtrlStateT) :
    Outcome (SaHpiResourceIdT × Nat × Nat × Option SaHpiCtrlStateT) Unit :=
  if saHpiControlSet_invalid_params lookup_mode lookup_digital Mode State then
    ⟨SA_ERR_HPI_INVALID_PARAMS, (), []⟩
  else
    let mystate := zeroCtrlState
    let forward (pmystate : Option SaHpiCtrlStateT) :
        Outcome (SaHpiResourceIdT × Nat × Nat × Option SaHpiCtrlStateT) Unit :=
      let r := ohc_sess_rpc .eFsaHpiControlSet SessionId (ResourceId, CtrlNum, Mode, pmystate) ()
      ⟨r.1, (), [Call.rpc .eFsaHpiControlSet SessionId (ResourceId, CtrlNum, Mode, pmystate)]⟩
    if Mode = SAHPI_CTRL_MODE_AUTO then forward (some mystate)
    else if State.any (fun st => (lookup_type st.Type_).isNone) then
      ⟨SA_ERR_HPI_INVALID_DATA, (), []⟩
    else forward State

/-- The wrapper `saHpiWatchdogTimerSet`.  The three lookups are
`oh_lookup_watchdogtimeruse`, `oh_lookup_watchdogaction` and
`oh_lookup_watchdogpretimerinterrupt`. -/
def saHpiWatchdogTimerSet (lookup_use lookup_action lookup_pretimer : Nat → Option String)
    (ohc_sess_rpc : Rpc (SaHpiResourceIdT × Nat × SaHpiWatchdogT) Unit)
    (SessionId : SaHpiSessionIdT) (ResourceId : SaHpiResourceIdT) (WatchdogNum : Nat)
    (Watchdog : Option SaHpiWatchdogT) :
    Outcome (SaHpiResourceIdT × Nat × SaHpiWatchdogT) Unit :=
  match Watchdog with
  | none => ⟨SA_ERR_HPI_INVALID_PARAMS, (), []⟩
  | some wd =>
    if (lookup_use wd.TimerUse).isNone ∨ (lookup_action wd.TimerAction).isNone ∨
        (lookup_pretimer wd.PretimerInterrupt).isNone then
      ⟨SA_ERR_HPI_INVALID_PARAMS, (), []⟩
    else if wd.PreTimeoutInterval > wd.InitialCount then
      ⟨SA_ERR_HPI_INVALID_DATA, (), []⟩
    else
      let r := ohc_sess_rpc .eFsaHpiWatchdogTimerSet SessionId (ResourceId, WatchdogNum, wd) ()
      ⟨r.1, (), [Call.rpc .eFsaHpiWatchdogTimerSet SessionId (ResourceId, WatchdogNum, wd)]⟩

/-- The wrapper `saHpiDimiTestStatusGet`.  `percent` is the uninitialised local of the C
function, to which `ppercent` points at first; `ppercent` is replaced by the caller's
pointer only when that pointer is null.  The output is the content of `*PercentCompleted`
and `*RunStatus` on return. -/
def saHpiDimiTestStatusGet
    (ohc_sess_rpc : Rpc (SaHpiResourceIdT × Nat × Nat) (Option Nat × Nat))
    (percent : Nat)
    (SessionId : SaHpiSessionIdT) (ResourceId : SaHpiResourceIdT) (DimiNum TestNum : Nat)
    (PercentCompleted : Option Nat) (RunStatus : Option Nat) :
    Outcome (SaHpiResourceIdT × Nat × Nat) (Option Nat × Option Nat) :=
  match RunStatus with
  | none => ⟨SA_ERR_HPI_INVALID_PARAMS, (PercentCompleted, RunStatus), []⟩
  | some rs =>
    let ppercent : Option Nat := some percent
    -- if (!PercentCompleted) ppercent = PercentCompleted;
    let ppercent := if PercentCompleted.isNone then PercentCompleted else ppercent
    let r := ohc_sess_rpc .eFsaHpiDimiTestStatusGet SessionId (ResourceId, DimiNum, TestNum)
      (ppercent, rs)
    ⟨r.1, (PercentCompleted, some r.2.2),
      [Call.rpc .eFsaHpiDimiTestStatusGet SessionId (ResourceId, DimiNum, TestNum)]⟩

/-! ## Library-level functions -/

/-- The function `saHpiInitialize`.  `vmin` and `vmax` are
`OH_SAHPI_INTERFACE_VERSION_MIN_SUPPORTED` and `OH_SAHPI_INTERFACE_VERSION_MAX_SUPPORTED`
(defined in a header that is not among the sources).  Of `Options` only nullness is tested;
`FailedOption` and `OptionError` are never touched. -/
def saHpiInitialize (vmin vmax : Nat)
    (RequestedVersion : Nat) (NumOptions : Nat) (Options : Option Unit) : LibOutcome Unit :=
  if RequestedVersion < vmin ∨ RequestedVersion > vmax then
    ⟨SA_ERR_HPI_UNSUPPORTED_API, (), []⟩
  else if NumOptions ≠ 0 ∧ Options = none then
    ⟨SA_ERR_HPI_INVALID_PARAMS, (), []⟩
  else
    ⟨SA_OK, (), [LibCall.client_init]⟩

/-- The local buffer `buf` of `oHpiDomainAdd` and `oHpiDomainAddById` after
`memcpy(&buf[0], &host->Data[0], host->DataLength); buf[host->DataLength] = 0;`. -/
def hostBuffer (buf : List Nat) (host : SaHpiTextBufferT) : List Nat :=
  (memcpyBytes buf host.Data host.DataLength).set host.DataLength 0

/-- The function `oHpiDomainAdd`.  `oh_add_domain_conf` is the registry function (not among
the sources): from the buffer, the port and the current content of `*domain_id` to the
status and the new content of `*domain_id`.  `buf` is the uninitialised local array of
`SAHPI_MAX_TEXT_BUFFER_LENGTH + 1` bytes.  The output is the content of `*domain_id` on
return. -/
def oHpiDomainAdd
    (oh_add_domain_conf : List Nat → Nat → SaHpiDomainIdT → SaErrorT × SaHpiDomainIdT)
    (buf : List Nat)
    (host : Option SaHpiTextBufferT) (port : Nat) (domain_id : Option SaHpiDomainIdT) :
    LibOutcome (Option SaHpiDomainIdT) :=
  match host with
  | none => ⟨SA_ERR_HPI_INVALID_PARAMS, domain_id, []⟩
  | some h =>
    match domain_id with
    | none => ⟨SA_ERR_HPI_INVALID_PARAMS, domain_id, []⟩
    | some did =>
      if h.DataType ≠ SAHPI_TL_TYPE_BCDPLUS ∧ h.DataType ≠ SAHPI_TL_TYPE_ASCII6 ∧
          h.DataType ≠ SAHPI_TL_TYPE_TEXT then
        ⟨SA_ERR_HPI_INVALID_DATA, domain_id, []⟩
      else
        let buf := hostBuffer buf h
        let r := oh_add_domain_conf buf port did
        ⟨r.1, some r.2, [LibCall.client_init, LibCall.add_domain_conf buf port]⟩

/-- The function `oHpiDomainAddById`.  `oh_add_domain_conf_by_id` is the registry function
(not among the sources). -/
def oHpiDomainAddById
    (oh_add_domain_conf_by_id : SaHpiDomainIdT → List Nat → Nat → SaErrorT)
    (buf : List Nat)
    (domain_id : SaHpiDomainIdT) (host : Option SaHpiTextBufferT) (port : Nat) :
    LibOutcome Unit :=
  match host with
  | none => ⟨SA_ERR_HPI_INVALID_PARAMS, (), []⟩
  | some h =>
    if h.DataType ≠ SAHPI_TL_TYPE_BCDPLUS ∧ h.DataType ≠ SAHPI_TL_TYPE_ASCII6 ∧
        h.DataType ≠ SAHPI_TL_TYPE_TEXT then
      ⟨SA_ERR_HPI_INVALID_DATA, (), []⟩
    else
      let buf := hostBuffer buf h
      ⟨oh_add_domain_conf_by_id domain_id buf port, (),
        [LibCall.client_init, LibCall.add_domain_conf_by_id domain_id buf port]⟩

/-- The function `oHpiDomainEntryGetByDomainId`.  `oh_get_domain_conf` is the registry
lookup, `oh_init_textbuffer` and `oh_append_textbuffer` are the text-buffer helpers of the
utility library (none of them among the sources); each helper maps the current content of
the buffer to its status and the new content.  The output is the content of `*DomainEntry`
on return. -/
def oHpiDomainEntryGetByDomainId
    (oh_get_domain_conf : SaHpiDomainIdT → Option oh_domain_conf)
    (oh_init_textbuffer : SaHpiTextBufferT → SaErrorT × SaHpiTextBufferT)
    (oh_append_textbuffer : SaHpiTextBufferT → List Nat → SaErrorT × SaHpiTextBufferT)
    (DomainId : SaHpiDomainIdT) (DomainEntry : Option oHpiDomainEntryT) :
    LibOutcome (Option oHpiDomainEntryT) :=
  match DomainEntry with
  | none => ⟨SA_ERR_HPI_INVALID_PARAMS, none, []⟩
  | some de =>
    match oh_get_domain_conf DomainId with
    | none =>
      ⟨SA_ERR_HPI_NOT_PRESENT, some de, [LibCall.client_init, LibCall.get_domain_conf DomainId]⟩
    | some entry =>
      let de := { de with id := DomainId }
      let i := oh_init_textbuffer de.daemonhost
      let de := { de with daemonhost := i.2 }
      if i.1 ≠ SA_OK then
        ⟨SA_ERR_HPI_INVALID_PARAMS, some de,
          [LibCall.client_init, LibCall.get_domain_conf DomainId, LibCall.init_textbuffer]⟩
      else
        let a := oh_append_textbuffer de.daemonhost entry.host
        let de := { de with daemonhost := a.2 }
        if a.1 ≠ SA_OK then
          ⟨SA_ERR_HPI_INVALID_PARAMS, some de,
            [LibCall.client_init, LibCall.get_domain_conf DomainId, LibCall.init_textbuffer,
              LibCall.append_textbuffer entry.host]⟩
        else
          ⟨SA_OK, some { de with port := entry.port },
            [LibCall.client_init, LibCall.get_domain_conf DomainId, LibCall.init_textbuffer,
              LibCall.append_textbuffer entry.host]⟩

/-! ## Wrappers of controls and annunciators -/

/-- Modelled from the spec: the header `SaHpi.h` is not among the sources;
enumerator `SAHPI_CTRL_TYPE_ANALOG` of `SaHpiCtrlTypeT`. -/
def SAHPI_CTRL_TYPE_ANALOG : Nat := 2

/-- Modelled from the spec: the header `SaHpi.h` is not among the sources;
enumerator `SAHPI_CTRL_TYPE_TEXT` of `SaHpiCtrlTypeT`. -/
def SAHPI_CTRL_TYPE_TEXT : Nat := 4

/-- Modelled from the spec: the header `SaHpi.h` is not among the sources;
`SAHPI_ENTRY_UNSPECIFIED` (`SAHPI_FIRST_ENTRY`). -/
def SAHPI_ENTRY_UNSPECIFIED : SaHpiEntryIdT := 0

/-- Modelled from the spec: the header `SaHpi.h` is not among the sources;
enumerator `SAHPI_DEBUG` of `SaHpiSeverityT`. -/
def SAHPI_DEBUG : Nat := 5

/-- Modelled from the spec: the header `SaHpi.h` is not among the sources;
value of `SA_ERR_HPI_ERROR` (`SA_HPI_ERR_BASE - 1`). -/
def SA_ERR_HPI_ERROR : SaErrorT := -1001

/-- The wrapper `saHpiControlGet`.  `lookup_type` is `oh_lookup_ctrltype`; `mode` and `state`
are the uninitialised locals of the C function.  The local `state` is both input and output
of the call.  The output is the content of `*Mode` and `*State` on return. -/
def saHpiControlGet (lookup_type : Nat → Option String)
    (ohc_sess_rpc : Rpc (SaHpiResourceIdT × Nat × SaHpiCtrlStateT) (Nat × SaHpiCtrlStateT))
    (mode : Nat) (state : SaHpiCtrlStateT)
    (SessionId : SaHpiSessionIdT) (ResourceId : SaHpiResourceIdT) (CtrlNum : Nat)
    (Mode : Option Nat) (State : Option SaHpiCtrlStateT) :
    Outcome (SaHpiResourceIdT × Nat × SaHpiCtrlStateT) (Option Nat × Option SaHpiCtrlStateT) :=
  let state : SaHpiCtrlStateT :=
    match State with
    | some st =>
      -- memcpy(&state, State, sizeof(SaHpiCtrlStateT));
      if (lookup_type st.Type_).isNone then { st with Type_ := SAHPI_CTRL_TYPE_TEXT } else st
    | none => { state with Type_ := SAHPI_CTRL_TYPE_TEXT }
  let r := ohc_sess_rpc .eFsaHpiControlGet SessionId (ResourceId, CtrlNum, state) (mode, state)
  ⟨r.1, (Mode.map (fun _ => r.2.1), State.map (fun _ => r.2.2)),
    [Call.rpc .eFsaHpiControlGet SessionId (ResourceId, CtrlNum, state)]⟩

/-- The wrapper `saHpiAnnunciatorAcknowledge`.  `lookup` is `oh_lookup_severity`.  The last
input parameter of the call is the local `sev`. -/
def saHpiAnnunciatorAcknowledge (lookup : Nat → Option String)
    (ohc_sess_rpc : Rpc (SaHpiResourceIdT × Nat × SaHpiEntryIdT × Nat) Unit)
    (SessionId : SaHpiSessionIdT) (ResourceId : SaHpiResourceIdT) (AnnNum : Nat)
    (EntryId : SaHpiEntryIdT) (Severity : Nat) :
    Outcome (SaHpiResourceIdT × Nat × SaHpiEntryIdT × Nat) Unit :=
  let sev := SAHPI_DEBUG
  let forward (sev : Nat) : Outcome (SaHpiResourceIdT × Nat × SaHpiEntryIdT × Nat) Unit :=
    let r := ohc_sess_rpc .eFsaHpiAnnunciatorAcknowledge SessionId
      (ResourceId, AnnNum, EntryId, sev) ()
    ⟨r.1, (),
      [Call.rpc .eFsaHpiAnnunciatorAcknowledge SessionId (ResourceId, AnnNum, EntryId, sev)]⟩
  if EntryId = SAHPI_ENTRY_UNSPECIFIED then
    if (lookup Severity).isNone then ⟨SA_ERR_HPI_INVALID_PARAMS, (), []⟩
    else forward Severity
  else forward sev

/-- The wrapper `saHpiAnnunciatorDelete`.  `lookup` is `oh_lookup_severity`.  The last input
parameter of the call is the local `sev`. -/
def saHpiAnnunciatorDelete (lookup : Nat → Option String)
    (ohc_sess_rpc : Rpc (SaHpiResourceIdT × Nat × SaHpiEntryIdT × Nat) Unit)
    (SessionId : SaHpiSessionIdT) (ResourceId : SaHpiResourceIdT) (AnnNum : Nat)
    (EntryId : SaHpiEntryIdT) (Severity : Nat) :
    Outcome (SaHpiResourceIdT × Nat × SaHpiEntryIdT × Nat) Unit :=
  let sev := SAHPI_DEBUG
  let forward (sev : Nat) : Outcome (SaHpiResourceIdT × Nat × SaHpiEntryIdT × Nat) Unit :=
    let r := ohc_sess_rpc .eFsaHpiAnnunciatorDelete SessionId
      (ResourceId, AnnNum, EntryId, sev) ()
    ⟨r.1, (),
      [Call.rpc .eFsaHpiAnnunciatorDelete SessionId (ResourceId, AnnNum, EntryId, sev)]⟩
  if EntryId = SAHPI_ENTRY_UNSPECIFIED then
    if (lookup Severity).isNone then ⟨SA_ERR_HPI_INVALID_PARAMS, (), []⟩
    else forward Severity
  else forward sev

/-! ## The call sites of `ohc_sess_rpc` -/

/-- Every call of `ohc_sess_rpc` in `oh_client.cpp`, in the order of the file: the name of
the function that contains the call and the function code it passes. -/
def rpcCallSites : List (String × String) :=
  [
    ("saHpiDiscover", "eFsaHpiDiscover"),
    ("saHpiDomainInfoGet", "eFsaHpiDomainInfoGet"),
    ("saHpiDrtEntryGet", "eFsaHpiDrtEntryGet"),
    ("saHpiDomainTagSet", "eFsaHpiDomainTagSet"),
    ("saHpiRptEntryGet", "eFsaHpiRptEntryGet"),
    ("saHpiRptEntryGetByResourceId", "eFsaHpiRptEntryGetByResourceId"),
    ("saHpiResourceSeveritySet", "eFsaHpiResourceSeveritySet"),
    ("saHpiResourceTagSet", "eFsaHpiResourceTagSet"),
    ("saHpiMyEntityPathGet", "eFsaHpiMyEntityPathGet"),
    ("saHpiResourceIdGet", "eFsaHpiResourceIdGet"),
    ("saHpiGetIdByEntityPath", "eFsaHpiGetIdByEntityPath"),
    ("saHpiGetChildEntityPath", "eFsaHpiGetChildEntityPath"),
    ("saHpiResourceFailedRemove", "eFsaHpiResourceFailedRemove"),
    ("saHpiEventLogInfoGet", "eFsaHpiEventLogInfoGet"),
    ("saHpiEventLogCapabilitiesGet", "eFsaHpiEventLogCapabilitiesGet"),
    ("saHpiEventLogEntryGet", "eFsaHpiEventLogEntryGet"),
    ("saHpiEventLogEntryAdd", "eFsaHpiEventLogEntryAdd"),
    ("saHpiEventLogClear", "eFsaHpiEventLogClear"),
    ("saHpiEventLogTimeGet", "eFsaHpiEventLogTimeGet"),
    ("saHpiEventLogTimeSet", "eFsaHpiEventLogTimeSet"),
    ("saHpiEventLogStateGet", "eFsaHpiEventLogStateGet"),
    ("saHpiEventLogStateSet", "eFsaHpiEventLogStateSet"),
    ("saHpiEventLogOverflowReset", "eFsaHpiEventLogOverflowReset"),
    ("saHpiSubscribe", "eFsaHpiSubscribe"),
    ("saHpiUnsubscribe", "eFsaHpiUnsubscribe"),
    ("saHpiEventGet", "eFsaHpiEventGet"),
    ("saHpiEventAdd", "eFsaHpiEventAdd"),
    ("saHpiAlarmGetNext", "eFsaHpiAlarmGetNext"),
    ("saHpiAlarmGet", "eFsaHpiAlarmGet"),
    ("saHpiAlarmAcknowledge", "eFsaHpiAlarmAcknowledge"),
    ("saHpiAlarmAdd", "eFsaHpiAlarmAdd"),
    ("saHpiAlarmDelete", "eFsaHpiAlarmDelete"),
    ("saHpiRdrGet", "eFsaHpiRdrGet"),
    ("saHpiRdrGetByInstrumentId", "eFsaHpiRdrGetByInstrumentId"),
    ("saHpiRdrUpdateCountGet", "eFsaHpiRdrUpdateCountGet"),
    ("saHpiSensorReadingGet", "eFsaHpiSensorReadingGet"),
    ("saHpiSensorThresholdsGet", "eFsaHpiSensorThresholdsGet"),
    ("saHpiSensorThresholdsSet", "eFsaHpiSensorThresholdsSet"),
    ("saHpiSensorTypeGet", "eFsaHpiSensorTypeGet"),
    ("saHpiSensorEnableGet", "eFsaHpiSensorEnableGet"),
    ("saHpiSensorEnableSet", "eFsaHpiSensorEnableSet"),
    ("saHpiSensorEventEnableGet", "eFsaHpiSensorEventEnableGet"),
    ("saHpiSensorEventEnableSet", "eFsaHpiSensorEventEnableSet"),
    ("saHpiSensorEventMasksGet", "eFsaHpiSensorEventMasksGet"),
    ("saHpiSensorEventMasksSet", "eFsaHpiSensorEventMasksSet"),
    ("saHpiControlTypeGet", "eFsaHpiControlTypeGet"),
    ("saHpiControlGet", "eFsaHpiControlGet"),
    ("saHpiControlSet", "eFsaHpiControlSet"),
    ("saHpiIdrInfoGet", "eFsaHpiIdrInfoGet"),
    ("saHpiIdrAreaHeaderGet", "eFsaHpiIdrAreaHeaderGet"),
    ("saHpiIdrAreaAdd", "eFsaHpiIdrAreaAdd"),
    ("saHpiIdrAreaAddById", "eFsaHpiIdrAreaAddById"),
    ("saHpiIdrAreaDelete", "eFsaHpiIdrAreaDelete"),
    ("saHpiIdrFieldGet", "eFsaHpiIdrFieldGet"),
    ("saHpiIdrFieldAdd", "eFsaHpiIdrFieldAdd"),
    ("saHpiIdrFieldAddById", "eFsaHpiIdrFieldAddById"),
    ("saHpiIdrFieldSet", "eFsaHpiIdrFieldSet"),
    ("saHpiIdrFieldDelete", "eFsaHpiIdrFieldDelete"),
    ("saHpiWatchdogTimerGet", "eFsaHpiWatchdogTimerGet"),
    ("saHpiWatchdogTimerSet", "eFsaHpiWatchdogTimerSet"),
    ("saHpiWatchdogTimerReset", "eFsaHpiWatchdogTimerReset"),
    ("saHpiAnnunciatorGetNext", "eFsaHpiAnnunciatorGetNext"),
    ("saHpiAnnunciatorGet", "eFsaHpiAnnunciatorGet"),
    ("saHpiAnnunciatorAcknowledge", "eFsaHpiAnnunciatorAcknowledge"),
    ("saHpiAnnunciatorAdd", "eFsaHpiAnnunciatorAdd"),
    ("saHpiAnnunciatorDelete", "eFsaHpiAnnunciatorDelete"),
    ("saHpiAnnunciatorModeGet", "eFsaHpiAnnunciatorModeGet"),
    ("saHpiAnnunciatorModeSet", "eFsaHpiAnnunciatorModeSet"),
    ("saHpiDimiInfoGet", "eFsaHpiDimiInfoGet"),
    ("saHpiDimiTestInfoGet", "eFsaHpiDimiTestInfoGet"),
    ("saHpiDimiTestReadinessGet", "eFsaHpiDimiTestReadinessGet"),
    ("saHpiDimiTestStart", "eFsaHpiDimiTestStart"),
    ("saHpiDimiTestCancel", "eFsaHpiDimiTestCancel"),
    ("saHpiDimiTestStatusGet", "eFsaHpiDimiTestStatusGet"),
    ("saHpiDimiTestResultsGet", "eFsaHpiDimiTestResultsGet"),
    ("saHpiFumiSpecInfoGet", "eFsaHpiFumiSpecInfoGet"),
    ("saHpiFumiServiceImpactGet", "eFsaHpiFumiServiceImpactGet"),
    ("saHpiFumiSourceSet", "eFsaHpiFumiSourceSet"),
    ("saHpiFumiSourceInfoValidateStart", "eFsaHpiFumiSourceInfoValidateStart"),
    ("saHpiFumiSourceInfoGet", "eFsaHpiFumiSourceInfoGet"),
    ("saHpiFumiSourceComponentInfoGet", "eFsaHpiFumiSourceComponentInfoGet"),
    ("saHpiFumiTargetInfoGet", "eFsaHpiFumiTargetInfoGet"),
    ("saHpiFumiTargetComponentInfoGet", "eFsaHpiFumiTargetComponentInfoGet"),
    ("saHpiFumiLogicalTargetInfoGet", "eFsaHpiFumiLogicalTargetInfoGet"),
    ("saHpiFumiLogicalTargetComponentInfoGet", "eFsaHpiFumiLogicalTargetComponentInfoGet"),
    ("saHpiFumiBackupStart", "eFsaHpiFumiBackupStart"),
    ("saHpiFumiBankBootOrderSet", "eFsaHpiFumiBankBootOrderSet"),
    ("saHpiFumiBankCopyStart", "eFsaHpiFumiBankCopyStart"),
    ("saHpiFumiInstallStart", "eFsaHpiFumiInstallStart"),
    ("saHpiFumiUpgradeStatusGet", "eFsaHpiFumiUpgradeStatusGet"),
    ("saHpiFumiTargetVerifyStart", "eFsaHpiFumiTargetVerifyStart"),
    ("saHpiFumiTargetVerifyMainStart", "eFsaHpiFumiTargetVerifyMainStart"),
    ("saHpiFumiUpgradeCancel", "eFsaHpiFumiUpgradeCancel"),
    ("saHpiFumiAutoRollbackDisableGet", "eFsaHpiFumiAutoRollbackDisableGet"),
    ("saHpiFumiAutoRollbackDisableSet", "eFsaHpiFumiAutoRollbackDisableSet"),
    ("saHpiFumiRollbackStart", "eFsaHpiFumiRollbackStart"),
    ("saHpiFumiActivate", "eFsaHpiFumiActivate"),
    ("saHpiFumiActivateStart", "eFsaHpiFumiActivateStart"),
    ("saHpiFumiCleanup", "eFsaHpiFumiCleanup"),
    ("saHpiHotSwapPolicyCancel", "eFsaHpiHotSwapPolicyCancel"),
    ("saHpiResourceActiveSet", "eFsaHpiResourceActiveSet"),
    ("saHpiResourceInactiveSet", "eFsaHpiResourceInactiveSet"),
    ("saHpiAutoInsertTimeoutGet", "eFsaHpiAutoInsertTimeoutGet"),
    ("saHpiAutoInsertTimeoutSet", "eFsaHpiAutoInsertTimeoutSet"),
    ("saHpiAutoExtractTimeoutGet", "eFsaHpiAutoExtractTimeoutGet"),
    ("saHpiAutoExtractTimeoutSet", "eFsaHpiAutoExtractTimeoutSet"),
    ("saHpiHotSwapStateGet", "eFsaHpiHotSwapStateGet"),
    ("saHpiHotSwapActionRequest", "eFsaHpiHotSwapActionRequest"),
    ("saHpiHotSwapIndicatorStateGet", "eFsaHpiHotSwapIndicatorStateGet"),
    ("saHpiHotSwapIndicatorStateSet", "eFsaHpiHotSwapIndicatorStateSet"),
    ("saHpiParmControl", "eFsaHpiParmControl"),
    ("saHpiResourceLoadIdGet", "eFsaHpiResourceLoadIdGet"),
    ("saHpiResourceLoadIdSet", "eFsaHpiResourceLoadIdSet"),
    ("saHpiResourceResetStateGet", "eFsaHpiResourceResetStateGet"),
    ("saHpiResourceResetStateSet", "eFsaHpiResourceResetStateSet"),
    ("saHpiResourcePowerStateGet", "eFsaHpiResourcePowerStateGet"),
    ("saHpiResourcePowerStateSet", "eFsaHpiResourcePowerStateSet"),
    ("oHpiHandlerCreate", "eFoHpiHandlerCreate"),
    ("oHpiHandlerDestroy", "eFoHpiHandlerDestroy"),
    ("oHpiHandlerInfo", "eFoHpiHandlerInfo"),
    ("oHpiHandlerGetNext", "eFoHpiHandlerGetNext"),
    ("oHpiHandlerFind", "eFoHpiHandlerFind"),
    ("oHpiHandlerRetry", "eFoHpiHandlerRetry"),
    ("oHpiGlobalParamGet", "eFoHpiGlobalParamGet"),
    ("oHpiGlobalParamSet", "eFoHpiGlobalParamSet"),
    ("oHpiInjectEvent", "eFoHpiInjectEvent")
  ]

/-! ## Accesses of the host-name copy -/

/-- An access to one of the two arrays of the host-name copy: a read of `host->Data[i]` or a
write of `buf[i]`. -/
inductive HostCopyAccess where
  | read_data (i : Nat)
  | write_buf (i : Nat)
  deriving DecidableEq, Repr

/-- The accesses of `memcpy(&buf[0], &host->Data[0], host->DataLength);
buf[host->DataLength] = 0;` in `oHpiDomainAdd` and `oHpiDomainAddById`, for a host whose
`DataLength` is `n`: byte `i` is read and written for every `i` below `n`, then the
terminator is written at index `n`. -/
def hostCopyAccesses (n : Nat) : List HostCopyAccess :=
  (List.range n).flatMap (fun i => [HostCopyAccess.read_data i, HostCopyAccess.write_buf i]) ++
    [HostCopyAccess.write_buf n]

/-! ## The client `hpifan` (`clients/hpifan.c`)

`hpifan` calls the library through `saHpiControlGet` and `saHpiControlSet`.  The daemon keeps
a state between the calls, so the two functions are taken as functions on a state of the
world `W`. -/

/-- Value of the 32-bit word `w` read as a signed integer (`SaHpiInt32T`). -/
def int32OfWord (w : Nat) : Int :=
  if w % 4294967296 < 2147483648 then (w % 4294967296 : Nat)
  else ((w % 4294967296 : Nat) : Int) - 4294967296

/-- The 32-bit word that holds the signed integer `i`. -/
def wordOfInt32 (i : Int) : Nat := (i % 4294967296).toNat

/-- The member `StateUnion.Analog` of a control state: the first word of the union (the one
`Digital` names) read as a signed 32-bit integer. -/
def SaHpiCtrlStateT.Analog (st : SaHpiCtrlStateT) : Int := int32OfWord st.StateUnion.Digital

/-- The control state after `state.StateUnion.Analog = speed`. -/
def SaHpiCtrlStateT.setAnalog (st : SaHpiCtrlStateT) (speed : Int) : SaHpiCtrlStateT :=
  { st with StateUnion := { st.StateUnion with Digital := wordOfInt32 speed } }

/-- The structure `SaHpiCtrlRecT` as `do_fan` reads it: `Num`, `Type` and the members `Min`,
`Max` and `Default` of `TypeUnion.Analog` (signed 32-bit integers). -/
structure SaHpiCtrlRecT where
  Num : Nat
  Type_ : Nat
  AnalogMin : Int
  AnalogMax : Int
  AnalogDefault : Int
  deriving DecidableEq, Repr

/-- The file-level variables `set_new`, `new_mode` and `new_speed` of `hpifan.c`. -/
structure FanGlobals where
  set_new : Nat
  new_mode : Nat
  new_speed : Int
  deriving DecidableEq, Repr

/-- The uninitialised locals met during one run of `do_fan`: `ctrl_mode` and `speed` of
`do_fan`, and `state` of the two calls of `get_fan_speed` and of the call of
`set_fan_speed`. -/
structure FanLocals where
  ctrl_mode : Nat
  speed : Int
  state_get1 : SaHpiCtrlStateT
  state_set : SaHpiCtrlStateT
  state_get2 : SaHpiCtrlStateT
  deriving DecidableEq, Repr

/-- The two library functions that `hpifan` calls on controls, over a world `W`:
`saHpiControlGet` maps the arguments and the current content of `*Mode` and `*State` to the
status and the new content of both; `saHpiControlSet` maps its arguments to the status. -/
structure FanApi (W : Type) where
  saHpiControlGet : W → SaHpiSessionIdT → SaHpiResourceIdT → Nat → Nat → SaHpiCtrlStateT →
    (SaErrorT × Nat × SaHpiCtrlStateT) × W
  saHpiControlSet : W → SaHpiSessionIdT → SaHpiResourceIdT → Nat → Nat → SaHpiCtrlStateT →
    SaErrorT × W

/-- A call of the library made by `hpifan`. -/
inductive FanCall where
  | controlGet (sid : SaHpiSessionIdT) (rid : SaHpiResourceIdT) (num : Nat)
  | controlSet (sid : SaHpiSessionIdT) (rid : SaHpiResourceIdT) (num : Nat) (mode : Nat)
      (state : SaHpiCtrlStateT)
  deriving DecidableEq, Repr

/-- The function `get_fan_speed`.  `state` is its uninitialised local; `speed` and `mode` are
the current content of `*speed` and `*mode`.  The result is the status, the new content of
`*speed` and `*mode`, and the world after the call. -/
def get_fan_speed {W : Type} (api : FanApi W) (w : W) (state : SaHpiCtrlStateT)
    (session_id : SaHpiSessionIdT) (resource_id : SaHpiResourceIdT) (ctrl_num : Nat)
    (speed : Int) (mode : Nat) : (SaErrorT × Int × Nat) × W :=
  let r := api.saHpiControlGet w session_id resource_id ctrl_num mode state
  let rv := r.1.1
  let mode := r.1.2.1
  let state := r.1.2.2
  if rv ≠ SA_OK then ((rv, speed, mode), r.2)
  else if state.Type_ ≠ SAHPI_CTRL_TYPE_ANALOG then ((SA_ERR_HPI_ERROR, speed, mode), r.2)
  else ((SA_OK, state.Analog, mode), r.2)

/-- The control state that `set_fan_speed` builds in its uninitialised local `state`. -/
def fanState (state : SaHpiCtrlStateT) (speed : Int) : SaHpiCtrlStateT :=
  ({ state with Type_ := SAHPI_CTRL_TYPE_ANALOG } : SaHpiCtrlStateT).setAnalog speed

/-- The function `set_fan_speed`.  `state` is its uninitialised local. -/
def set_fan_speed {W : Type} (api : FanApi W) (w : W) (state : SaHpiCtrlStateT)
    (session_id : SaHpiSessionIdT) (resource_id : SaHpiResourceIdT) (ctrl_num : Nat)
    (speed : Int) (mode : Nat) : SaErrorT × W :=
  let r := api.saHpiControlSet w session_id resource_id ctrl_num mode (fanState state speed)
  if r.1 ≠ SA_OK then (r.1, r.2) else (SA_OK, r.2)

/-- What a run of `do_fan` leaves behind: its return value, the file-level variables, the
world, and the calls of the library it made, in order. -/
structure FanResult (W : Type) where
  ret : Int
  globals : FanGlobals
  world : W
  calls : List FanCall

/-- The function `do_fan`, without its printing.  `rec` is `rdr->RdrTypeUnion.CtrlRec`. -/
def do_fan {W : Type} (api : FanApi W) (w : W) (g : FanGlobals) (l : FanLocals)
    (session_id : SaHpiSessionIdT) (resource_id : SaHpiResourceIdT) (rec : SaHpiCtrlRecT) :
    FanResult W :=
  if rec.Type_ ≠ SAHPI_CTRL_TYPE_ANALOG then ⟨0, g, w, []⟩
  else
    let get1 := FanCall.controlGet session_id resource_id rec.Num
    let r1 := get_fan_speed api w l.state_get1 session_id resource_id rec.Num l.speed l.ctrl_mode
    let speed := r1.1.2.1
    let ctrl_mode := r1.1.2.2
    if r1.1.1 ≠ SA_OK then ⟨0, g, r1.2, [get1]⟩
    else if g.set_new = SAHPI_FALSE then ⟨0, g, r1.2, [get1]⟩
    else
      -- if ( new_mode == SAHPI_CTRL_MODE_AUTO ) new_speed = speed;
      let g := if g.new_mode = SAHPI_CTRL_MODE_AUTO then { g with new_speed := speed } else g
      if g.new_speed < rec.AnalogMin ∨ g.new_speed > rec.AnalogMax then
        ⟨0, g, r1.2, [get1]⟩
      else
        let set := FanCall.controlSet session_id resource_id rec.Num g.new_mode
          (fanState l.state_set g.new_speed)
        let r2 := set_fan_speed api r1.2 l.state_set session_id resource_id rec.Num
          g.new_speed g.new_mode
        if r2.1 ≠ SA_OK then ⟨0, g, r2.2, [get1, set]⟩
        else
          let r3 := get_fan_speed api r2.2 l.state_get2 session_id resource_id rec.Num
            speed ctrl_mode
          ⟨0, g, r3.2, [get1, set, get1]⟩

/-! ## Helpers of the statements, and concrete daemons, sessions and inputs -/

/-- The eight readings of a thresholds structure, in the order `clean_thresholds` visits
them. -/
def thresholdReadings (t : SaHpiSensorThresholdsT) : List SaHpiSensorReadingT :=
  [t.LowCritical, t.LowMajor, t.LowMinor, t.UpCritical, t.UpMajor, t.UpMinor,
    t.PosThdHysteresis, t.NegThdHysteresis]

/-- Status of `clean_reading` on the reading `x` (both pointers non-null). -/
def cleanStatus (lookup : Nat → Option String) (x : SaHpiSensorReadingT) : SaErrorT :=
  (clean_reading lookup (some x) (some zeroReading)).1

/-- Content that `clean_reading` leaves in its destination for the reading `x` (both
pointers non-null). -/
def cleanValue (lookup : Nat → Option String) (x : SaHpiSensorReadingT) :
    SaHpiSensorReadingT :=
  ((clean_reading lookup (some x) (some zeroReading)).2).getD zeroReading

/-- A table of reading types that knows the types 0 to 3 by the name "known". -/
def readingTypeLookup : Nat → Option String := fun t => if t ≤ 3 then some "known" else none

/-- A reading marked unsupported, with a stray type and stray bytes. -/
def unsupportedReading : SaHpiSensorReadingT :=
  { IsSupported := SAHPI_FALSE, Type_ := 77, Value := [1, 2, 3] }

/-- Thresholds whose eight readings are all marked unsupported. -/
def thresholdsAllUnsupported : SaHpiSensorThresholdsT :=
  { LowCritical := unsupportedReading, LowMajor := unsupportedReading,
    LowMinor := unsupportedReading, UpCritical := unsupportedReading,
    UpMajor := unsupportedReading, UpMinor := unsupportedReading,
    PosThdHysteresis := unsupportedReading, NegThdHysteresis := unsupportedReading }

/-- Thresholds whose `LowMajor` is a supported reading of the unknown type 77. -/
def thresholdsBadLowMajor : SaHpiSensorThresholdsT :=
  { thresholdsAllUnsupported with
    LowMajor := { IsSupported := SAHPI_TRUE, Type_ := 77, Value := [] } }

/-- A session table entry: every session was opened with virtual domain id 100. -/
def didLookup100 : GetDid := fun _ _ => (SA_OK, 100)

/-- A daemon answering `saHpiDomainInfoGet` with its real domain id 7. -/
def daemonDomainInfo7 : Rpc Unit SaHpiDomainInfoT :=
  fun _ _ _ _ => (SA_OK, { DomainId := 7, Rest := [1, 2] })

/-- A daemon answering `saHpiDrtEntryGet` with its real domain id 7. -/
def daemonDrtEntry7 : Rpc SaHpiEntryIdT (SaHpiEntryIdT × SaHpiDrtEntryT) :=
  fun _ _ _ _ => (SA_OK, (SAHPI_LAST_ENTRY, { DomainId := 7, Rest := [0] }))

/-- An alarm as the daemon reports it, with its real domain id 7. -/
def alarm7 : SaHpiAlarmT :=
  { AlarmId := 3, Severity := 1,
    AlarmCond := { Type_ := SAHPI_STATUS_COND_TYPE_USER, DomainId := 7, Rest := [] },
    Rest := [] }

/-- A daemon answering the alarm calls with `alarm7`. -/
def daemonAlarm7 (I : Type) : Rpc I SaHpiAlarmT := fun _ _ _ _ => (SA_OK, alarm7)

/-- A daemon failing the alarm calls with `SA_ERR_HPI_NOT_PRESENT`, having written
`alarm7`. -/
def daemonAlarmFails (I : Type) : Rpc I SaHpiAlarmT :=
  fun _ _ _ _ => (SA_ERR_HPI_NOT_PRESENT, alarm7)

/-- A severity table that knows the severities 0 to 4 by the name "known". -/
def severityLookup : Nat → Option String := fun s => if s ≤ 4 then some "known" else none

/-- A domain event as the daemon reports it, with domain id 7. -/
def domainEvent7 : SaHpiEventT :=
  { EventType := SAHPI_ET_DOMAIN,
    EventDataUnion := { DomainEvent := { Type_ := 0, DomainId := 7 }, Rest := [] },
    Rest := [] }

/-- A daemon answering `saHpiEventLogEntryGet` with the event `ev`. -/
def daemonEventLogEntry (ev : SaHpiEventT) :
    Rpc (SaHpiResourceIdT × SaHpiEntryIdT)
      (SaHpiEntryIdT × SaHpiEntryIdT × SaHpiEventLogEntryT × SaHpiRdrT × SaHpiRptEntryT) :=
  fun _ _ _ _ => (SA_OK, (0, 1, { Event := ev, Rest := [] }, [], []))

/-- An empty event, the content of a caller's buffer before a call. -/
def blankEvent : SaHpiEventT :=
  { EventType := 0,
    EventDataUnion := { DomainEvent := { Type_ := 0, DomainId := 0 }, Rest := [] },
    Rest := [] }

/-- The alarm `al` with the domain id of its condition replaced by `d`. -/
def SaHpiAlarmT.withDomainId (al : SaHpiAlarmT) (d : SaHpiDomainIdT) : SaHpiAlarmT :=
  { al with AlarmCond := { al.AlarmCond with DomainId := d } }

/-- The event log entry `e` with the domain id of its domain event replaced by `d`. -/
def SaHpiEventLogEntryT.withDomainId (e : SaHpiEventLogEntryT) (d : SaHpiDomainIdT) :
    SaHpiEventLogEntryT :=
  { e with Event := { e.Event with EventDataUnion :=
    { e.Event.EventDataUnion with DomainEvent :=
      { e.Event.EventDataUnion.DomainEvent with DomainId := d } } } }

/-- A daemon answering `saHpiEventGet` with the event `ev`. -/
def daemonEvent (ev : SaHpiEventT) :
    Rpc SaHpiTimeoutT (SaHpiEventT × SaHpiRdrT × SaHpiRptEntryT × SaHpiEvtQueueStatusT) :=
  fun _ _ _ _ => (SA_OK, (ev, [], [], 0))

/-- A session layer that opens every domain but domain 9 and numbers the session after the
domain. -/
def sessOpenByDomain : SessOpen :=
  fun did sid => if did = 9 then (SA_ERR_HPI_NOT_PRESENT, sid) else (SA_OK, did + 1000)

/-- A session layer whose calls all succeed and write nothing. -/
def rpcAccepts (I O : Type) : Rpc I O := fun _ _ _ o => (SA_OK, o)

/-- A session layer whose calls all fail with `SA_ERR_HPI_NOT_PRESENT` and write nothing. -/
def rpcFails (I O : Type) : Rpc I O := fun _ _ _ o => (SA_ERR_HPI_NOT_PRESENT, o)

/-- A reading held by a caller before a call. -/
def callerReading : SaHpiSensorReadingT :=
  { IsSupported := SAHPI_TRUE, Type_ := SAHPI_SENSOR_READING_TYPE_INT64, Value := [42] }

/-- A content of the uninitialised local `reading` of `saHpiSensorReadingGet`. -/
def stackReading : SaHpiSensorReadingT :=
  { IsSupported := 170, Type_ := 170, Value := [170] }

/-- A daemon answering `saHpiDimiTestStatusGet` with 50 percent completed and run status 2;
the percentage is written where the first output parameter points, if anywhere. -/
def daemonDimiStatus : Rpc (SaHpiResourceIdT × Nat × Nat) (Option Nat × Nat) :=
  fun _ _ _ o => (SA_OK, (o.1.map (fun _ => 50), 2))

/-- A table of control modes that knows the modes 0 and 1. -/
def ctrlModeLookup : Nat → Option String := fun m => if m ≤ 1 then some "known" else none

/-- A table of control types that knows the types 0 to 4 and 192. -/
def ctrlTypeLookup : Nat → Option String :=
  fun t => if t ≤ 4 ∨ t = 192 then some "known" else none

/-- A table of digital control states that knows the states 0 to 3. -/
def ctrlDigitalLookup : Nat → Option String := fun d => if d ≤ 3 then some "known" else none

/-- A control state of the given type with an empty union. -/
def ctrlStateOfType (t : Nat) : SaHpiCtrlStateT :=
  { Type_ := t, StateUnion := { Digital := 0, StreamLength := 0, Rest := [] } }

/-- A table that knows the values 0 to 3, standing for the three watchdog lookups. -/
def watchdogLookup : Nat → Option String := fun v => if v ≤ 3 then some "known" else none

/-- A watchdog with known enumeration values, pre-timeout interval `pre` and initial count
`initial`. -/
def watchdogWith (pre initial : Nat) : SaHpiWatchdogT :=
  { TimerUse := 1, TimerAction := 1, PretimerInterrupt := 0, PreTimeoutInterval := pre,
    InitialCount := initial, Rest := [] }

/-- A registry that accepts every new domain and numbers it 17. -/
def registryAdd : List Nat → Nat → SaHpiDomainIdT → SaErrorT × SaHpiDomainIdT :=
  fun _ _ _ => (SA_OK, 17)

/-- A registry that accepts every new domain under the id it is given. -/
def registryAddById : SaHpiDomainIdT → List Nat → Nat → SaErrorT := fun _ _ _ => SA_OK

/-- A text buffer of type `SAHPI_TL_TYPE_TEXT` holding the two bytes "h1"; its array `Data`
is shortened to four bytes. -/
def hostH1 : SaHpiTextBufferT :=
  { DataType := SAHPI_TL_TYPE_TEXT, Language := 25, DataLength := 2, Data := [104, 49, 0, 0] }

/-- A registry with one entry: domain 5 at host "h1", port 4743. -/
def registryLookup : SaHpiDomainIdT → Option oh_domain_conf :=
  fun d => if d = 5 then some { did := 5, host := [104, 49], port := 4743 } else none

/-- A stand-in for `oh_init_textbuffer`: it empties the buffer. -/
def sampleInitTextbuffer : SaHpiTextBufferT → SaErrorT × SaHpiTextBufferT :=
  fun _ =>
    (SA_OK,
      { DataType := SAHPI_TL_TYPE_TEXT
        Language := 25
        DataLength := 0
        Data := zeroBytes SAHPI_MAX_TEXT_BUFFER_LENGTH })

/-- A stand-in for `oh_append_textbuffer`: it appends the string to the text held, and
fails when the result would not fit. -/
def sampleAppendTextbuffer : SaHpiTextBufferT → List Nat → SaErrorT × SaHpiTextBufferT :=
  fun b str =>
    let text := b.Data.take b.DataLength ++ str
    if text.length ≤ SAHPI_MAX_TEXT_BUFFER_LENGTH then
      (SA_OK,
        { b with
          DataLength := text.length
          Data := text ++ zeroBytes (SAHPI_MAX_TEXT_BUFFER_LENGTH - text.length) })
    else (SA_ERR_HPI_INVALID_DATA, b)

/-- A domain entry as a caller holds it before a call. -/
def blankDomainEntry : oHpiDomainEntryT :=
  { id := 0, daemonhost := { DataType := 0, Language := 0, DataLength := 0, Data := [] },
    port := 0 }

/-- Number of leading bytes of the union `Value` that make up the arm selected by the
reading type `t`: eight for `SensorInt64`, `SensorUint64` and `SensorFloat64`,
`SAHPI_SENSOR_BUFFER_LENGTH` for `SensorBuffer`, none for any other type. -/
def armLength (t : Nat) : Nat :=
  if t = SAHPI_SENSOR_READING_TYPE_INT64 ∨ t = SAHPI_SENSOR_READING_TYPE_UINT64 ∨
      t = SAHPI_SENSOR_READING_TYPE_FLOAT64 then 8
  else if t = SAHPI_SENSOR_READING_TYPE_BUFFER then SAHPI_SENSOR_BUFFER_LENGTH
  else 0

/-- Content of an array of `SAHPI_MAX_TEXT_BUFFER_LENGTH` bytes, zero before, after the C
string `str` was copied into it by `strncpy` with that bound: the first
`SAHPI_MAX_TEXT_BUFFER_LENGTH` bytes of `str`, filled up with NUL. -/
def boundedCopy (str : List Nat) : List Nat :=
  str.take SAHPI_MAX_TEXT_BUFFER_LENGTH ++
    List.replicate (SAHPI_MAX_TEXT_BUFFER_LENGTH - str.length) 0

/-- The parameter that `__dehash_config` makes of one entry of the hash table. -/
def paramOfEntry (kv : List Nat × List Nat) : oHpiHandlerConfigParamT :=
  { Name := boundedCopy kv.1, Value := boundedCopy kv.2 }

/-- A zeroed parameter, as `g_new0` leaves it. -/
def zeroParam : oHpiHandlerConfigParamT :=
  { Name := zeroBytes SAHPI_MAX_TEXT_BUFFER_LENGTH
    Value := zeroBytes SAHPI_MAX_TEXT_BUFFER_LENGTH }

/-- A key of 256 bytes, one more than `SAHPI_MAX_TEXT_BUFFER_LENGTH`: 255 times the letter A
and a final B. -/
def longKey : List Nat := List.replicate 255 65 ++ [66]

/-- The four reading types `INT64`, `UINT64`, `FLOAT64` and `BUFFER`. -/
def isKnownReadingType (t : Nat) : Prop :=
  t = SAHPI_SENSOR_READING_TYPE_INT64 ∨ t = SAHPI_SENSOR_READING_TYPE_UINT64 ∨
    t = SAHPI_SENSOR_READING_TYPE_FLOAT64 ∨ t = SAHPI_SENSOR_READING_TYPE_BUFFER

/-- Content that `clean_reading` leaves in its destination when it returns
`SA_ERR_HPI_INVALID_DATA`: all zero but for `IsSupported`. -/
def failedReading : SaHpiSensorReadingT :=
  { IsSupported := SAHPI_TRUE, Type_ := 0, Value := zeroBytes SAHPI_SENSOR_BUFFER_LENGTH }

/-- Thresholds whose eight readings all hold `callerReading`. -/
def thresholdsOfCaller : SaHpiSensorThresholdsT :=
  { LowCritical := callerReading, LowMajor := callerReading, LowMinor := callerReading,
    UpCritical := callerReading, UpMajor := callerReading, UpMinor := callerReading,
    PosThdHysteresis := callerReading, NegThdHysteresis := callerReading }

/-- A supported reading of the unknown type 77. -/
def unknownTypeReading : SaHpiSensorReadingT :=
  { IsSupported := SAHPI_TRUE, Type_ := 77, Value := [] }

/-- A supported reading of type `UINT64` with 32 bytes, the last 24 of them not zero. -/
def fullReading : SaHpiSensorReadingT :=
  { IsSupported := SAHPI_TRUE, Type_ := SAHPI_SENSOR_READING_TYPE_UINT64,
    Value := [1, 2, 3, 4, 5, 6, 7, 8] ++ List.replicate 24 9 }

/-- A configuration of 256 entries with pairwise different keys of two bytes and the value
"v". -/
def config256 : List (List Nat × List Nat) :=
  (List.range 256).map (fun i => ([1 + i / 16, 1 + i % 16], [118]))

/-- The parameter made of a key and a value that are shorter than
`SAHPI_MAX_TEXT_BUFFER_LENGTH`: each string, followed by NUL up to the size of the array. -/
def paramOfShortEntry (kv : List Nat × List Nat) : oHpiHandlerConfigParamT :=
  { Name := kv.1 ++ List.replicate (SAHPI_MAX_TEXT_BUFFER_LENGTH - kv.1.length) 0
    Value := kv.2 ++ List.replicate (SAHPI_MAX_TEXT_BUFFER_LENGTH - kv.2.length) 0 }

/-- A world of one fan: its mode and its speed. -/
structure FanWorld where
  mode : Nat
  speed : Int
  deriving DecidableEq, Repr

/-- A library over `FanWorld`: `saHpiControlGet` reports the fan as an analog state,
`saHpiControlSet` stores the mode and the analog value it is given. -/
def fanApi : FanApi FanWorld :=
  { saHpiControlGet := fun w _ _ _ _ st =>
      ((SA_OK, w.mode, fanState st w.speed), w)
    saHpiControlSet := fun _ _ _ _ mode st => (SA_OK, { mode := mode, speed := st.Analog }) }

/-- An analog control record for fan 4 with speeds from 10 to 100. -/
def fanRecord : SaHpiCtrlRecT :=
  { Num := 4, Type_ := SAHPI_CTRL_TYPE_ANALOG, AnalogMin := 10, AnalogMax := 100,
    AnalogDefault := 50 }

/-- Locals of `do_fan` before the run, all zero. -/
def fanLocals : FanLocals :=
  { ctrl_mode := 0, speed := 0, state_get1 := ctrlStateOfType 0,
    state_set := ctrlStateOfType 0, state_get2 := ctrlStateOfType 0 }

/-! ## Auxiliary facts -/

theorem clean_reading_dest_irrelevant (lookup : Nat → Option String)
    (x d e : SaHpiSensorReadingT) :
    clean_reading lookup (some x) (some d) = clean_reading lookup (some x) (some e) := rfl

theorem clean_reading_writes (lookup : Nat → Option String) (x d : SaHpiSensorReadingT) :
    ∃ c, (clean_reading lookup (some x) (some d)).2 = some c := by
  unfold clean_reading
  simp only
  split_ifs <;> exact ⟨_, rfl⟩

theorem clean_reading_closed (lookup : Nat → Option String) (x d : SaHpiSensorReadingT) :
    clean_reading lookup (some x) (some d) = (cleanStatus lookup x, some (cleanValue lookup x)) := by
  obtain ⟨c, hc⟩ := clean_reading_writes lookup x zeroReading
  rw [clean_reading_dest_irrelevant lookup x d zeroReading]
  unfold cleanStatus cleanValue
  rw [hc]
  exact Prod.ext rfl hc

theorem clean_member_closed (lookup : Nat → Option String) (x d : SaHpiSensorReadingT) :
    clean_member lookup x d = (cleanStatus lookup x, cleanValue lookup x) := by
  unfold clean_member
  rw [clean_reading_closed]
  rfl

theorem clean_thresholds_ok (lookup : Nat → Option String) (T o : SaHpiSensorThresholdsT)
    (h : ∀ x ∈ thresholdReadings T, cleanStatus lookup x = SA_OK) :
    clean_thresholds lookup (some T) (some o) =
      (SA_OK, some
        { LowCritical := cleanValue lookup T.LowCritical
          LowMajor := cleanValue lookup T.LowMajor
          LowMinor := cleanValue lookup T.LowMinor
          UpCritical := cleanValue lookup T.UpCritical
          UpMajor := cleanValue lookup T.UpMajor
          UpMinor := cleanValue lookup T.UpMinor
          PosThdHysteresis := cleanValue lookup T.PosThdHysteresis
          NegThdHysteresis := cleanValue lookup T.NegThdHysteresis }) := by
  simp only [thresholdReadings, List.mem_cons, List.mem_singleton, forall_eq_or_imp,
    forall_eq, List.not_mem_nil, false_implies, implies_true, and_true] at h
  obtain ⟨h1, h2, h3, h4, h5, h6, h7, h8⟩ := h
  simp [clean_thresholds, clean_member_closed, h1, h2, h3, h4, h5, h6, h7, h8]

theorem clean_thresholds_fail (lookup : Nat → Option String) (T o : SaHpiSensorThresholdsT)
    (h : ∃ x ∈ thresholdReadings T, cleanStatus lookup x ≠ SA_OK) :
    (clean_thresholds lookup (some T) (some o)).1 ≠ SA_OK ∧
      ∃ y ∈ thresholdReadings T,
        (clean_thresholds lookup (some T) (some o)).1 = cleanStatus lookup y := by
  simp only [thresholdReadings, List.mem_cons, List.mem_singleton, exists_eq_or_imp,
    exists_eq_left, List.not_mem_nil, false_and, exists_false, or_false] at h ⊢
  simp only [clean_thresholds, clean_member_closed]
  by_cases h1 : cleanStatus lookup T.LowCritical = SA_OK
  · by_cases h2 : cleanStatus lookup T.LowMajor = SA_OK
    · by_cases h3 : cleanStatus lookup T.LowMinor = SA_OK
      · by_cases h4 : cleanStatus lookup T.UpCritical = SA_OK
        · by_cases h5 : cleanStatus lookup T.UpMajor = SA_OK
          · by_cases h6 : cleanStatus lookup T.UpMinor = SA_OK
            · by_cases h7 : cleanStatus lookup T.PosThdHysteresis = SA_OK
              · have h8 : cleanStatus lookup T.NegThdHysteresis ≠ SA_OK := by
                  rcases h with h | h | h | h | h | h | h | h
                  all_goals first | exact h | exact absurd ‹_› h
                simp [h1, h2, h3, h4, h5, h6, h7, h8]
              · simp [h1, h2, h3, h4, h5, h6, h7]
            · simp [h1, h2, h3, h4, h5, h6]
          · simp [h1, h2, h3, h4, h5]
        · simp [h1, h2, h3, h4]
      · simp [h1, h2, h3]
    · simp [h1, h2]
  · simp [h1]

/-! ## Canonicalisation before marshalling -/

/-- Claim C1.  `saHpiSensorThresholdsSet` with a non-null `Thresholds` never changes the
caller's structure.  If `clean_reading` succeeds on all eight readings, exactly one call
of `ohc_sess_rpc` is made, with code `eFsaHpiSensorThresholdsSet`, and each reading of its
thresholds argument is what `clean_reading` writes for the caller's corresponding reading;
the status is that of the call.  If `clean_reading` fails on one of them, no call is made
and the status returned is the failure status of a failing reading. -/
theorem saHpiSensorThresholdsSet_forwards_cleaned (lookup : Nat → Option String)
    (ohc_sess_rpc : Rpc (SaHpiResourceIdT × SaHpiSensorNumT × SaHpiSensorThresholdsT) Unit)
    (tholds : SaHpiSensorThresholdsT) (sid : SaHpiSessionIdT) (rid : SaHpiResourceIdT)
    (num : SaHpiSensorNumT) (T : SaHpiSensorThresholdsT) :
    (saHpiSensorThresholdsSet lookup ohc_sess_rpc tholds sid rid num (some T)).out = some T ∧
    ((∀ x ∈ thresholdReadings T, ∀ d, (clean_reading lookup (some x) (some d)).1 = SA_OK) →
      ∃ a : SaHpiSensorThresholdsT,
        (saHpiSensorThresholdsSet lookup ohc_sess_rpc tholds sid rid num (some T)).calls =
          [Call.rpc .eFsaHpiSensorThresholdsSet sid (rid, num, a)] ∧
        (saHpiSensorThresholdsSet lookup ohc_sess_rpc tholds sid rid num (some T)).rv =
          (ohc_sess_rpc .eFsaHpiSensorThresholdsSet sid (rid, num, a) ()).1 ∧
        (∀ d, clean_reading lookup (some T.LowCritical) (some d) =
          (SA_OK, some a.LowCritical)) ∧
        (∀ d, clean_reading lookup (some T.LowMajor) (some d) = (SA_OK, some a.LowMajor)) ∧
        (∀ d, clean_reading lookup (some T.LowMinor) (some d) = (SA_OK, some a.LowMinor)) ∧
        (∀ d, clean_reading lookup (some T.UpCritical) (some d) =
          (SA_OK, some a.UpCritical)) ∧
        (∀ d, clean_reading lookup (some T.UpMajor) (some d) = (SA_OK, some a.UpMajor)) ∧
        (∀ d, clean_reading lookup (some T.UpMinor) (some d) = (SA_OK, some a.UpMinor)) ∧
        (∀ d, clean_reading lookup (some T.PosThdHysteresis) (some d) =
          (SA_OK, some a.PosThdHysteresis)) ∧
        (∀ d, clean_reading lookup (some T.NegThdHysteresis) (some d) =
          (SA_OK, some a.NegThdHysteresis))) ∧
    ((∃ x ∈ thresholdReadings T, ∀ d, (clean_reading lookup (some x) (some d)).1 ≠ SA_OK) →
      (saHpiSensorThresholdsSet lookup ohc_sess_rpc tholds sid rid num (some T)).calls = [] ∧
      ∃ y ∈ thresholdReadings T,
        (∀ d, (clean_reading lookup (some y) (some d)).1 ≠ SA_OK) ∧
        ∀ d, (saHpiSensorThresholdsSet lookup ohc_sess_rpc tholds sid rid num (some T)).rv =
          (clean_reading lookup (some y) (some d)).1) := by
  refine ⟨?_, ?_, ?_⟩
  · unfold saHpiSensorThresholdsSet
    simp only
    split_ifs <;> rfl
  · intro h
    have h' : ∀ x ∈ thresholdReadings T, cleanStatus lookup x = SA_OK :=
      fun x hx => h x hx zeroReading
    have hc := clean_thresholds_ok lookup T tholds h'
    have hm : ∀ x ∈ thresholdReadings T, ∀ d,
        clean_reading lookup (some x) (some d) = (SA_OK, some (cleanValue lookup x)) := by
      intro x hx d
      rw [clean_reading_closed, h' x hx]
    refine ⟨{ LowCritical := cleanValue lookup T.LowCritical
              LowMajor := cleanValue lookup T.LowMajor
              LowMinor := cleanValue lookup T.LowMinor
              UpCritical := cleanValue lookup T.UpCritical
              UpMajor := cleanValue lookup T.UpMajor
              UpMinor := cleanValue lookup T.UpMinor
              PosThdHysteresis := cleanValue lookup T.PosThdHysteresis
              NegThdHysteresis := cleanValue lookup T.NegThdHysteresis },
      ?_, ?_, hm T.LowCritical (by simp [thresholdReadings]),
      hm T.LowMajor (by simp [thresholdReadings]), hm T.LowMinor (by simp [thresholdReadings]),
      hm T.UpCritical (by simp [thresholdReadings]), hm T.UpMajor (by simp [thresholdReadings]),
      hm T.UpMinor (by simp [thresholdReadings]),
      hm T.PosThdHysteresis (by simp [thresholdReadings]),
      hm T.NegThdHysteresis (by simp [thresholdReadings])⟩
    · simp [saHpiSensorThresholdsSet, hc]
    · simp [saHpiSensorThresholdsSet, hc]
  · rintro ⟨x, hx, hf⟩
    have h' : ∃ x ∈ thresholdReadings T, cleanStatus lookup x ≠ SA_OK :=
      ⟨x, hx, hf zeroReading⟩
    obtain ⟨hne, y, hy, hrv⟩ := clean_thresholds_fail lookup T tholds h'
    refine ⟨?_, y, hy, ?_, ?_⟩
    · simp [saHpiSensorThresholdsSet, hne]
    · intro d
      rw [clean_reading_closed]
      exact hrv ▸ hne
    · intro d
      have hy' : cleanStatus lookup y ≠ SA_OK := hrv ▸ hne
      rw [clean_reading_closed]
      simp [saHpiSensorThresholdsSet, hrv, hy']

/-- The theorem of claim C1 at thresholds that are all unsupported (one call, carrying the
cleaned readings) and at thresholds whose `LowMajor` has an unknown type (no call). -/
theorem saHpiSensorThresholdsSet_forwards_cleaned_witness :
    (∃ a : SaHpiSensorThresholdsT,
      (saHpiSensorThresholdsSet readingTypeLookup (rpcAccepts _ _) thresholdsBadLowMajor 1 2 3
        (some thresholdsAllUnsupported)).calls =
          [Call.rpc .eFsaHpiSensorThresholdsSet 1 (2, 3, a)] ∧
      ∀ d, clean_reading readingTypeLookup (some unsupportedReading) (some d) =
        (SA_OK, some a.LowCritical)) ∧
    (saHpiSensorThresholdsSet readingTypeLookup (rpcAccepts _ _) thresholdsAllUnsupported 1 2 3
      (some thresholdsBadLowMajor)).calls = [] := by
  refine ⟨?_, ?_⟩
  · obtain ⟨a, hc, _, h1, _⟩ :=
      (saHpiSensorThresholdsSet_forwards_cleaned readingTypeLookup (rpcAccepts _ _)
        thresholdsBadLowMajor 1 2 3 thresholdsAllUnsupported).2.1
        (by
          intro x hx d
          simp only [thresholdReadings, thresholdsAllUnsupported, List.mem_cons,
            List.mem_singleton, List.not_mem_nil, or_self, or_false] at hx
          subst hx
          rfl)
    exact ⟨a, hc, h1⟩
  · exact ((saHpiSensorThresholdsSet_forwards_cleaned readingTypeLookup (rpcAccepts _ _)
      thresholdsAllUnsupported 1 2 3 thresholdsBadLowMajor).2.2
      ⟨thresholdsBadLowMajor.LowMajor, by simp [thresholdReadings],
        fun d => by
          rw [clean_reading_dest_irrelevant _ _ d zeroReading]
          decide⟩).1

/-- Claim C2.  For a reading marked unsupported (`IsSupported == SAHPI_FALSE`), whatever
its `Type` and whatever bytes its `Value` holds, and whatever the destination held before,
`clean_reading` returns `SA_OK` and writes the one fixed reading: `IsSupported` is
`SAHPI_FALSE`, `Type` is `SAHPI_SENSOR_READING_TYPE_INT64`, and all
`SAHPI_SENSOR_BUFFER_LENGTH` bytes of `Value` are zero. -/
theorem clean_reading_unsupported_canonical (lookup : Nat → Option String)
    (type : Nat) (value : List Nat) (d : SaHpiSensorReadingT) :
    clean_reading lookup
        (some { IsSupported := SAHPI_FALSE, Type_ := type, Value := value }) (some d) =
      (SA_OK, some
        { IsSupported := SAHPI_FALSE
          Type_ := SAHPI_SENSOR_READING_TYPE_INT64
          Value := List.replicate SAHPI_SENSOR_BUFFER_LENGTH 0 }) := by
  simp [clean_reading, SAHPI_FALSE, SAHPI_TRUE, zeroReading, zeroBytes, memcpyBytes,
    SAHPI_SENSOR_BUFFER_LENGTH]

/-! ## Domain-id virtualisation -/

/-- Claim C3.  `saHpiDomainInfoGet` and `saHpiDrtEntryGet` with valid parameters: whenever
`ohc_sess_rpc` returns `SA_OK` and `ohc_sess_get_did` succeeds with the value `d`, the call
returns `SA_OK` and the structure handed back is the one the daemon sent with its
`DomainId` replaced by `d`, whatever domain id the daemon sent. -/
theorem domainInfo_drtEntry_report_session_did :
    (∀ (ohc_sess_rpc : Rpc Unit SaHpiDomainInfoT) (ohc_sess_get_did : GetDid)
        (sid : SaHpiSessionIdT) (DomainInfo : SaHpiDomainInfoT) (d : SaHpiDomainIdT),
      (ohc_sess_rpc .eFsaHpiDomainInfoGet sid () DomainInfo).1 = SA_OK →
      ohc_sess_get_did sid (ohc_sess_rpc .eFsaHpiDomainInfoGet sid () DomainInfo).2.DomainId
        = (SA_OK, d) →
      (saHpiDomainInfoGet ohc_sess_rpc ohc_sess_get_did sid (some DomainInfo)).rv = SA_OK ∧
      (saHpiDomainInfoGet ohc_sess_rpc ohc_sess_get_did sid (some DomainInfo)).out =
        some { (ohc_sess_rpc .eFsaHpiDomainInfoGet sid () DomainInfo).2 with DomainId := d }) ∧
    (∀ (ohc_sess_rpc : Rpc SaHpiEntryIdT (SaHpiEntryIdT × SaHpiDrtEntryT))
        (ohc_sess_get_did : GetDid) (sid : SaHpiSessionIdT) (EntryId NextEntryId : SaHpiEntryIdT)
        (DrtEntry : SaHpiDrtEntryT) (d : SaHpiDomainIdT),
      EntryId ≠ SAHPI_LAST_ENTRY →
      (ohc_sess_rpc .eFsaHpiDrtEntryGet sid EntryId (NextEntryId, DrtEntry)).1 = SA_OK →
      ohc_sess_get_did sid
        (ohc_sess_rpc .eFsaHpiDrtEntryGet sid EntryId (NextEntryId, DrtEntry)).2.2.DomainId
        = (SA_OK, d) →
      (saHpiDrtEntryGet ohc_sess_rpc ohc_sess_get_did sid EntryId (some NextEntryId)
        (some DrtEntry)).rv = SA_OK ∧
      (saHpiDrtEntryGet ohc_sess_rpc ohc_sess_get_did sid EntryId (some NextEntryId)
        (some DrtEntry)).out.2 =
        some { (ohc_sess_rpc .eFsaHpiDrtEntryGet sid EntryId (NextEntryId, DrtEntry)).2.2 with
          DomainId := d }) := by
  refine ⟨?_, ?_⟩
  · intro rpc gd sid di d h1 h2
    simp [saHpiDomainInfoGet, h1, h2]
  · intro rpc gd sid e ne de d h0 h1 h2
    simp [saHpiDrtEntryGet, h0, h1, h2]

/-- The theorem of claim C3 at a daemon whose real domain id is 7 and a session opened with
virtual domain id 100: both calls hand back domain id 100. -/
theorem domainInfo_drtEntry_report_session_did_witness :
    (saHpiDomainInfoGet daemonDomainInfo7 didLookup100 1
        (some { DomainId := 0, Rest := [] })).out = some { DomainId := 100, Rest := [1, 2] } ∧
    (saHpiDrtEntryGet daemonDrtEntry7 didLookup100 1 0 (some 0)
        (some { DomainId := 0, Rest := [] })).out.2 = some { DomainId := 100, Rest := [0] } :=
  ⟨(domainInfo_drtEntry_report_session_did.1 daemonDomainInfo7 didLookup100 1
      { DomainId := 0, Rest := [] } 100 rfl rfl).2,
    (domainInfo_drtEntry_report_session_did.2 daemonDrtEntry7 didLookup100 1 0 0
      { DomainId := 0, Rest := [] } 100 (by decide) rfl rfl).2⟩

/-- Claim C4.  `saHpiAlarmGetNext`, `saHpiAlarmGet` and `saHpiAlarmAdd` with valid
parameters: when `ohc_sess_rpc` returns `SA_OK` and `ohc_sess_get_did` succeeds with the
value `d`, the call returns `SA_OK` and the alarm handed back is the daemon's alarm with
`AlarmCond.DomainId` replaced by `d`; when `ohc_sess_rpc` returns another status, the call
returns that status, the alarm handed back is the one the call left, and
`ohc_sess_get_did` is not called. -/
theorem alarm_wrappers_report_session_did :
    (∀ (lookup : Nat → Option String) (rpc : Rpc (Nat × Nat × SaHpiAlarmT) SaHpiAlarmT)
        (get_did : GetDid) (sid : SaHpiSessionIdT) (Severity Unack : Nat) (al : SaHpiAlarmT),
      (lookup Severity).isSome → al.AlarmId ≠ SAHPI_LAST_ENTRY →
      ((rpc .eFsaHpiAlarmGetNext sid (Severity, Unack, al) al).1 = SA_OK →
        ∀ d, get_did sid (rpc .eFsaHpiAlarmGetNext sid (Severity, Unack, al) al).2.AlarmCond.DomainId
            = (SA_OK, d) →
          (saHpiAlarmGetNext lookup rpc get_did sid Severity Unack (some al)).rv = SA_OK ∧
          (saHpiAlarmGetNext lookup rpc get_did sid Severity Unack (some al)).out =
            some ((rpc .eFsaHpiAlarmGetNext sid (Severity, Unack, al) al).2.withDomainId d)) ∧
      ((rpc .eFsaHpiAlarmGetNext sid (Severity, Unack, al) al).1 ≠ SA_OK →
        saHpiAlarmGetNext lookup rpc get_did sid Severity Unack (some al) =
          ⟨(rpc .eFsaHpiAlarmGetNext sid (Severity, Unack, al) al).1,
            some (rpc .eFsaHpiAlarmGetNext sid (Severity, Unack, al) al).2,
            [Call.rpc .eFsaHpiAlarmGetNext sid (Severity, Unack, al)]⟩)) ∧
    (∀ (rpc : Rpc Nat SaHpiAlarmT) (get_did : GetDid) (sid : SaHpiSessionIdT) (AlarmId : Nat)
        (al : SaHpiAlarmT),
      ((rpc .eFsaHpiAlarmGet sid AlarmId al).1 = SA_OK →
        ∀ d, get_did sid (rpc .eFsaHpiAlarmGet sid AlarmId al).2.AlarmCond.DomainId
            = (SA_OK, d) →
          (saHpiAlarmGet rpc get_did sid AlarmId (some al)).rv = SA_OK ∧
          (saHpiAlarmGet rpc get_did sid AlarmId (some al)).out =
            some ((rpc .eFsaHpiAlarmGet sid AlarmId al).2.withDomainId d)) ∧
      ((rpc .eFsaHpiAlarmGet sid AlarmId al).1 ≠ SA_OK →
        saHpiAlarmGet rpc get_did sid AlarmId (some al) =
          ⟨(rpc .eFsaHpiAlarmGet sid AlarmId al).1, some (rpc .eFsaHpiAlarmGet sid AlarmId al).2,
            [Call.rpc .eFsaHpiAlarmGet sid AlarmId]⟩)) ∧
    (∀ (lookup : Nat → Option String) (rpc : Rpc SaHpiAlarmT SaHpiAlarmT)
        (get_did : GetDid) (sid : SaHpiSessionIdT) (al : SaHpiAlarmT),
      (lookup al.Severity).isSome → al.AlarmCond.Type_ = SAHPI_STATUS_COND_TYPE_USER →
      ((rpc .eFsaHpiAlarmAdd sid al al).1 = SA_OK →
        ∀ d, get_did sid (rpc .eFsaHpiAlarmAdd sid al al).2.AlarmCond.DomainId = (SA_OK, d) →
          (saHpiAlarmAdd lookup rpc get_did sid (some al)).rv = SA_OK ∧
          (saHpiAlarmAdd lookup rpc get_did sid (some al)).out =
            some ((rpc .eFsaHpiAlarmAdd sid al al).2.withDomainId d)) ∧
      ((rpc .eFsaHpiAlarmAdd sid al al).1 ≠ SA_OK →
        saHpiAlarmAdd lookup rpc get_did sid (some al) =
          ⟨(rpc .eFsaHpiAlarmAdd sid al al).1, some (rpc .eFsaHpiAlarmAdd sid al al).2,
            [Call.rpc .eFsaHpiAlarmAdd sid al]⟩)) := by
  refine ⟨?_, ?_, ?_⟩
  · intro lookup rpc gd sid sev un al hs hl
    have hs' : (lookup sev).isNone = false := by
      cases h : lookup sev <;> simp_all
    refine ⟨fun h1 d h2 => ?_, fun h1 => ?_⟩
    · simp [saHpiAlarmGetNext, hs', hl, h1, h2, SaHpiAlarmT.withDomainId]
    · simp [saHpiAlarmGetNext, hs', hl, h1]
  · intro rpc gd sid aid al
    refine ⟨fun h1 d h2 => ?_, fun h1 => ?_⟩
    · simp [saHpiAlarmGet, h1, h2, SaHpiAlarmT.withDomainId]
    · simp [saHpiAlarmGet, h1]
  · intro lookup rpc gd sid al hs ht
    have hs' : (lookup al.Severity).isNone = false := by
      cases h : lookup al.Severity <;> simp_all
    refine ⟨fun h1 d h2 => ?_, fun h1 => ?_⟩
    · simp [saHpiAlarmAdd, hs', ht, h1, h2, SaHpiAlarmT.withDomainId]
    · simp [saHpiAlarmAdd, hs', ht, h1]

/-- The theorem of claim C4 at a daemon whose real domain id is 7 and a session opened with
virtual domain id 100: on success the alarm carries domain id 100, on failure it carries
what the daemon wrote and the session table is not consulted. -/
theorem alarm_wrappers_report_session_did_witness :
    (saHpiAlarmGetNext severityLookup (daemonAlarm7 _) didLookup100 1 1 0 (some alarm7)).out =
      some (alarm7.withDomainId 100) ∧
    (saHpiAlarmGetNext severityLookup (daemonAlarmFails _) didLookup100 1 1 0
      (some alarm7)).calls = [Call.rpc .eFsaHpiAlarmGetNext 1 (1, 0, alarm7)] ∧
    (saHpiAlarmGet (daemonAlarm7 _) didLookup100 1 3 (some alarm7)).out =
      some (alarm7.withDomainId 100) ∧
    (saHpiAlarmGet (daemonAlarmFails _) didLookup100 1 3 (some alarm7)).out = some alarm7 ∧
    (saHpiAlarmAdd severityLookup (daemonAlarm7 _) didLookup100 1 (some alarm7)).out =
      some (alarm7.withDomainId 100) ∧
    (saHpiAlarmAdd severityLookup (daemonAlarmFails _) didLookup100 1 (some alarm7)).rv =
      SA_ERR_HPI_NOT_PRESENT :=
  ⟨((alarm_wrappers_report_session_did.1 severityLookup (daemonAlarm7 _) didLookup100 1 1 0
      alarm7 (by decide) (by decide)).1 rfl 100 rfl).2,
    congrArg Outcome.calls
      ((alarm_wrappers_report_session_did.1 severityLookup (daemonAlarmFails _) didLookup100
        1 1 0 alarm7 (by decide) (by decide)).2 (by decide)),
    ((alarm_wrappers_report_session_did.2.1 (daemonAlarm7 _) didLookup100 1 3 alarm7).1
      rfl 100 rfl).2,
    congrArg Outcome.out
      ((alarm_wrappers_report_session_did.2.1 (daemonAlarmFails _) didLookup100 1 3 alarm7).2
        (by decide)),
    ((alarm_wrappers_report_session_did.2.2 severityLookup (daemonAlarm7 _) didLookup100 1
      alarm7 (by decide) (by decide)).1 rfl 100 rfl).2,
    congrArg Outcome.rv
      ((alarm_wrappers_report_session_did.2.2 severityLookup (daemonAlarmFails _) didLookup100
        1 alarm7 (by decide) (by decide)).2 (by decide))⟩

/-- Claim C5.  `saHpiEventLogEntryGet` with valid parameters and `SA_OK` from
`ohc_sess_rpc`.  If `ResourceId == SAHPI_UNSPECIFIED_RESOURCE_ID` and the decoded event has
`EventType == SAHPI_ET_DOMAIN`, then, when `ohc_sess_get_did` succeeds with `d`, the entry
handed back is the decoded entry with `DomainEvent.DomainId` equal to `d`.  In every other
case with `SA_OK` from `ohc_sess_rpc`, the entry handed back is the decoded entry itself and
the call returns `SA_OK`. -/
theorem saHpiEventLogEntryGet_domain_event_did
    (rpc : Rpc (SaHpiResourceIdT × SaHpiEntryIdT)
      (SaHpiEntryIdT × SaHpiEntryIdT × SaHpiEventLogEntryT × SaHpiRdrT × SaHpiRptEntryT))
    (get_did : GetDid) (rdr : SaHpiRdrT) (rpte : SaHpiRptEntryT) (did : SaHpiDomainIdT)
    (sid : SaHpiSessionIdT) (rid : SaHpiResourceIdT) (EntryId pe ne : SaHpiEntryIdT)
    (ele : SaHpiEventLogEntryT) (Rdr : Option SaHpiRdrT) (RptEntry : Option SaHpiRptEntryT)
    (hvalid : EntryId ≠ SAHPI_NO_MORE_ENTRIES)
    (hok : (rpc .eFsaHpiEventLogEntryGet sid (rid, EntryId) (pe, ne, ele, rdr, rpte)).1 = SA_OK) :
    (rid = SAHPI_UNSPECIFIED_RESOURCE_ID ∧
        (rpc .eFsaHpiEventLogEntryGet sid (rid, EntryId)
          (pe, ne, ele, rdr, rpte)).2.2.2.1.Event.EventType = SAHPI_ET_DOMAIN →
      ∀ d, get_did sid did = (SA_OK, d) →
        (saHpiEventLogEntryGet rpc get_did rdr rpte did sid rid EntryId (some pe) (some ne)
          (some ele) Rdr RptEntry).rv = SA_OK ∧
        (saHpiEventLogEntryGet rpc get_did rdr rpte did sid rid EntryId (some pe) (some ne)
          (some ele) Rdr RptEntry).out.EventLogEntry =
          some ((rpc .eFsaHpiEventLogEntryGet sid (rid, EntryId)
            (pe, ne, ele, rdr, rpte)).2.2.2.1.withDomainId d)) ∧
    (¬ (rid = SAHPI_UNSPECIFIED_RESOURCE_ID ∧
        (rpc .eFsaHpiEventLogEntryGet sid (rid, EntryId)
          (pe, ne, ele, rdr, rpte)).2.2.2.1.Event.EventType = SAHPI_ET_DOMAIN) →
      (saHpiEventLogEntryGet rpc get_did rdr rpte did sid rid EntryId (some pe) (some ne)
        (some ele) Rdr RptEntry).rv = SA_OK ∧
      (saHpiEventLogEntryGet rpc get_did rdr rpte did sid rid EntryId (some pe) (some ne)
        (some ele) Rdr RptEntry).out.EventLogEntry =
        some (rpc .eFsaHpiEventLogEntryGet sid (rid, EntryId)
          (pe, ne, ele, rdr, rpte)).2.2.2.1 ∧
      (saHpiEventLogEntryGet rpc get_did rdr rpte did sid rid EntryId (some pe) (some ne)
        (some ele) Rdr RptEntry).calls =
        [Call.rpc .eFsaHpiEventLogEntryGet sid (rid, EntryId)]) := by
  refine ⟨fun hc d hd => ?_, fun hc => ?_⟩
  · obtain ⟨h1, h2⟩ := hc
    subst h1
    simp [saHpiEventLogEntryGet, hvalid, hok, h2, hd, SaHpiEventLogEntryT.withDomainId]
  · simp only [saHpiEventLogEntryGet, hvalid, if_false, hc, hok]
    simp

/-- The theorem of claim C5 at a daemon that reports a domain event with domain id 7, for a
session opened with virtual domain id 100: read from the domain event log the entry carries
domain id 100, read from the event log of resource 5 it is handed back as decoded. -/
theorem saHpiEventLogEntryGet_domain_event_did_witness :
    (saHpiEventLogEntryGet (daemonEventLogEntry domainEvent7) didLookup100 [] [] 0 1
        SAHPI_UNSPECIFIED_RESOURCE_ID 0 (some 0) (some 0)
        (some { Event := blankEvent, Rest := [] }) none none).out.EventLogEntry =
      some (SaHpiEventLogEntryT.withDomainId { Event := domainEvent7, Rest := [] } 100) ∧
    (saHpiEventLogEntryGet (daemonEventLogEntry domainEvent7) didLookup100 [] [] 0 1
        5 0 (some 0) (some 0)
        (some { Event := blankEvent, Rest := [] }) none none).out.EventLogEntry =
      some { Event := domainEvent7, Rest := [] } :=
  ⟨((saHpiEventLogEntryGet_domain_event_did (daemonEventLogEntry domainEvent7) didLookup100
      [] [] 0 1 SAHPI_UNSPECIFIED_RESOURCE_ID 0 0 0 { Event := blankEvent, Rest := [] }
      none none (by decide) rfl).1 ⟨rfl, rfl⟩ 100 rfl).2,
    ((saHpiEventLogEntryGet_domain_event_did (daemonEventLogEntry domainEvent7) didLookup100
      [] [] 0 1 5 0 0 0 { Event := blankEvent, Rest := [] }
      none none (by decide) rfl).2 (by decide)).2.1⟩

/-- Claim C6, the code at the failing input.  The daemon answers `saHpiEventGet` with
`SA_OK` and a domain event whose `DomainEvent.DomainId` is 7.  The wrapper hands the event
back as decoded, domain id 7 included, and makes no call other than `ohc_sess_rpc`: the
session's virtual domain id is never looked up.  (`saHpiEventLogEntryGet` rewrites the same
field, see `saHpiEventLogEntryGet_domain_event_did`.) -/
theorem saHpiEventGet_keeps_daemon_did :
    saHpiEventGet (daemonEvent domainEvent7) [] [] 0 1 SAHPI_TIMEOUT_BLOCK
        (some blankEvent) none none none =
      ⟨SA_OK, ⟨some domainEvent7, none, none, none⟩,
        [Call.rpc .eFsaHpiEventGet 1 SAHPI_TIMEOUT_BLOCK]⟩ ∧
    domainEvent7.EventType = SAHPI_ET_DOMAIN ∧
    domainEvent7.EventDataUnion.DomainEvent.DomainId = 7 := by
  decide

/-! ## Session open -/

/-- Claim C7.  `saHpiSessionOpen` with a non-null `SessionId` and a null `SecurityParams`:
called with `SAHPI_UNSPECIFIED_DOMAIN_ID` it calls `ohc_sess_open` once with
`OH_DEFAULT_DOMAIN_ID` and gives the same result as the call with `OH_DEFAULT_DOMAIN_ID`;
called with any other domain id it calls `ohc_sess_open` once with that id and hands back
its status and session id.  With a null `SessionId` or a non-null `SecurityParams` it
returns `SA_ERR_HPI_INVALID_PARAMS`, leaves `SessionId` alone and does not call
`ohc_sess_open`. -/
theorem saHpiSessionOpen_resolves_unspecified (ohc_sess_open : SessOpen) :
    (∀ sid0 : SaHpiSessionIdT,
      saHpiSessionOpen ohc_sess_open SAHPI_UNSPECIFIED_DOMAIN_ID (some sid0) none =
        saHpiSessionOpen ohc_sess_open OH_DEFAULT_DOMAIN_ID (some sid0) none ∧
      saHpiSessionOpen ohc_sess_open SAHPI_UNSPECIFIED_DOMAIN_ID (some sid0) none =
        ⟨(ohc_sess_open OH_DEFAULT_DOMAIN_ID sid0).1,
          some (ohc_sess_open OH_DEFAULT_DOMAIN_ID sid0).2,
          [Call.sess_open OH_DEFAULT_DOMAIN_ID]⟩) ∧
    (∀ (did : SaHpiDomainIdT) (sid0 : SaHpiSessionIdT), did ≠ SAHPI_UNSPECIFIED_DOMAIN_ID →
      saHpiSessionOpen ohc_sess_open did (some sid0) none =
        ⟨(ohc_sess_open did sid0).1, some (ohc_sess_open did sid0).2, [Call.sess_open did]⟩) ∧
    (∀ (did : SaHpiDomainIdT) (SessionId : Option SaHpiSessionIdT)
        (SecurityParams : Option Unit), SessionId = none ∨ SecurityParams ≠ none →
      saHpiSessionOpen ohc_sess_open did SessionId SecurityParams =
        ⟨SA_ERR_HPI_INVALID_PARAMS, SessionId, []⟩) := by
  refine ⟨fun sid0 => ⟨?_, ?_⟩, fun did sid0 h => ?_, fun did S P h => ?_⟩
  · simp [saHpiSessionOpen, SAHPI_UNSPECIFIED_DOMAIN_ID, OH_DEFAULT_DOMAIN_ID]
  · simp [saHpiSessionOpen]
  · simp [saHpiSessionOpen, h]
  · rcases h with h | h
    · subst h
      rfl
    · cases P with
      | none => exact absurd rfl h
      | some u => cases S <;> rfl

/-- The theorem of claim C7 at a concrete session layer: domain 5 is opened as domain 5, and
a call with security parameters is refused without a call. -/
theorem saHpiSessionOpen_resolves_unspecified_witness :
    saHpiSessionOpen sessOpenByDomain 5 (some 0) none =
      ⟨SA_OK, some 1005, [Call.sess_open 5]⟩ ∧
    saHpiSessionOpen sessOpenByDomain 5 (some 0) (some ()) =
      ⟨SA_ERR_HPI_INVALID_PARAMS, some 0, []⟩ :=
  ⟨(saHpiSessionOpen_resolves_unspecified sessOpenByDomain).2.1 5 0 (by decide),
    (saHpiSessionOpen_resolves_unspecified sessOpenByDomain).2.2 5 (some 0) (some ())
      (Or.inr (by decide))⟩

/-! ## Timeout validation -/

theorem timeout_lt_block_iff (t : Int) :
    t < SAHPI_TIMEOUT_BLOCK ↔ (t < 0 ∧ t ≠ SAHPI_TIMEOUT_BLOCK) := by
  show t < (-1 : Int) ↔ (t < 0 ∧ t ≠ (-1 : Int))
  omega

theorem timeout_setter_check_iff (t : Int) :
    (t ≠ SAHPI_TIMEOUT_IMMEDIATE ∧ t ≠ SAHPI_TIMEOUT_BLOCK ∧ t < 0) ↔
      (t < 0 ∧ t ≠ SAHPI_TIMEOUT_BLOCK) := by
  show (t ≠ (0 : Int) ∧ t ≠ (-1 : Int) ∧ t < 0) ↔ (t < 0 ∧ t ≠ (-1 : Int))
  omega

theorem timeout_accepted (t : Int) :
    (t = SAHPI_TIMEOUT_BLOCK ∨ t = SAHPI_TIMEOUT_IMMEDIATE ∨ 0 < t) →
      ¬ (t < 0 ∧ t ≠ SAHPI_TIMEOUT_BLOCK) := by
  show (t = (-1 : Int) ∨ t = (0 : Int) ∨ 0 < t) → ¬ (t < 0 ∧ t ≠ (-1 : Int))
  omega

/-- Claim C8.  For `saHpiEventGet` (non-null `Event`), `saHpiAutoInsertTimeoutSet` and
`saHpiAutoExtractTimeoutSet`: the call returns `SA_ERR_HPI_INVALID_PARAMS` with no call of
`ohc_sess_rpc` if and only if `Timeout` is negative and differs from `SAHPI_TIMEOUT_BLOCK`;
`SAHPI_TIMEOUT_BLOCK`, `SAHPI_TIMEOUT_IMMEDIATE` and every positive value lead to exactly
one call of `ohc_sess_rpc` that carries `Timeout` unchanged.  The check of `saHpiEventGet`
(`Timeout < SAHPI_TIMEOUT_BLOCK`) and that of the two setters accept the same timeouts. -/
theorem timeout_checks_agree (Timeout : SaHpiTimeoutT) :
    (∀ (rpc : Rpc SaHpiTimeoutT
          (SaHpiEventT × SaHpiRdrT × SaHpiRptEntryT × SaHpiEvtQueueStatusT))
        (rdr : SaHpiRdrT) (rpte : SaHpiRptEntryT) (status : SaHpiEvtQueueStatusT)
        (sid : SaHpiSessionIdT) (ev : SaHpiEventT) (Rdr : Option SaHpiRdrT)
        (RptEntry : Option SaHpiRptEntryT) (EventQueueStatus : Option SaHpiEvtQueueStatusT),
      (((saHpiEventGet rpc rdr rpte status sid Timeout (some ev) Rdr RptEntry
            EventQueueStatus).rv = SA_ERR_HPI_INVALID_PARAMS ∧
          (saHpiEventGet rpc rdr rpte status sid Timeout (some ev) Rdr RptEntry
            EventQueueStatus).calls = []) ↔
        (Timeout < 0 ∧ Timeout ≠ SAHPI_TIMEOUT_BLOCK)) ∧
      (Timeout = SAHPI_TIMEOUT_BLOCK ∨ Timeout = SAHPI_TIMEOUT_IMMEDIATE ∨ 0 < Timeout →
        (saHpiEventGet rpc rdr rpte status sid Timeout (some ev) Rdr RptEntry
          EventQueueStatus).calls = [Call.rpc .eFsaHpiEventGet sid Timeout])) ∧
    (∀ (rpc : Rpc SaHpiTimeoutT Unit) (sid : SaHpiSessionIdT),
      (((saHpiAutoInsertTimeoutSet rpc sid Timeout).rv = SA_ERR_HPI_INVALID_PARAMS ∧
          (saHpiAutoInsertTimeoutSet rpc sid Timeout).calls = []) ↔
        (Timeout < 0 ∧ Timeout ≠ SAHPI_TIMEOUT_BLOCK)) ∧
      (Timeout = SAHPI_TIMEOUT_BLOCK ∨ Timeout = SAHPI_TIMEOUT_IMMEDIATE ∨ 0 < Timeout →
        (saHpiAutoInsertTimeoutSet rpc sid Timeout).calls =
          [Call.rpc .eFsaHpiAutoInsertTimeoutSet sid Timeout])) ∧
    (∀ (rpc : Rpc (SaHpiResourceIdT × SaHpiTimeoutT) Unit) (sid : SaHpiSessionIdT)
        (rid : SaHpiResourceIdT),
      (((saHpiAutoExtractTimeoutSet rpc sid rid Timeout).rv = SA_ERR_HPI_INVALID_PARAMS ∧
          (saHpiAutoExtractTimeoutSet rpc sid rid Timeout).calls = []) ↔
        (Timeout < 0 ∧ Timeout ≠ SAHPI_TIMEOUT_BLOCK)) ∧
      (Timeout = SAHPI_TIMEOUT_BLOCK ∨ Timeout = SAHPI_TIMEOUT_IMMEDIATE ∨ 0 < Timeout →
        (saHpiAutoExtractTimeoutSet rpc sid rid Timeout).calls =
          [Call.rpc .eFsaHpiAutoExtractTimeoutSet sid (rid, Timeout)])) ∧
    (Timeout < SAHPI_TIMEOUT_BLOCK ↔
      (Timeout ≠ SAHPI_TIMEOUT_IMMEDIATE ∧ Timeout ≠ SAHPI_TIMEOUT_BLOCK ∧ Timeout < 0)) := by
  have key : Timeout < SAHPI_TIMEOUT_BLOCK ↔ (Timeout < 0 ∧ Timeout ≠ SAHPI_TIMEOUT_BLOCK) :=
    timeout_lt_block_iff Timeout
  have key2 : (Timeout ≠ SAHPI_TIMEOUT_IMMEDIATE ∧ Timeout ≠ SAHPI_TIMEOUT_BLOCK ∧ Timeout < 0)
      ↔ (Timeout < 0 ∧ Timeout ≠ SAHPI_TIMEOUT_BLOCK) := timeout_setter_check_iff Timeout
  have acc : (Timeout = SAHPI_TIMEOUT_BLOCK ∨ Timeout = SAHPI_TIMEOUT_IMMEDIATE ∨ 0 < Timeout) →
      ¬ (Timeout < 0 ∧ Timeout ≠ SAHPI_TIMEOUT_BLOCK) := timeout_accepted Timeout
  refine ⟨?_, ?_, ?_, key.trans key2.symm⟩
  · intro rpc rdr rpte status sid ev Rdr RptEntry EQ
    by_cases h : Timeout < 0 ∧ Timeout ≠ SAHPI_TIMEOUT_BLOCK
    · have h' := key.mpr h
      refine ⟨?_, fun ha => absurd h (acc ha)⟩
      simp [saHpiEventGet, h', h]
    · have h' : ¬ Timeout < SAHPI_TIMEOUT_BLOCK := fun hh => h (key.mp hh)
      refine ⟨?_, fun _ => ?_⟩
      · simp [saHpiEventGet, h', h]
      · simp [saHpiEventGet, h']
  · intro rpc sid
    by_cases h : Timeout < 0 ∧ Timeout ≠ SAHPI_TIMEOUT_BLOCK
    · have h' := key2.mpr h
      refine ⟨?_, fun ha => absurd h (acc ha)⟩
      simp [saHpiAutoInsertTimeoutSet, h', h]
    · have h' : ¬ (Timeout ≠ SAHPI_TIMEOUT_IMMEDIATE ∧ Timeout ≠ SAHPI_TIMEOUT_BLOCK ∧
          Timeout < 0) := fun hh => h (key2.mp hh)
      refine ⟨?_, fun _ => ?_⟩
      · simp only [saHpiAutoInsertTimeoutSet, if_neg h']
        simp [h]
      · simp only [saHpiAutoInsertTimeoutSet, if_neg h']
  · intro rpc sid rid
    by_cases h : Timeout < 0 ∧ Timeout ≠ SAHPI_TIMEOUT_BLOCK
    · have h' := key2.mpr h
      refine ⟨?_, fun ha => absurd h (acc ha)⟩
      simp [saHpiAutoExtractTimeoutSet, h', h]
    · have h' : ¬ (Timeout ≠ SAHPI_TIMEOUT_IMMEDIATE ∧ Timeout ≠ SAHPI_TIMEOUT_BLOCK ∧
          Timeout < 0) := fun hh => h (key2.mp hh)
      refine ⟨?_, fun _ => ?_⟩
      · simp only [saHpiAutoExtractTimeoutSet, if_neg h']
        simp [h]
      · simp only [saHpiAutoExtractTimeoutSet, if_neg h']

/-- The theorem of claim C8 at the timeouts `SAHPI_TIMEOUT_BLOCK` and 5: both are handed to
`ohc_sess_rpc` as they are. -/
theorem timeout_checks_agree_witness :
    (saHpiEventGet (rpcAccepts _ _) [] [] 0 1 SAHPI_TIMEOUT_BLOCK (some blankEvent)
        none none none).calls = [Call.rpc .eFsaHpiEventGet 1 SAHPI_TIMEOUT_BLOCK] ∧
    (saHpiAutoInsertTimeoutSet (rpcAccepts _ _) 1 SAHPI_TIMEOUT_BLOCK).calls =
      [Call.rpc .eFsaHpiAutoInsertTimeoutSet 1 SAHPI_TIMEOUT_BLOCK] ∧
    (saHpiAutoExtractTimeoutSet (rpcAccepts _ _) 1 2 5).calls =
      [Call.rpc .eFsaHpiAutoExtractTimeoutSet 1 (2, 5)] :=
  ⟨((timeout_checks_agree SAHPI_TIMEOUT_BLOCK).1 (rpcAccepts _ _) [] [] 0 1 blankEvent
      none none none).2 (Or.inl rfl),
    ((timeout_checks_agree SAHPI_TIMEOUT_BLOCK).2.1 (rpcAccepts _ _) 1).2 (Or.inl rfl),
    ((timeout_checks_agree 5).2.2.1 (rpcAccepts _ _) 1 2).2 (Or.inr (Or.inr (by decide)))⟩

/-! ## Optional outputs and the status of the call -/

/-- Claim C9 as stated fails.  With a session layer that fails and writes nothing,
`saHpiSensorReadingGet` overwrites the caller's `Reading` and `EventState` with the content
of its uninitialised locals, and `saHpiEventGet` does the same to `Rdr`, `RptEntry` and
`EventQueueStatus`. -/
theorem failed_rpc_overwrites_optional_outputs :
    (rpcFails (SaHpiResourceIdT × SaHpiSensorNumT) (SaHpiSensorReadingT × SaHpiEventStateT)
        .eFsaHpiSensorReadingGet 1 (2, 3) (stackReading, 9)).1 ≠ SA_OK ∧
    (saHpiSensorReadingGet (rpcFails _ _) stackReading 9 1 2 3
        (some callerReading) (some 5)).out = (some stackReading, some 9) ∧
    (saHpiSensorReadingGet (rpcFails _ _) stackReading 9 1 2 3
        (some callerReading) (some 5)).out ≠ (some callerReading, some 5) ∧
    (saHpiEventGet (rpcFails _ _) [170] [171] 9 1 SAHPI_TIMEOUT_IMMEDIATE (some blankEvent)
        (some [1]) (some [2]) (some 5)).rv ≠ SA_OK ∧
    (saHpiEventGet (rpcFails _ _) [170] [171] 9 1 SAHPI_TIMEOUT_IMMEDIATE (some blankEvent)
        (some [1]) (some [2]) (some 5)).out =
      ⟨some blankEvent, some [170], some [171], some 9⟩ := by
  decide

/-- Claim C9 as amended.  `saHpiSensorReadingGet`, and `saHpiEventGet` once its local checks
pass, return the status of `ohc_sess_rpc` and, whatever that status is, overwrite every
non-null optional output buffer with the local copy of the corresponding output of the
call; a null buffer stays null. -/
theorem optional_outputs_copied_whatever_status :
    (∀ (rpc : Rpc (SaHpiResourceIdT × SaHpiSensorNumT)
          (SaHpiSensorReadingT × SaHpiEventStateT))
        (reading : SaHpiSensorReadingT) (state : SaHpiEventStateT) (sid : SaHpiSessionIdT)
        (rid : SaHpiResourceIdT) (num : SaHpiSensorNumT)
        (Reading : Option SaHpiSensorReadingT) (EventState : Option SaHpiEventStateT),
      (saHpiSensorReadingGet rpc reading state sid rid num Reading EventState).rv =
        (rpc .eFsaHpiSensorReadingGet sid (rid, num) (reading, state)).1 ∧
      (saHpiSensorReadingGet rpc reading state sid rid num Reading EventState).out.1 =
        Reading.map
          (fun _ => (rpc .eFsaHpiSensorReadingGet sid (rid, num) (reading, state)).2.1) ∧
      (saHpiSensorReadingGet rpc reading state sid rid num Reading EventState).out.2 =
        EventState.map
          (fun _ => (rpc .eFsaHpiSensorReadingGet sid (rid, num) (reading, state)).2.2)) ∧
    (∀ (rpc : Rpc SaHpiTimeoutT
          (SaHpiEventT × SaHpiRdrT × SaHpiRptEntryT × SaHpiEvtQueueStatusT))
        (rdr : SaHpiRdrT) (rpte : SaHpiRptEntryT) (status : SaHpiEvtQueueStatusT)
        (sid : SaHpiSessionIdT) (Timeout : SaHpiTimeoutT) (ev : SaHpiEventT)
        (Rdr : Option SaHpiRdrT) (RptEntry : Option SaHpiRptEntryT)
        (EventQueueStatus : Option SaHpiEvtQueueStatusT),
      ¬ Timeout < SAHPI_TIMEOUT_BLOCK →
      (saHpiEventGet rpc rdr rpte status sid Timeout (some ev) Rdr RptEntry
          EventQueueStatus).rv =
        (rpc .eFsaHpiEventGet sid Timeout (ev, rdr, rpte, status)).1 ∧
      (saHpiEventGet rpc rdr rpte status sid Timeout (some ev) Rdr RptEntry
          EventQueueStatus).out.Rdr =
        Rdr.map (fun _ => (rpc .eFsaHpiEventGet sid Timeout (ev, rdr, rpte, status)).2.2.1) ∧
      (saHpiEventGet rpc rdr rpte status sid Timeout (some ev) Rdr RptEntry
          EventQueueStatus).out.RptEntry =
        RptEntry.map
          (fun _ => (rpc .eFsaHpiEventGet sid Timeout (ev, rdr, rpte, status)).2.2.2.1) ∧
      (saHpiEventGet rpc rdr rpte status sid Timeout (some ev) Rdr RptEntry
          EventQueueStatus).out.EventQueueStatus =
        EventQueueStatus.map
          (fun _ => (rpc .eFsaHpiEventGet sid Timeout (ev, rdr, rpte, status)).2.2.2.2)) := by
  refine ⟨fun rpc reading state sid rid num R E => ⟨rfl, rfl, rfl⟩, ?_⟩
  intro rpc rdr rpte status sid t ev Rdr Rpt EQ h
  simp [saHpiEventGet, h]

/-- The theorem of claim C9 as amended, at a session layer that fails and writes nothing:
the caller's `Reading` holds the local's content on return, and so does `Rdr`; a null
`RptEntry` stays null. -/
theorem optional_outputs_copied_whatever_status_witness :
    (saHpiSensorReadingGet (rpcFails _ _) stackReading 9 1 2 3
        (some callerReading) none).out.1 = some stackReading ∧
    (saHpiEventGet (rpcFails _ _) [170] [171] 9 1 SAHPI_TIMEOUT_IMMEDIATE (some blankEvent)
        (some [1]) none (some 5)).out.Rdr = some [170] ∧
    (saHpiEventGet (rpcFails _ _) [170] [171] 9 1 SAHPI_TIMEOUT_IMMEDIATE (some blankEvent)
        (some [1]) none (some 5)).out.RptEntry = none :=
  ⟨(optional_outputs_copied_whatever_status.1 (rpcFails _ _) stackReading 9 1 2 3
      (some callerReading) none).2.1,
    (optional_outputs_copied_whatever_status.2 (rpcFails _ _) [170] [171] 9 1
      SAHPI_TIMEOUT_IMMEDIATE blankEvent (some [1]) none (some 5) (by decide)).2.1,
    (optional_outputs_copied_whatever_status.2 (rpcFails _ _) [170] [171] 9 1
      SAHPI_TIMEOUT_IMMEDIATE blankEvent (some [1]) none (some 5) (by decide)).2.2.1⟩

/-! ## Null output pointers -/

/-- Claim C10, the code at the failing inputs.  With `LoadId == NULL`,
`saHpiResourceLoadIdGet` calls `ohc_sess_rpc` and returns its status, whatever session layer
it runs on; so does `saHpiGetChildEntityPath` with `ChildEntityPath == NULL` and its other
arguments valid.  On a session layer whose calls succeed, both return `SA_OK`, not
`SA_ERR_HPI_INVALID_PARAMS`.  The sibling `saHpiResourceLoadIdSet` refuses a null `LoadId`
without a call. -/
theorem null_output_reaches_rpc :
    (∀ (rpc : Rpc SaHpiResourceIdT (Option SaHpiLoadIdT)) (sid : SaHpiSessionIdT)
        (rid : SaHpiResourceIdT),
      (saHpiResourceLoadIdGet rpc sid rid none).calls =
        [Call.rpc .eFsaHpiResourceLoadIdGet sid rid] ∧
      (saHpiResourceLoadIdGet rpc sid rid none).rv =
        (rpc .eFsaHpiResourceLoadIdGet sid rid none).1) ∧
    (∀ (rpc : Rpc (SaHpiEntityPathT × Nat) (Nat × Option SaHpiEntityPathT × Nat))
        (sid : SaHpiSessionIdT) (parent : SaHpiEntityPathT) (cnt : Nat),
      (saHpiGetChildEntityPath rpc sid parent (some 0) none (some cnt)).calls =
        [Call.rpc .eFsaHpiGetChildEntityPath sid (parent, 0)] ∧
      (saHpiGetChildEntityPath rpc sid parent (some 0) none (some cnt)).rv =
        (rpc .eFsaHpiGetChildEntityPath sid (parent, 0) (0, none, cnt)).1) ∧
    saHpiResourceLoadIdGet (rpcAccepts _ _) 1 2 none =
      ⟨SA_OK, none, [Call.rpc .eFsaHpiResourceLoadIdGet 1 2]⟩ ∧
    saHpiGetChildEntityPath (rpcAccepts _ _) 1 [] (some 0) none (some 0) =
      ⟨SA_OK, (some 0, none, some 0), [Call.rpc .eFsaHpiGetChildEntityPath 1 ([], 0)]⟩ ∧
    SA_OK ≠ SA_ERR_HPI_INVALID_PARAMS ∧
    saHpiResourceLoadIdSet (rpcAccepts _ _) 1 2 none = ⟨SA_ERR_HPI_INVALID_PARAMS, (), []⟩ := by
  refine ⟨fun rpc sid rid => ⟨rfl, rfl⟩, fun rpc sid parent cnt => ?_, ?_, ?_, ?_, ?_⟩
  · simp [saHpiGetChildEntityPath, SAHPI_LAST_ENTRY]
  · decide
  · decide
  · decide
  · decide

/-! ## Typed outputs -/

/-- Claim C11, the code at the failing input.  With non-null `PercentCompleted` and
`RunStatus`, the first output parameter handed to `ohc_sess_rpc` is the local `percent`, not
the caller's buffer: whatever the call decodes, `*PercentCompleted` keeps the value it had.
With a daemon that answers `SA_OK`, 50 percent and run status 2, a caller whose buffer held
7 finds 7 in it on return, next to run status 2. -/
theorem saHpiDimiTestStatusGet_drops_percent :
    (∀ (rpc : Rpc (SaHpiResourceIdT × Nat × Nat) (Option Nat × Nat)) (percent : Nat)
        (sid : SaHpiSessionIdT) (rid : SaHpiResourceIdT) (dimi test p0 s0 : Nat),
      (saHpiDimiTestStatusGet rpc percent sid rid dimi test (some p0) (some s0)).out.1 =
        some p0) ∧
    daemonDimiStatus .eFsaHpiDimiTestStatusGet 1 (2, 3, 4) (some 0, 0) = (SA_OK, (some 50, 2)) ∧
    saHpiDimiTestStatusGet daemonDimiStatus 0 1 2 3 4 (some 7) (some 0) =
      ⟨SA_OK, (some 7, some 2), [Call.rpc .eFsaHpiDimiTestStatusGet 1 (2, 3, 4)]⟩ := by
  refine ⟨fun rpc percent sid rid dimi test p0 s0 => rfl, ?_, ?_⟩ <;> decide

/-! ## Local validation -/

theorem saHpiControlSet_of_invalid
    (lookup_mode lookup_digital lookup_type : Nat → Option String)
    (rpc : Rpc (SaHpiResourceIdT × Nat × Nat × Option SaHpiCtrlStateT) Unit)
    (sid : SaHpiSessionIdT) (rid : SaHpiResourceIdT) (num Mode : Nat)
    (State : Option SaHpiCtrlStateT)
    (h : saHpiControlSet_invalid_params lookup_mode lookup_digital Mode State = true) :
    saHpiControlSet lookup_mode lookup_digital lookup_type rpc sid rid num Mode State =
      ⟨SA_ERR_HPI_INVALID_PARAMS, (), []⟩ := by
  simp only [saHpiControlSet]
  rw [if_pos h]

theorem saHpiControlSet_of_auto
    (lookup_mode lookup_digital lookup_type : Nat → Option String)
    (rpc : Rpc (SaHpiResourceIdT × Nat × Nat × Option SaHpiCtrlStateT) Unit)
    (sid : SaHpiSessionIdT) (rid : SaHpiResourceIdT) (num Mode : Nat)
    (State : Option SaHpiCtrlStateT)
    (h : ¬ saHpiControlSet_invalid_params lookup_mode lookup_digital Mode State = true)
    (hm : Mode = SAHPI_CTRL_MODE_AUTO) :
    saHpiControlSet lookup_mode lookup_digital lookup_type rpc sid rid num Mode State =
      ⟨(rpc .eFsaHpiControlSet sid (rid, num, Mode, some zeroCtrlState) ()).1, (),
        [Call.rpc .eFsaHpiControlSet sid (rid, num, Mode, some zeroCtrlState)]⟩ := by
  simp only [saHpiControlSet]
  rw [if_neg h, if_pos hm]

theorem saHpiControlSet_of_unknown_type
    (lookup_mode lookup_digital lookup_type : Nat → Option String)
    (rpc : Rpc (SaHpiResourceIdT × Nat × Nat × Option SaHpiCtrlStateT) Unit)
    (sid : SaHpiSessionIdT) (rid : SaHpiResourceIdT) (num Mode : Nat)
    (State : Option SaHpiCtrlStateT)
    (h : ¬ saHpiControlSet_invalid_params lookup_mode lookup_digital Mode State = true)
    (hm : Mode ≠ SAHPI_CTRL_MODE_AUTO)
    (hq : State.any (fun st => (lookup_type st.Type_).isNone) = true) :
    saHpiControlSet lookup_mode lookup_digital lookup_type rpc sid rid num Mode State =
      ⟨SA_ERR_HPI_INVALID_DATA, (), []⟩ := by
  simp only [saHpiControlSet]
  rw [if_neg h, if_neg hm, if_pos hq]

theorem saHpiControlSet_of_manual
    (lookup_mode lookup_digital lookup_type : Nat → Option String)
    (rpc : Rpc (SaHpiResourceIdT × Nat × Nat × Option SaHpiCtrlStateT) Unit)
    (sid : SaHpiSessionIdT) (rid : SaHpiResourceIdT) (num Mode : Nat)
    (State : Option SaHpiCtrlStateT)
    (h : ¬ saHpiControlSet_invalid_params lookup_mode lookup_digital Mode State = true)
    (hm : Mode ≠ SAHPI_CTRL_MODE_AUTO)
    (hq : ¬ State.any (fun st => (lookup_type st.Type_).isNone) = true) :
    saHpiControlSet lookup_mode lookup_digital lookup_type rpc sid rid num Mode State =
      ⟨(rpc .eFsaHpiControlSet sid (rid, num, Mode, State) ()).1, (),
        [Call.rpc .eFsaHpiControlSet sid (rid, num, Mode, State)]⟩ := by
  simp only [saHpiControlSet]
  rw [if_neg h, if_neg hm, if_neg hq]

/-- Claim C12.  `saHpiControlSet` returns `SA_ERR_HPI_INVALID_PARAMS` without a call of
`ohc_sess_rpc` if and only if `Mode` is unknown, or `Mode` is not `SAHPI_CTRL_MODE_AUTO` and
`State` is null, or `State` is a digital state with an unknown value, or `State` is a stream
state longer than `SAHPI_CTRL_MAX_STREAM_LENGTH`.  Otherwise it returns
`SA_ERR_HPI_INVALID_DATA` without a call if and only if `Mode` is not
`SAHPI_CTRL_MODE_AUTO` and the type of `State` is unknown.  In every remaining case it makes
exactly one call, with code `eFsaHpiControlSet`, and returns its status. -/
theorem saHpiControlSet_local_validation
    (lookup_mode lookup_digital lookup_type : Nat → Option String)
    (rpc : Rpc (SaHpiResourceIdT × Nat × Nat × Option SaHpiCtrlStateT) Unit)
    (sid : SaHpiSessionIdT) (rid : SaHpiResourceIdT) (num Mode : Nat)
    (State : Option SaHpiCtrlStateT) :
    (((saHpiControlSet lookup_mode lookup_digital lookup_type rpc sid rid num Mode State).rv =
          SA_ERR_HPI_INVALID_PARAMS ∧
        (saHpiControlSet lookup_mode lookup_digital lookup_type rpc sid rid num Mode
          State).calls = []) ↔
      (lookup_mode Mode = none ∨ (Mode ≠ SAHPI_CTRL_MODE_AUTO ∧ State = none) ∨
        (∃ st, State = some st ∧ st.Type_ = SAHPI_CTRL_TYPE_DIGITAL ∧
          lookup_digital st.StateUnion.Digital = none) ∨
        (∃ st, State = some st ∧ st.Type_ = SAHPI_CTRL_TYPE_STREAM ∧
          st.StateUnion.StreamLength > SAHPI_CTRL_MAX_STREAM_LENGTH))) ∧
    (¬ (lookup_mode Mode = none ∨ (Mode ≠ SAHPI_CTRL_MODE_AUTO ∧ State = none) ∨
        (∃ st, State = some st ∧ st.Type_ = SAHPI_CTRL_TYPE_DIGITAL ∧
          lookup_digital st.StateUnion.Digital = none) ∨
        (∃ st, State = some st ∧ st.Type_ = SAHPI_CTRL_TYPE_STREAM ∧
          st.StateUnion.StreamLength > SAHPI_CTRL_MAX_STREAM_LENGTH)) →
      ((((saHpiControlSet lookup_mode lookup_digital lookup_type rpc sid rid num Mode
              State).rv = SA_ERR_HPI_INVALID_DATA ∧
            (saHpiControlSet lookup_mode lookup_digital lookup_type rpc sid rid num Mode
              State).calls = []) ↔
          (Mode ≠ SAHPI_CTRL_MODE_AUTO ∧ ∃ st, State = some st ∧ lookup_type st.Type_ = none)) ∧
        (¬ (Mode ≠ SAHPI_CTRL_MODE_AUTO ∧ ∃ st, State = some st ∧ lookup_type st.Type_ = none) →
          ∃ pmystate,
            (saHpiControlSet lookup_mode lookup_digital lookup_type rpc sid rid num Mode
              State).calls = [Call.rpc .eFsaHpiControlSet sid (rid, num, Mode, pmystate)] ∧
            (saHpiControlSet lookup_mode lookup_digital lookup_type rpc sid rid num Mode
              State).rv = (rpc .eFsaHpiControlSet sid (rid, num, Mode, pmystate) ()).1))) := by
  have hP : saHpiControlSet_invalid_params lookup_mode lookup_digital Mode State = true ↔
      (lookup_mode Mode = none ∨ (Mode ≠ SAHPI_CTRL_MODE_AUTO ∧ State = none) ∨
        (∃ st, State = some st ∧ st.Type_ = SAHPI_CTRL_TYPE_DIGITAL ∧
          lookup_digital st.StateUnion.Digital = none) ∨
        (∃ st, State = some st ∧ st.Type_ = SAHPI_CTRL_TYPE_STREAM ∧
          st.StateUnion.StreamLength > SAHPI_CTRL_MAX_STREAM_LENGTH)) := by
    cases State <;>
      simp [saHpiControlSet_invalid_params, Option.isNone_iff_eq_none, or_assoc]
  have hQ : (State.any (fun st => (lookup_type st.Type_).isNone) = true) ↔
      ∃ st, State = some st ∧ lookup_type st.Type_ = none := by
    cases State <;> simp [Option.isNone_iff_eq_none]
  have hd : SA_ERR_HPI_INVALID_DATA ≠ SA_ERR_HPI_INVALID_PARAMS := by decide
  by_cases h : saHpiControlSet_invalid_params lookup_mode lookup_digital Mode State = true
  · rw [saHpiControlSet_of_invalid _ _ _ _ _ _ _ _ _ h]
    exact ⟨⟨fun _ => hP.mp h, fun _ => ⟨rfl, rfl⟩⟩, fun hn => absurd (hP.mp h) hn⟩
  · have hn := fun hh => h (hP.mpr hh)
    by_cases hm : Mode = SAHPI_CTRL_MODE_AUTO
    · rw [saHpiControlSet_of_auto _ _ _ _ _ _ _ _ _ h hm]
      refine ⟨⟨fun hh => absurd hh.2 (by simp), fun hh => absurd hh hn⟩, fun _ => ⟨⟨fun hh =>
        absurd hh.2 (by simp), fun hh => absurd hm hh.1⟩, fun _ => ⟨_, rfl, rfl⟩⟩⟩
    · by_cases hq : State.any (fun st => (lookup_type st.Type_).isNone) = true
      · rw [saHpiControlSet_of_unknown_type _ _ _ _ _ _ _ _ _ h hm hq]
        exact ⟨⟨fun hh => absurd hh.1 hd, fun hh => absurd hh hn⟩, fun _ =>
          ⟨⟨fun _ => ⟨hm, hQ.mp hq⟩, fun _ => ⟨rfl, rfl⟩⟩, fun hc => absurd ⟨hm, hQ.mp hq⟩ hc⟩⟩
      · rw [saHpiControlSet_of_manual _ _ _ _ _ _ _ _ _ h hm hq]
        refine ⟨⟨fun hh => absurd hh.2 (by simp), fun hh => absurd hh hn⟩, fun _ => ⟨⟨fun hh =>
          absurd hh.2 (by simp), fun hh => absurd (hQ.mpr hh.2) hq⟩, fun _ => ⟨_, rfl, rfl⟩⟩⟩

/-- The theorem of claim C12 at manual mode with a text state of known type: one call is
made, carrying the caller's state. -/
theorem saHpiControlSet_local_validation_witness :
    ∃ pmystate,
      (saHpiControlSet ctrlModeLookup ctrlDigitalLookup ctrlTypeLookup (rpcAccepts _ _) 1 2 3 1
        (some (ctrlStateOfType 4))).calls =
          [Call.rpc .eFsaHpiControlSet 1 (2, 3, 1, pmystate)] :=
  (((saHpiControlSet_local_validation ctrlModeLookup ctrlDigitalLookup ctrlTypeLookup
      (rpcAccepts _ _) 1 2 3 1 (some (ctrlStateOfType 4))).2
      (by simp [ctrlModeLookup, ctrlStateOfType, SAHPI_CTRL_TYPE_DIGITAL,
        SAHPI_CTRL_TYPE_STREAM])).2
      (by simp [ctrlTypeLookup, ctrlStateOfType])).imp (fun _ h => h.1)

/-- Claim C13.  `saHpiRptEntryGet`, `saHpiResourceSeveritySet` and `oHpiHandlerRetry`: a call
that fails the local checks returns `SA_ERR_HPI_INVALID_PARAMS`, writes nothing and makes no
call of `ohc_sess_rpc`; a call that passes them makes exactly one call of `ohc_sess_rpc`,
with the wrapper's own function code and the caller's session id, and returns its status,
whatever that status is. -/
theorem validate_then_forward_once :
    (∀ (rpc : Rpc SaHpiEntryIdT (SaHpiEntryIdT × SaHpiRptEntryT)) (sid : SaHpiSessionIdT)
        (EntryId : SaHpiEntryIdT) (NextEntryId : Option SaHpiEntryIdT)
        (RptEntry : Option SaHpiRptEntryT),
      (NextEntryId = none ∨ RptEntry = none ∨ EntryId = SAHPI_LAST_ENTRY →
        saHpiRptEntryGet rpc sid EntryId NextEntryId RptEntry =
          ⟨SA_ERR_HPI_INVALID_PARAMS, (NextEntryId, RptEntry), []⟩) ∧
      (∀ ne re, NextEntryId = some ne → RptEntry = some re → EntryId ≠ SAHPI_LAST_ENTRY →
        (saHpiRptEntryGet rpc sid EntryId NextEntryId RptEntry).calls =
          [Call.rpc .eFsaHpiRptEntryGet sid EntryId] ∧
        (saHpiRptEntryGet rpc sid EntryId NextEntryId RptEntry).rv =
          (rpc .eFsaHpiRptEntryGet sid EntryId (ne, re)).1)) ∧
    (∀ (lookup : Nat → Option String) (rpc : Rpc (SaHpiResourceIdT × Nat) Unit)
        (sid : SaHpiSessionIdT) (rid : SaHpiResourceIdT) (Severity : Nat),
      (rid = SAHPI_UNSPECIFIED_RESOURCE_ID ∨ lookup Severity = none →
        saHpiResourceSeveritySet lookup rpc sid rid Severity =
          ⟨SA_ERR_HPI_INVALID_PARAMS, (), []⟩) ∧
      (rid ≠ SAHPI_UNSPECIFIED_RESOURCE_ID → lookup Severity ≠ none →
        saHpiResourceSeveritySet lookup rpc sid rid Severity =
          ⟨(rpc .eFsaHpiResourceSeveritySet sid (rid, Severity) ()).1, (),
            [Call.rpc .eFsaHpiResourceSeveritySet sid (rid, Severity)]⟩)) ∧
    (∀ (rpc : Rpc Nat Unit) (sid : SaHpiSessionIdT) (id : Nat),
      (id = 0 → oHpiHandlerRetry rpc sid id = ⟨SA_ERR_HPI_INVALID_PARAMS, (), []⟩) ∧
      (id ≠ 0 → oHpiHandlerRetry rpc sid id =
        ⟨(rpc .eFoHpiHandlerRetry sid id ()).1, (), [Call.rpc .eFoHpiHandlerRetry sid id]⟩)) := by
  refine ⟨fun rpc sid e N R => ⟨?_, ?_⟩, fun lookup rpc sid rid sev => ⟨?_, ?_⟩,
    fun rpc sid id => ⟨?_, ?_⟩⟩
  · rintro (h | h | h)
    · subst h
      rfl
    · subst h
      cases N <;> rfl
    · cases N <;> cases R <;> simp [saHpiRptEntryGet, h]
  · rintro ne re rfl rfl h
    simp [saHpiRptEntryGet, h]
  · rintro (h | h)
    · simp [saHpiResourceSeveritySet, h]
    · simp [saHpiResourceSeveritySet, h]
  · intro h1 h2
    have h2' : (lookup sev).isNone = false := by
      cases h : lookup sev <;> simp_all
    simp [saHpiResourceSeveritySet, h1, h2']
  · intro h
    simp [oHpiHandlerRetry, h]
  · intro h
    simp [oHpiHandlerRetry, h]

/-- The theorem of claim C13 at a session layer whose calls fail: each wrapper makes its one
call and returns the failure, and a refused call makes none. -/
theorem validate_then_forward_once_witness :
    (saHpiRptEntryGet (rpcFails _ _) 1 0 (some 0) (some [])).calls =
      [Call.rpc .eFsaHpiRptEntryGet 1 0] ∧
    saHpiRptEntryGet (rpcFails _ _) 1 0 none (some []) =
      ⟨SA_ERR_HPI_INVALID_PARAMS, (none, some []), []⟩ ∧
    saHpiResourceSeveritySet severityLookup (rpcFails _ _) 1 2 3 =
      ⟨SA_ERR_HPI_NOT_PRESENT, (), [Call.rpc .eFsaHpiResourceSeveritySet 1 (2, 3)]⟩ ∧
    saHpiResourceSeveritySet severityLookup (rpcFails _ _) 1 2 9 =
      ⟨SA_ERR_HPI_INVALID_PARAMS, (), []⟩ ∧
    oHpiHandlerRetry (rpcFails _ _) 1 5 =
      ⟨SA_ERR_HPI_NOT_PRESENT, (), [Call.rpc .eFoHpiHandlerRetry 1 5]⟩ ∧
    oHpiHandlerRetry (rpcFails _ _) 1 0 = ⟨SA_ERR_HPI_INVALID_PARAMS, (), []⟩ :=
  ⟨((validate_then_forward_once.1 (rpcFails _ _) 1 0 (some 0) (some [])).2 0 [] rfl rfl
      (by decide)).1,
    (validate_then_forward_once.1 (rpcFails _ _) 1 0 none (some [])).1 (Or.inl rfl),
    (validate_then_forward_once.2.1 severityLookup (rpcFails _ _) 1 2 3).2 (by decide)
      (by decide),
    (validate_then_forward_once.2.1 severityLookup (rpcFails _ _) 1 2 9).1
      (Or.inr (by decide)),
    (validate_then_forward_once.2.2 (rpcFails _ _) 1 5).2 (by decide),
    (validate_then_forward_once.2.2 (rpcFails _ _) 1 0).1 rfl⟩

/-- Claim C14.  `saHpiAlarmGetNext`: a null `Alarm` yields `SA_ERR_HPI_INVALID_PARAMS`;
otherwise an unknown `Severity` yields `SA_ERR_HPI_INVALID_PARAMS`, whatever the alarm id;
otherwise `Alarm->AlarmId == SAHPI_LAST_ENTRY` yields `SA_ERR_HPI_NOT_PRESENT`.  In the three
cases no call is made and `*Alarm` is unchanged.  A call of `ohc_sess_rpc` is made exactly
when none of the three holds, and it is then the first call. -/
theorem saHpiAlarmGetNext_local_failures (lookup : Nat → Option String)
    (rpc : Rpc (Nat × Nat × SaHpiAlarmT) SaHpiAlarmT) (get_did : GetDid)
    (sid : SaHpiSessionIdT) (Severity Unack : Nat) :
    saHpiAlarmGetNext lookup rpc get_did sid Severity Unack none =
      ⟨SA_ERR_HPI_INVALID_PARAMS, none, []⟩ ∧
    (∀ al : SaHpiAlarmT,
      (lookup Severity = none →
        saHpiAlarmGetNext lookup rpc get_did sid Severity Unack (some al) =
          ⟨SA_ERR_HPI_INVALID_PARAMS, some al, []⟩) ∧
      (lookup Severity ≠ none → al.AlarmId = SAHPI_LAST_ENTRY →
        saHpiAlarmGetNext lookup rpc get_did sid Severity Unack (some al) =
          ⟨SA_ERR_HPI_NOT_PRESENT, some al, []⟩) ∧
      (lookup Severity ≠ none → al.AlarmId ≠ SAHPI_LAST_ENTRY →
        (saHpiAlarmGetNext lookup rpc get_did sid Severity Unack (some al)).calls.head? =
          some (Call.rpc .eFsaHpiAlarmGetNext sid (Severity, Unack, al))) ∧
      ((saHpiAlarmGetNext lookup rpc get_did sid Severity Unack (some al)).calls ≠ [] ↔
        (lookup Severity ≠ none ∧ al.AlarmId ≠ SAHPI_LAST_ENTRY))) := by
  refine ⟨rfl, fun al => ?_⟩
  cases hl : lookup Severity with
  | none => simp [saHpiAlarmGetNext, hl]
  | some nm =>
    by_cases ha : al.AlarmId = SAHPI_LAST_ENTRY
    · simp [saHpiAlarmGetNext, hl, ha]
    · simp only [saHpiAlarmGetNext, hl, ha, Option.isNone_some, Bool.false_eq_true, if_false]
      refine ⟨by simp, by simp [ha], fun _ _ => ?_, ?_⟩
      · split_ifs <;> simp
      · split_ifs <;> simp [ha]

/-- The theorem of claim C14 at an alarm whose id is `SAHPI_LAST_ENTRY`: with an unknown
severity the call is refused as invalid, with a known one as not present. -/
theorem saHpiAlarmGetNext_local_failures_witness :
    saHpiAlarmGetNext severityLookup (daemonAlarm7 _) didLookup100 1 9 0
        (some { alarm7 with AlarmId := SAHPI_LAST_ENTRY }) =
      ⟨SA_ERR_HPI_INVALID_PARAMS, some { alarm7 with AlarmId := SAHPI_LAST_ENTRY }, []⟩ ∧
    saHpiAlarmGetNext severityLookup (daemonAlarm7 _) didLookup100 1 1 0
        (some { alarm7 with AlarmId := SAHPI_LAST_ENTRY }) =
      ⟨SA_ERR_HPI_NOT_PRESENT, some { alarm7 with AlarmId := SAHPI_LAST_ENTRY }, []⟩ :=
  ⟨((saHpiAlarmGetNext_local_failures severityLookup (daemonAlarm7 _) didLookup100 1 9 0).2
      { alarm7 with AlarmId := SAHPI_LAST_ENTRY }).1 (by decide),
    ((saHpiAlarmGetNext_local_failures severityLookup (daemonAlarm7 _) didLookup100 1 1 0).2
      { alarm7 with AlarmId := SAHPI_LAST_ENTRY }).2.1 (by decide) rfl⟩

/-- Claim C15.  `saHpiWatchdogTimerSet`: a null `Watchdog`, or a `TimerUse`, `TimerAction` or
`PretimerInterrupt` that is unknown, yields `SA_ERR_HPI_INVALID_PARAMS` without a call,
whatever the intervals.  For a watchdog whose three values are known, the wrapper returns
`SA_ERR_HPI_INVALID_DATA` without a call if and only if
`PreTimeoutInterval > InitialCount`; otherwise (equality included) it makes its one call and
returns its status. -/
theorem saHpiWatchdogTimerSet_local_validation
    (lookup_use lookup_action lookup_pretimer : Nat → Option String)
    (rpc : Rpc (SaHpiResourceIdT × Nat × SaHpiWatchdogT) Unit)
    (sid : SaHpiSessionIdT) (rid : SaHpiResourceIdT) (num : Nat) :
    saHpiWatchdogTimerSet lookup_use lookup_action lookup_pretimer rpc sid rid num none =
      ⟨SA_ERR_HPI_INVALID_PARAMS, (), []⟩ ∧
    (∀ wd : SaHpiWatchdogT,
      (lookup_use wd.TimerUse = none ∨ lookup_action wd.TimerAction = none ∨
          lookup_pretimer wd.PretimerInterrupt = none →
        saHpiWatchdogTimerSet lookup_use lookup_action lookup_pretimer rpc sid rid num
          (some wd) = ⟨SA_ERR_HPI_INVALID_PARAMS, (), []⟩) ∧
      (lookup_use wd.TimerUse ≠ none → lookup_action wd.TimerAction ≠ none →
          lookup_pretimer wd.PretimerInterrupt ≠ none →
        (((saHpiWatchdogTimerSet lookup_use lookup_action lookup_pretimer rpc sid rid num
              (some wd)).rv = SA_ERR_HPI_INVALID_DATA ∧
            (saHpiWatchdogTimerSet lookup_use lookup_action lookup_pretimer rpc sid rid num
              (some wd)).calls = []) ↔
          wd.PreTimeoutInterval > wd.InitialCount) ∧
        (wd.PreTimeoutInterval ≤ wd.InitialCount →
          saHpiWatchdogTimerSet lookup_use lookup_action lookup_pretimer rpc sid rid num
            (some wd) =
            ⟨(rpc .eFsaHpiWatchdogTimerSet sid (rid, num, wd) ()).1, (),
              [Call.rpc .eFsaHpiWatchdogTimerSet sid (rid, num, wd)]⟩))) := by
  refine ⟨rfl, fun wd => ⟨fun h => ?_, fun h1 h2 h3 => ?_⟩⟩
  · have : (lookup_use wd.TimerUse).isNone = true ∨ (lookup_action wd.TimerAction).isNone = true ∨
        (lookup_pretimer wd.PretimerInterrupt).isNone = true := by
      simpa [Option.isNone_iff_eq_none] using h
    simp only [saHpiWatchdogTimerSet]
    rw [if_pos this]
  · have : ¬ ((lookup_use wd.TimerUse).isNone = true ∨ (lookup_action wd.TimerAction).isNone = true ∨
        (lookup_pretimer wd.PretimerInterrupt).isNone = true) := by
      simp [Option.isNone_iff_eq_none, h1, h2, h3]
    simp only [saHpiWatchdogTimerSet]
    rw [if_neg this]
    by_cases hp : wd.PreTimeoutInterval > wd.InitialCount
    · rw [if_pos hp]
      exact ⟨⟨fun _ => hp, fun _ => ⟨rfl, rfl⟩⟩, fun hle => absurd hp (by omega)⟩
    · rw [if_neg hp]
      exact ⟨⟨fun hh => absurd hh.2 (by simp), fun hh => absurd hh hp⟩, fun _ => rfl⟩

/-- The theorem of claim C15 at known enumeration values: a pre-timeout interval equal to the
initial count is forwarded, one above it is refused as invalid data. -/
theorem saHpiWatchdogTimerSet_local_validation_witness :
    saHpiWatchdogTimerSet watchdogLookup watchdogLookup watchdogLookup (rpcAccepts _ _) 1 2 3
        (some (watchdogWith 10 10)) =
      ⟨SA_OK, (), [Call.rpc .eFsaHpiWatchdogTimerSet 1 (2, 3, watchdogWith 10 10)]⟩ ∧
    (saHpiWatchdogTimerSet watchdogLookup watchdogLookup watchdogLookup (rpcAccepts _ _) 1 2 3
        (some (watchdogWith 11 10))).rv = SA_ERR_HPI_INVALID_DATA :=
  ⟨(((saHpiWatchdogTimerSet_local_validation watchdogLookup watchdogLookup watchdogLookup
      (rpcAccepts _ _) 1 2 3).2 (watchdogWith 10 10)).2 (by decide) (by decide)
      (by decide)).2 (by decide),
    ((((saHpiWatchdogTimerSet_local_validation watchdogLookup watchdogLookup watchdogLookup
      (rpcAccepts _ _) 1 2 3).2 (watchdogWith 11 10)).2 (by decide) (by decide)
      (by decide)).1.mpr (by decide)).1⟩

/-! ## Domain registry -/

theorem set_take_append_cons (l xs : List Nat) (x : Nat) :
    ((l ++ x :: xs).set l.length 0).take (l.length + 1) = l ++ [0] := by
  induction l with
  | nil => simp
  | cons a l ih => simpa using ih

theorem hostBuffer_leading_bytes (buf : List Nat) (host : SaHpiTextBufferT)
    (hb : host.DataLength < buf.length) (hd : host.DataLength ≤ host.Data.length) :
    (hostBuffer buf host).take (host.DataLength + 1) =
      host.Data.take host.DataLength ++ [0] := by
  have hl : (host.Data.take host.DataLength).length = host.DataLength := by
    simp [List.length_take, hd]
  have hne : buf.drop host.DataLength ≠ [] := by
    intro h
    have := congrArg List.length h
    simp at this
    omega
  obtain ⟨x, xs, hx⟩ := List.exists_cons_of_ne_nil hne
  unfold hostBuffer memcpyBytes
  rw [hx]
  have := set_take_append_cons (host.Data.take host.DataLength) xs x
  rwa [hl] at this

/-- Claim C16.  `oHpiDomainAdd` and `oHpiDomainAddById`: a null `host` (for `oHpiDomainAdd`
also a null `domain_id`) yields `SA_ERR_HPI_INVALID_PARAMS`; otherwise a `DataType` other
than `SAHPI_TL_TYPE_BCDPLUS`, `SAHPI_TL_TYPE_ASCII6` and `SAHPI_TL_TYPE_TEXT` yields
`SA_ERR_HPI_INVALID_DATA`; in both cases no call is made.  Otherwise the registry function
is called exactly once, with the buffer `buf` and the caller's port, and its result is
returned.  In that buffer (an array of `SAHPI_MAX_TEXT_BUFFER_LENGTH + 1` bytes, `Data`
having `SAHPI_MAX_TEXT_BUFFER_LENGTH` bytes and `DataLength` being at most that) the first
`DataLength` bytes are those of `host->Data` and the byte behind them is NUL. -/
theorem oHpiDomainAdd_validation_and_host :
    (∀ (add : List Nat → Nat → SaHpiDomainIdT → SaErrorT × SaHpiDomainIdT) (buf : List Nat)
        (port : Nat),
      (∀ domain_id, oHpiDomainAdd add buf none port domain_id =
        ⟨SA_ERR_HPI_INVALID_PARAMS, domain_id, []⟩) ∧
      (∀ h, oHpiDomainAdd add buf (some h) port none = ⟨SA_ERR_HPI_INVALID_PARAMS, none, []⟩) ∧
      (∀ h did, h.DataType ≠ SAHPI_TL_TYPE_BCDPLUS ∧ h.DataType ≠ SAHPI_TL_TYPE_ASCII6 ∧
          h.DataType ≠ SAHPI_TL_TYPE_TEXT →
        oHpiDomainAdd add buf (some h) port (some did) =
          ⟨SA_ERR_HPI_INVALID_DATA, some did, []⟩) ∧
      (∀ h did, h.DataType = SAHPI_TL_TYPE_BCDPLUS ∨ h.DataType = SAHPI_TL_TYPE_ASCII6 ∨
          h.DataType = SAHPI_TL_TYPE_TEXT →
        oHpiDomainAdd add buf (some h) port (some did) =
          ⟨(add (hostBuffer buf h) port did).1, some (add (hostBuffer buf h) port did).2,
            [LibCall.client_init, LibCall.add_domain_conf (hostBuffer buf h) port]⟩)) ∧
    (∀ (add : SaHpiDomainIdT → List Nat → Nat → SaErrorT) (buf : List Nat)
        (did : SaHpiDomainIdT) (port : Nat),
      oHpiDomainAddById add buf did none port = ⟨SA_ERR_HPI_INVALID_PARAMS, (), []⟩ ∧
      (∀ h, h.DataType ≠ SAHPI_TL_TYPE_BCDPLUS ∧ h.DataType ≠ SAHPI_TL_TYPE_ASCII6 ∧
          h.DataType ≠ SAHPI_TL_TYPE_TEXT →
        oHpiDomainAddById add buf did (some h) port = ⟨SA_ERR_HPI_INVALID_DATA, (), []⟩) ∧
      (∀ h, h.DataType = SAHPI_TL_TYPE_BCDPLUS ∨ h.DataType = SAHPI_TL_TYPE_ASCII6 ∨
          h.DataType = SAHPI_TL_TYPE_TEXT →
        oHpiDomainAddById add buf did (some h) port =
          ⟨add did (hostBuffer buf h) port, (),
            [LibCall.client_init, LibCall.add_domain_conf_by_id did (hostBuffer buf h) port]⟩)) ∧
    (∀ (buf : List Nat) (h : SaHpiTextBufferT),
      buf.length = SAHPI_MAX_TEXT_BUFFER_LENGTH + 1 →
      h.Data.length = SAHPI_MAX_TEXT_BUFFER_LENGTH →
      h.DataLength ≤ SAHPI_MAX_TEXT_BUFFER_LENGTH →
      (hostBuffer buf h).take (h.DataLength + 1) = h.Data.take h.DataLength ++ [0] ∧
      (h.Data.take h.DataLength).length = h.DataLength) := by
  refine ⟨fun add buf port => ⟨fun d => rfl, fun h => rfl, fun h did hb => ?_,
    fun h did hg => ?_⟩, fun add buf did port => ⟨rfl, fun h hb => ?_, fun h hg => ?_⟩,
    fun buf h h1 h2 h3 => ⟨hostBuffer_leading_bytes buf h (by omega) (by omega), ?_⟩⟩
  · simp only [oHpiDomainAdd]
    rw [if_pos hb]
  · have : ¬ (h.DataType ≠ SAHPI_TL_TYPE_BCDPLUS ∧ h.DataType ≠ SAHPI_TL_TYPE_ASCII6 ∧
        h.DataType ≠ SAHPI_TL_TYPE_TEXT) := by
      rintro ⟨a, b, c⟩
      rcases hg with hg | hg | hg <;> contradiction
    simp only [oHpiDomainAdd]
    rw [if_neg this]
  · simp only [oHpiDomainAddById]
    rw [if_pos hb]
  · have : ¬ (h.DataType ≠ SAHPI_TL_TYPE_BCDPLUS ∧ h.DataType ≠ SAHPI_TL_TYPE_ASCII6 ∧
        h.DataType ≠ SAHPI_TL_TYPE_TEXT) := by
      rintro ⟨a, b, c⟩
      rcases hg with hg | hg | hg <;> contradiction
    simp only [oHpiDomainAddById]
    rw [if_neg this]
  · simp [List.length_take]
    omega

/-- The theorem of claim C16 at the host "h1", port 4743: the registry is called once with a
buffer that starts with "h1" and a NUL, and a host of type 0 is refused without a call. -/
theorem oHpiDomainAdd_validation_and_host_witness :
    oHpiDomainAdd registryAdd [9, 9, 9, 9] (some hostH1) 4743 (some 0) =
      ⟨SA_OK, some 17, [LibCall.client_init, LibCall.add_domain_conf [104, 49, 0, 9] 4743]⟩ ∧
    oHpiDomainAddById registryAddById [9, 9, 9, 9] 5 (some { hostH1 with DataType := 0 }) 4743 =
      ⟨SA_ERR_HPI_INVALID_DATA, (), []⟩ ∧
    (hostBuffer (List.replicate 256 9)
        { hostH1 with Data := [104, 49] ++ List.replicate 253 7 }).take 3 = [104, 49, 0] :=
  ⟨(oHpiDomainAdd_validation_and_host.1 registryAdd [9, 9, 9, 9] 4743).2.2.2 hostH1 0
      (Or.inr (Or.inr rfl)),
    (oHpiDomainAdd_validation_and_host.2.1 registryAddById [9, 9, 9, 9] 5 4743).2.1
      { hostH1 with DataType := 0 } (by decide),
    (oHpiDomainAdd_validation_and_host.2.2 (List.replicate 256 9)
      { hostH1 with Data := [104, 49] ++ List.replicate 253 7 }
      (by simp only [List.length_replicate, SAHPI_MAX_TEXT_BUFFER_LENGTH])
      (by simp only [List.length_append, List.length_replicate, List.length_cons,
        List.length_nil, SAHPI_MAX_TEXT_BUFFER_LENGTH])
      (by decide)).1⟩

/-- Claim C17.  `oHpiDomainEntryGetByDomainId` with a non-null `DomainEntry` returns
`SA_ERR_HPI_NOT_PRESENT` if and only if the registry has no configuration for `DomainId`,
and then leaves `*DomainEntry` unchanged.  When a configuration exists and both text-buffer
helpers succeed, it returns `SA_OK` with `id` equal to `DomainId`, `port` equal to the
entry's port, and `daemonhost` as `oh_append_textbuffer` left it after appending the entry's
host to the initialised buffer; if `oh_init_textbuffer` leaves an empty buffer and
`oh_append_textbuffer` appends the string to the text held, the text of `daemonhost` is the
entry's host. -/
theorem oHpiDomainEntryGetByDomainId_lookup
    (get_conf : SaHpiDomainIdT → Option oh_domain_conf)
    (init : SaHpiTextBufferT → SaErrorT × SaHpiTextBufferT)
    (append : SaHpiTextBufferT → List Nat → SaErrorT × SaHpiTextBufferT)
    (DomainId : SaHpiDomainIdT) (de : oHpiDomainEntryT) :
    ((oHpiDomainEntryGetByDomainId get_conf init append DomainId (some de)).rv =
        SA_ERR_HPI_NOT_PRESENT ↔ get_conf DomainId = none) ∧
    (get_conf DomainId = none →
      (oHpiDomainEntryGetByDomainId get_conf init append DomainId (some de)).out = some de) ∧
    (∀ entry, get_conf DomainId = some entry →
      (init de.daemonhost).1 = SA_OK →
      (append (init de.daemonhost).2 entry.host).1 = SA_OK →
      (oHpiDomainEntryGetByDomainId get_conf init append DomainId (some de)).rv = SA_OK ∧
      (oHpiDomainEntryGetByDomainId get_conf init append DomainId (some de)).out =
        some { id := DomainId, daemonhost := (append (init de.daemonhost).2 entry.host).2,
               port := entry.port } ∧
      ((∀ b, (init b).1 = SA_OK → (init b).2.DataLength = 0) →
        (∀ b str, (append b str).1 = SA_OK →
          (append b str).2.Data.take (append b str).2.DataLength =
            b.Data.take b.DataLength ++ str) →
        (append (init de.daemonhost).2 entry.host).2.Data.take
          (append (init de.daemonhost).2 entry.host).2.DataLength = entry.host)) := by
  refine ⟨?_, fun h => ?_, fun entry h hi ha => ⟨?_, ?_, fun ci ca => ?_⟩⟩
  · cases h : get_conf DomainId with
    | none => simp [oHpiDomainEntryGetByDomainId, h]
    | some entry =>
      simp only [oHpiDomainEntryGetByDomainId, h]
      split_ifs <;> simp [SA_ERR_HPI_INVALID_PARAMS, SA_ERR_HPI_NOT_PRESENT, SA_OK]
  · simp [oHpiDomainEntryGetByDomainId, h]
  · simp [oHpiDomainEntryGetByDomainId, h, hi, ha]
  · simp [oHpiDomainEntryGetByDomainId, h, hi, ha]
  · rw [ca _ _ ha, ci _ hi]
    simp

/-- The theorem of claim C17 at a registry that holds domain 5 at host "h1", port 4743:
domain 5 is found with that host and port, domain 6 is not present and the caller's entry
is as it was. -/
theorem oHpiDomainEntryGetByDomainId_lookup_witness :
    (oHpiDomainEntryGetByDomainId registryLookup sampleInitTextbuffer sampleAppendTextbuffer 6
        (some blankDomainEntry)).out = some blankDomainEntry ∧
    (oHpiDomainEntryGetByDomainId registryLookup sampleInitTextbuffer sampleAppendTextbuffer 5
        (some blankDomainEntry)).rv = SA_OK ∧
    (oHpiDomainEntryGetByDomainId registryLookup sampleInitTextbuffer sampleAppendTextbuffer 5
        (some blankDomainEntry)).out =
      some { id := 5,
             daemonhost := (sampleAppendTextbuffer
               (sampleInitTextbuffer blankDomainEntry.daemonhost).2 [104, 49]).2,
             port := 4743 } :=
  ⟨(oHpiDomainEntryGetByDomainId_lookup registryLookup sampleInitTextbuffer
      sampleAppendTextbuffer 6 blankDomainEntry).2.1 rfl,
    ((oHpiDomainEntryGetByDomainId_lookup registryLookup sampleInitTextbuffer
      sampleAppendTextbuffer 5 blankDomainEntry).2.2
      { did := 5, host := [104, 49], port := 4743 } rfl rfl (by decide)).1,
    ((oHpiDomainEntryGetByDomainId_lookup registryLookup sampleInitTextbuffer
      sampleAppendTextbuffer 5 blankDomainEntry).2.2
      { did := 5, host := [104, 49], port := 4743 } rfl rfl (by decide)).2.1⟩

/-! ## Library initialisation -/

/-- Claim C19.  `saHpiInitialize` returns `SA_ERR_HPI_UNSUPPORTED_API` if and only if
`RequestedVersion` lies outside the closed range of supported versions; otherwise it returns
`SA_ERR_HPI_INVALID_PARAMS` if and only if `NumOptions != 0` and `Options` is null; otherwise
it returns `SA_OK`.  `oh_client_init` is called exactly when the result is `SA_OK`. -/
theorem saHpiInitialize_status (vmin vmax RequestedVersion NumOptions : Nat)
    (Options : Option Unit) :
    ((saHpiInitialize vmin vmax RequestedVersion NumOptions Options).rv =
        SA_ERR_HPI_UNSUPPORTED_API ↔ ¬ (vmin ≤ RequestedVersion ∧ RequestedVersion ≤ vmax)) ∧
    ((vmin ≤ RequestedVersion ∧ RequestedVersion ≤ vmax) →
      (((saHpiInitialize vmin vmax RequestedVersion NumOptions Options).rv =
          SA_ERR_HPI_INVALID_PARAMS ↔ (NumOptions ≠ 0 ∧ Options = none)) ∧
        (¬ (NumOptions ≠ 0 ∧ Options = none) →
          (saHpiInitialize vmin vmax RequestedVersion NumOptions Options).rv = SA_OK))) ∧
    ((saHpiInitialize vmin vmax RequestedVersion NumOptions Options).calls =
        [LibCall.client_init] ↔
      (saHpiInitialize vmin vmax RequestedVersion NumOptions Options).rv = SA_OK) ∧
    ((saHpiInitialize vmin vmax RequestedVersion NumOptions Options).rv ≠ SA_OK →
      (saHpiInitialize vmin vmax RequestedVersion NumOptions Options).calls = []) := by
  have d1 : SA_ERR_HPI_INVALID_PARAMS ≠ SA_ERR_HPI_UNSUPPORTED_API := by decide
  have d2 : SA_OK ≠ SA_ERR_HPI_UNSUPPORTED_API := by decide
  have d3 : SA_OK ≠ SA_ERR_HPI_INVALID_PARAMS := by decide
  by_cases hv : RequestedVersion < vmin ∨ RequestedVersion > vmax
  · have hr : ¬ (vmin ≤ RequestedVersion ∧ RequestedVersion ≤ vmax) := by omega
    simp only [saHpiInitialize]
    rw [if_pos hv]
    exact ⟨⟨fun _ => hr, fun _ => rfl⟩, fun h => absurd h hr,
      ⟨fun h => absurd h (by simp), fun h => absurd h.symm d2⟩, fun _ => rfl⟩
  · have hr : vmin ≤ RequestedVersion ∧ RequestedVersion ≤ vmax := by omega
    simp only [saHpiInitialize]
    rw [if_neg hv]
    by_cases ho : NumOptions ≠ 0 ∧ Options = none
    · rw [if_pos ho]
      exact ⟨⟨fun h => absurd h d1, fun h => absurd hr h⟩,
        fun _ => ⟨⟨fun _ => ho, fun _ => rfl⟩, fun h => absurd ho h⟩,
        ⟨fun h => absurd h (by simp), fun h => absurd h.symm d3⟩, fun _ => rfl⟩
    · rw [if_neg ho]
      exact ⟨⟨fun h => absurd h d2, fun h => absurd hr h⟩,
        fun _ => ⟨⟨fun h => absurd h d3, fun h => absurd h ho⟩, fun _ => rfl⟩,
        ⟨fun _ => rfl, fun _ => rfl⟩, fun h => absurd rfl h⟩

/-- The theorem of claim C19 with supported versions 10 to 20: version 15 with two options
and a null `Options` is refused as invalid parameters, without initialisation. -/
theorem saHpiInitialize_status_witness :
    (saHpiInitialize 10 20 15 2 none).rv = SA_ERR_HPI_INVALID_PARAMS ∧
    (saHpiInitialize 10 20 15 0 none).rv = SA_OK :=
  ⟨((saHpiInitialize_status 10 20 15 2 none).2.1 (by decide)).1.mpr (by decide),
    ((saHpiInitialize_status 10 20 15 0 none).2.1 (by decide)).2 (by decide)⟩

/-! ## Stale bytes -/

/-- Claim C20.  Two non-null readings that agree on `IsSupported` and, when
`IsSupported == SAHPI_TRUE`, also on `Type` and on the bytes of the arm of `Value` that
`Type` selects, are cleaned by `clean_reading` to the same status and the same output,
whatever their remaining bytes and whatever the two destinations held before. -/
theorem clean_reading_ignores_stale_bytes (lookup : Nat → Option String)
    (a b d e : SaHpiSensorReadingT)
    (hs : a.IsSupported = b.IsSupported)
    (ht : a.IsSupported = SAHPI_TRUE →
      a.Type_ = b.Type_ ∧ a.Value.take (armLength a.Type_) = b.Value.take (armLength a.Type_)) :
    clean_reading lookup (some a) (some d) = clean_reading lookup (some b) (some e) := by
  by_cases h : a.IsSupported = SAHPI_TRUE
  · obtain ⟨h1, h2⟩ := ht h
    have hb : b.IsSupported = SAHPI_TRUE := hs ▸ h
    simp only [clean_reading, h, hb, if_true, ← h1, memcpyBytes]
    by_cases hl : (lookup a.Type_).isNone = true
    · simp [hl]
    · simp only [hl]
      by_cases t0 : a.Type_ = SAHPI_SENSOR_READING_TYPE_INT64
      · simp [armLength, t0] at h2
        simp [t0, h2]
      · by_cases t1 : a.Type_ = SAHPI_SENSOR_READING_TYPE_UINT64
        · simp [armLength, t1] at h2
          simp [t1, h2, SAHPI_SENSOR_READING_TYPE_UINT64, SAHPI_SENSOR_READING_TYPE_INT64]
        · by_cases t2 : a.Type_ = SAHPI_SENSOR_READING_TYPE_FLOAT64
          · simp [armLength, t2] at h2
            simp [t2, h2, SAHPI_SENSOR_READING_TYPE_UINT64, SAHPI_SENSOR_READING_TYPE_INT64,
              SAHPI_SENSOR_READING_TYPE_FLOAT64]
          · by_cases t3 : a.Type_ = SAHPI_SENSOR_READING_TYPE_BUFFER
            · simp [armLength, t3, SAHPI_SENSOR_READING_TYPE_UINT64,
                SAHPI_SENSOR_READING_TYPE_INT64, SAHPI_SENSOR_READING_TYPE_FLOAT64,
                SAHPI_SENSOR_READING_TYPE_BUFFER] at h2
              simp [t3, h2, SAHPI_SENSOR_READING_TYPE_UINT64, SAHPI_SENSOR_READING_TYPE_INT64,
                SAHPI_SENSOR_READING_TYPE_FLOAT64, SAHPI_SENSOR_READING_TYPE_BUFFER]
            · simp [t0, t1, t2, t3]
  · have hb : ¬ b.IsSupported = SAHPI_TRUE := hs ▸ h
    simp [clean_reading, h, hb, hs]

/-- The theorem of claim C20 at two supported `INT64` readings with the same first eight
bytes and different bytes behind them, cleaned into different destinations. -/
theorem clean_reading_ignores_stale_bytes_witness :
    clean_reading readingTypeLookup
        (some { IsSupported := SAHPI_TRUE, Type_ := SAHPI_SENSOR_READING_TYPE_INT64,
                Value := [1, 2, 3, 4, 5, 6, 7, 8, 170, 171] }) (some callerReading) =
      clean_reading readingTypeLookup
        (some { IsSupported := SAHPI_TRUE, Type_ := SAHPI_SENSOR_READING_TYPE_INT64,
                Value := [1, 2, 3, 4, 5, 6, 7, 8, 0, 0, 0] }) (some stackReading) :=
  clean_reading_ignores_stale_bytes readingTypeLookup _ _ _ _ rfl (fun _ => ⟨rfl, by decide⟩)

/-! ## Handler configuration -/

theorem strncpyBytes_zero (str : List Nat) :
    strncpyBytes (zeroBytes SAHPI_MAX_TEXT_BUFFER_LENGTH) str SAHPI_MAX_TEXT_BUFFER_LENGTH =
      boundedCopy str := by
  simp [strncpyBytes, boundedCopy, zeroBytes]

theorem modify_append_replicate (f : oHpiHandlerConfigParamT → oHpiHandlerConfigParamT)
    (pre : List oHpiHandlerConfigParamT) (z : oHpiHandlerConfigParamT) (m : Nat) :
    (pre ++ List.replicate (m + 1) z).modify f pre.length =
      pre ++ f z :: List.replicate m z := by
  induction pre with
  | nil => simp [List.replicate_succ]
  | cons a pre ih => simpa using ih

theorem dehash_step (key value : List Nat) (pre : List oHpiHandlerConfigParamT) (m : Nat)
    (hk : pre.length + 1 < 256) :
    __dehash_config key value
        { NumberOfParams := pre.length, Params := pre ++ List.replicate (m + 1) zeroParam } =
      { NumberOfParams := pre.length + 1
        Params := (pre ++ [paramOfEntry (key, value)]) ++ List.replicate m zeroParam } := by
  simp only [__dehash_config, modify_append_replicate, Nat.mod_eq_of_lt hk]
  simp [zeroParam, strncpyBytes_zero, paramOfEntry]

theorem dehash_fold (cfg : List (List Nat × List Nat)) :
    ∀ (pre : List oHpiHandlerConfigParamT) (m : Nat), pre.length + cfg.length < 256 →
      cfg.foldl (fun hc kv => __dehash_config kv.1 kv.2 hc)
          { NumberOfParams := pre.length
            Params := pre ++ List.replicate (cfg.length + m) zeroParam } =
        { NumberOfParams := pre.length + cfg.length
          Params := pre ++ cfg.map paramOfEntry ++ List.replicate m zeroParam } := by
  induction cfg with
  | nil => intro pre m _; simp
  | cons kv cfg ih =>
    intro pre m h
    simp only [List.length_cons] at h
    have e : cfg.length + 1 + m = (cfg.length + m) + 1 := by omega
    simp only [List.foldl_cons, List.length_cons, e]
    rw [dehash_step kv.1 kv.2 pre (cfg.length + m) (by omega)]
    have := ih (pre ++ [paramOfEntry (kv.1, kv.2)]) m (by simp; omega)
    simp only [List.length_append, List.length_singleton] at this
    rw [this]
    simp [Nat.add_assoc, Nat.add_comm 1]

theorem oHpiHandlerCreate_forwards (rpc : Rpc oHpiHandlerConfigT Nat) (sid : SaHpiSessionIdT)
    (cfg : List (List Nat × List Nat)) (i : Nat) (hne : cfg ≠ []) (hlen : cfg.length < 256) :
    oHpiHandlerCreate rpc sid (some cfg) (some i) =
      ⟨(rpc .eFoHpiHandlerCreate sid
          { NumberOfParams := cfg.length, Params := cfg.map paramOfEntry } i).1,
        some (rpc .eFoHpiHandlerCreate sid
          { NumberOfParams := cfg.length, Params := cfg.map paramOfEntry } i).2,
        [Call.rpc .eFoHpiHandlerCreate sid
          { NumberOfParams := cfg.length, Params := cfg.map paramOfEntry }]⟩ := by
  have h0 : ¬ cfg.length = 0 := fun h => hne (List.length_eq_zero.mp h)
  have hf := dehash_fold cfg [] 0 (by simpa using hlen)
  simp only [List.length_nil, Nat.zero_add, Nat.add_zero, List.nil_append, List.replicate_zero,
    List.append_nil] at hf
  simp only [oHpiHandlerCreate]
  rw [if_neg h0]
  have hz : ({ Name := zeroBytes SAHPI_MAX_TEXT_BUFFER_LENGTH,
               Value := zeroBytes SAHPI_MAX_TEXT_BUFFER_LENGTH } : oHpiHandlerConfigParamT) =
      zeroParam := rfl
  rw [hz, hf]

/-- Claim C18 as stated fails.  A configuration with one entry whose key has 256 bytes, one
more than `SAHPI_MAX_TEXT_BUFFER_LENGTH`, is not refused: `oHpiHandlerCreate` makes its call
and returns `SA_OK` on a session layer that accepts it, and the parameter forwarded has as
`Name` the first 255 bytes of the key, the last byte of the key being dropped. -/
theorem oHpiHandlerCreate_truncates_long_key :
    longKey.length = SAHPI_MAX_TEXT_BUFFER_LENGTH + 1 ∧
    oHpiHandlerCreate (rpcAccepts _ _) 1 (some [(longKey, [118])]) (some 0) =
      ⟨SA_OK, some 0,
        [Call.rpc .eFoHpiHandlerCreate 1
          { NumberOfParams := 1
            Params := [{ Name := List.replicate 255 65
                         Value := 118 :: List.replicate 254 0 }] }]⟩ ∧
    SA_OK ≠ SA_ERR_HPI_INVALID_DATA := by
  have hl : longKey.length = 256 := by
    simp only [longKey, List.length_append, List.length_replicate, List.length_singleton]
  have hk : boundedCopy longKey = List.replicate 255 65 := by
    unfold boundedCopy
    rw [hl]
    show (List.replicate 255 65 ++ [66]).take 255 ++ List.replicate (255 - 256) 0 = _
    rw [List.take_left' (List.length_replicate 255 65)]
    simp only [Nat.reduceSub, List.replicate_zero, List.append_nil]
  have hv : boundedCopy [118] = 118 :: List.replicate 254 0 := by
    unfold boundedCopy
    show [118].take 255 ++ List.replicate (255 - 1) 0 = _
    simp only [List.take_succ_cons, List.take_nil, Nat.reduceSub, List.singleton_append]
  refine ⟨hl, ?_, by decide⟩
  rw [oHpiHandlerCreate_forwards _ _ _ _ (by simp) (by simp)]
  simp only [List.map_cons, List.map_nil, paramOfEntry, hk, hv, List.length_singleton]
  rfl

/-- Claim C18 as amended.  `oHpiHandlerCreate` checks no length.  For every non-empty
configuration of fewer than 256 entries (and a non-null `id`) it makes its one call of
`ohc_sess_rpc` and returns its status; the configuration forwarded has one parameter per
entry, in order, whose `Name` and `Value` are the first at most
`SAHPI_MAX_TEXT_BUFFER_LENGTH` bytes of the key and of the value, filled up with NUL.  A key
or value longer than `SAHPI_MAX_TEXT_BUFFER_LENGTH` is forwarded as its first
`SAHPI_MAX_TEXT_BUFFER_LENGTH` bytes. -/
theorem oHpiHandlerCreate_copies_bounded (rpc : Rpc oHpiHandlerConfigT Nat)
    (sid : SaHpiSessionIdT) (cfg : List (List Nat × List Nat)) (i : Nat)
    (hne : cfg ≠ []) (hlen : cfg.length < 256) :
    (oHpiHandlerCreate rpc sid (some cfg) (some i)).calls =
      [Call.rpc .eFoHpiHandlerCreate sid
        { NumberOfParams := cfg.length, Params := cfg.map paramOfEntry }] ∧
    (oHpiHandlerCreate rpc sid (some cfg) (some i)).rv =
      (rpc .eFoHpiHandlerCreate sid
        { NumberOfParams := cfg.length, Params := cfg.map paramOfEntry } i).1 ∧
    (∀ kv ∈ cfg,
      (paramOfEntry kv).Name = kv.1.take SAHPI_MAX_TEXT_BUFFER_LENGTH ++
        List.replicate (SAHPI_MAX_TEXT_BUFFER_LENGTH - kv.1.length) 0 ∧
      (paramOfEntry kv).Value = kv.2.take SAHPI_MAX_TEXT_BUFFER_LENGTH ++
        List.replicate (SAHPI_MAX_TEXT_BUFFER_LENGTH - kv.2.length) 0 ∧
      (SAHPI_MAX_TEXT_BUFFER_LENGTH < kv.1.length →
        (paramOfEntry kv).Name = kv.1.take SAHPI_MAX_TEXT_BUFFER_LENGTH) ∧
      (SAHPI_MAX_TEXT_BUFFER_LENGTH < kv.2.length →
        (paramOfEntry kv).Value = kv.2.take SAHPI_MAX_TEXT_BUFFER_LENGTH)) := by
  rw [oHpiHandlerCreate_forwards rpc sid cfg i hne hlen]
  refine ⟨rfl, rfl, fun kv _ => ⟨rfl, rfl, fun h => ?_, fun h => ?_⟩⟩
  · simp only [paramOfEntry, boundedCopy]
    rw [Nat.sub_eq_zero_of_le (Nat.le_of_lt h)]
    simp
  · simp only [paramOfEntry, boundedCopy]
    rw [Nat.sub_eq_zero_of_le (Nat.le_of_lt h)]
    simp

/-- The theorem of claim C18 as amended, at a configuration whose one key has 256 bytes: the
call is made, and the name forwarded is the key cut to 255 bytes. -/
theorem oHpiHandlerCreate_copies_bounded_witness :
    (oHpiHandlerCreate (rpcAccepts _ _) 1 (some [(longKey, [118])]) (some 0)).calls =
      [Call.rpc .eFoHpiHandlerCreate 1
        { NumberOfParams := [(longKey, [118])].length
          Params := [(longKey, [118])].map paramOfEntry }] ∧
    (paramOfEntry (longKey, [118])).Name = longKey.take SAHPI_MAX_TEXT_BUFFER_LENGTH :=
  ⟨(oHpiHandlerCreate_copies_bounded (rpcAccepts _ _) 1 [(longKey, [118])] 0
      (by simp) (by simp)).1,
    ((oHpiHandlerCreate_copies_bounded (rpcAccepts _ _) 1 [(longKey, [118])] 0
      (by simp) (by simp)).2.2 (longKey, [118]) (by simp)).2.2.1
      (by
        simp only [longKey, List.length_append, List.length_replicate, List.length_singleton,
          SAHPI_MAX_TEXT_BUFFER_LENGTH]
        omega)⟩

/-! ## Status and output of `clean_reading` -/

theorem cleanStatus_eq (lookup : Nat → Option String) (x : SaHpiSensorReadingT) :
    cleanStatus lookup x =
      if x.IsSupported = SAHPI_TRUE ∧ lookup x.Type_ = none then SA_ERR_HPI_INVALID_DATA
      else SA_OK := by
  unfold cleanStatus clean_reading
  by_cases h : x.IsSupported = SAHPI_TRUE
  · cases hl : lookup x.Type_ with
    | none => simp [h, hl]
    | some nm =>
      simp only [h, hl, Option.isNone_some, Bool.false_eq_true, if_false, if_true]
      split_ifs <;> simp_all
  · simp [h]

theorem cleanValue_supported (lookup : Nat → Option String) (x : SaHpiSensorReadingT)
    (h : x.IsSupported = SAHPI_TRUE) (hl : lookup x.Type_ ≠ none) :
    cleanValue lookup x =
      { IsSupported := SAHPI_TRUE, Type_ := x.Type_,
        Value := x.Value.take (armLength x.Type_) ++
          (zeroBytes SAHPI_SENSOR_BUFFER_LENGTH).drop (armLength x.Type_) } := by
  have hl' : (lookup x.Type_).isNone = false := by
    cases h : lookup x.Type_ <;> simp_all
  unfold cleanValue clean_reading
  simp only [h, hl', if_true, Bool.false_eq_true, if_false, zeroReading, memcpyBytes]
  by_cases t0 : x.Type_ = SAHPI_SENSOR_READING_TYPE_INT64
  · simp [t0, armLength]
  · by_cases t1 : x.Type_ = SAHPI_SENSOR_READING_TYPE_UINT64
    · simp [t1, armLength, SAHPI_SENSOR_READING_TYPE_UINT64, SAHPI_SENSOR_READING_TYPE_INT64]
    · by_cases t2 : x.Type_ = SAHPI_SENSOR_READING_TYPE_FLOAT64
      · simp [t2, armLength, SAHPI_SENSOR_READING_TYPE_UINT64,
          SAHPI_SENSOR_READING_TYPE_INT64, SAHPI_SENSOR_READING_TYPE_FLOAT64]
      · by_cases t3 : x.Type_ = SAHPI_SENSOR_READING_TYPE_BUFFER
        · simp [t3, armLength, SAHPI_SENSOR_READING_TYPE_UINT64,
            SAHPI_SENSOR_READING_TYPE_INT64, SAHPI_SENSOR_READING_TYPE_FLOAT64,
            SAHPI_SENSOR_READING_TYPE_BUFFER]
        · simp [t0, t1, t2, t3, armLength]

theorem cleanValue_unsupported (lookup : Nat → Option String) (x : SaHpiSensorReadingT)
    (h : x.IsSupported ≠ SAHPI_TRUE) :
    cleanValue lookup x =
      { IsSupported := x.IsSupported, Type_ := SAHPI_SENSOR_READING_TYPE_INT64,
        Value := zeroBytes SAHPI_SENSOR_BUFFER_LENGTH } := by
  unfold cleanValue clean_reading
  simp [h, zeroReading, memcpyBytes, zeroBytes, SAHPI_SENSOR_BUFFER_LENGTH]

theorem cleanValue_failed (lookup : Nat → Option String) (x : SaHpiSensorReadingT)
    (h : cleanStatus lookup x ≠ SA_OK) : cleanValue lookup x = failedReading := by
  rw [cleanStatus_eq] at h
  have hc : x.IsSupported = SAHPI_TRUE ∧ lookup x.Type_ = none := by
    by_contra hn
    exact h (if_neg hn)
  unfold cleanValue clean_reading
  simp [hc.1, hc.2, zeroReading, failedReading]

theorem take_arm_of_cleaned (v : List Nat) (n : Nat) (h : n ≤ v.length) :
    (v.take n ++ (zeroBytes SAHPI_SENSOR_BUFFER_LENGTH).drop n).take n = v.take n :=
  List.take_left' (by simp [List.length_take, h])

theorem armLength_le (t : Nat) : armLength t ≤ SAHPI_SENSOR_BUFFER_LENGTH := by
  unfold armLength SAHPI_SENSOR_BUFFER_LENGTH
  split_ifs <;> omega

/-- Claim C21.  `clean_reading` returns `SA_ERR_HPI_INVALID_PARAMS` if and only if `read_in`
or `read_out` is null.  With both non-null, and `oh_lookup_sensorreadingtype` knowing
exactly the types `INT64`, `UINT64`, `FLOAT64` and `BUFFER`, it returns
`SA_ERR_HPI_INVALID_DATA` if and only if `IsSupported == SAHPI_TRUE` and `Type` is none of
the four, and `SA_OK` otherwise.  For a supported reading of known type (its `Value` having
its `SAHPI_SENSOR_BUFFER_LENGTH` bytes) the output has the same `IsSupported`, the same
`Type` and the same bytes in the arm that `Type` selects. -/
theorem clean_reading_status (lookup : Nat → Option String)
    (hlookup : ∀ t, lookup t ≠ none ↔ isKnownReadingType t) :
    (∀ read_in read_out, (clean_reading lookup read_in read_out).1 = SA_ERR_HPI_INVALID_PARAMS ↔
      (read_in = none ∨ read_out = none)) ∧
    (∀ x d, ((clean_reading lookup (some x) (some d)).1 = SA_ERR_HPI_INVALID_DATA ↔
        (x.IsSupported = SAHPI_TRUE ∧ ¬ isKnownReadingType x.Type_)) ∧
      (¬ (x.IsSupported = SAHPI_TRUE ∧ ¬ isKnownReadingType x.Type_) →
        (clean_reading lookup (some x) (some d)).1 = SA_OK)) ∧
    (∀ x d, x.IsSupported = SAHPI_TRUE → isKnownReadingType x.Type_ →
      x.Value.length = SAHPI_SENSOR_BUFFER_LENGTH →
      ∃ c, clean_reading lookup (some x) (some d) = (SA_OK, some c) ∧
        c.IsSupported = x.IsSupported ∧ c.Type_ = x.Type_ ∧
        c.Value.take (armLength x.Type_) = x.Value.take (armLength x.Type_)) := by
  have hnone : ∀ t, lookup t = none ↔ ¬ isKnownReadingType t := fun t => by
    rw [← hlookup t]
    simp
  refine ⟨fun i o => ?_, fun x d => ?_, fun x d hs hk hlen => ?_⟩
  · cases i with
    | none => cases o <;> simp [clean_reading]
    | some x =>
      cases o with
      | none => simp [clean_reading]
      | some d =>
        rw [clean_reading_closed, cleanStatus_eq]
        simp only [reduceCtorEq, or_self, iff_false]
        split_ifs <;> decide
  · rw [clean_reading_closed, cleanStatus_eq]
    by_cases h : x.IsSupported = SAHPI_TRUE ∧ ¬ isKnownReadingType x.Type_
    · have h' : x.IsSupported = SAHPI_TRUE ∧ lookup x.Type_ = none := ⟨h.1, (hnone _).mpr h.2⟩
      rw [if_pos h']
      exact ⟨⟨fun _ => h, fun _ => rfl⟩, fun hh => absurd h hh⟩
    · have h' : ¬ (x.IsSupported = SAHPI_TRUE ∧ lookup x.Type_ = none) :=
        fun hh => h ⟨hh.1, (hnone _).mp hh.2⟩
      rw [if_neg h']
      have hd : SA_OK ≠ SA_ERR_HPI_INVALID_DATA := by decide
      exact ⟨⟨fun hh => absurd hh hd, fun hh => absurd hh h⟩, fun _ => rfl⟩
  · have hl : lookup x.Type_ ≠ none := (hlookup _).mpr hk
    refine ⟨cleanValue lookup x, ?_, ?_, ?_, ?_⟩
    · rw [clean_reading_closed, cleanStatus_eq]
      simp [hl]
    · rw [cleanValue_supported lookup x hs hl, hs]
    · rw [cleanValue_supported lookup x hs hl]
    · rw [cleanValue_supported lookup x hs hl]
      exact take_arm_of_cleaned _ _ (hlen ▸ armLength_le _)

/-- The theorem of claim C21 at a lookup that knows the types 0 to 3: a supported `UINT64`
reading of 32 bytes is cleaned to a reading with the same first eight bytes. -/
theorem clean_reading_status_witness :
    ∃ c, clean_reading readingTypeLookup (some fullReading) (some callerReading) =
        (SA_OK, some c) ∧
      c.IsSupported = fullReading.IsSupported ∧ c.Type_ = fullReading.Type_ ∧
      c.Value.take (armLength fullReading.Type_) =
        fullReading.Value.take (armLength fullReading.Type_) :=
  (clean_reading_status readingTypeLookup
    (by
      intro t
      simp only [readingTypeLookup, isKnownReadingType, SAHPI_SENSOR_READING_TYPE_INT64,
        SAHPI_SENSOR_READING_TYPE_UINT64, SAHPI_SENSOR_READING_TYPE_FLOAT64,
        SAHPI_SENSOR_READING_TYPE_BUFFER]
      by_cases h : t ≤ 3
      · simp only [h, if_true]
        constructor
        · intro _; omega
        · intro _; simp
      · simp only [h, if_false]
        constructor
        · intro hh; exact absurd rfl hh
        · intro hh; omega)).2.2
    fullReading callerReading rfl (Or.inr (Or.inl rfl)) (by decide)

/-! ## The destination on failure -/

/-- Claim C22 as stated fails.  A supported reading of the unknown type 77 makes
`clean_reading` return `SA_ERR_HPI_INVALID_DATA` with the destination overwritten: what was
`callerReading` is now zero but for `IsSupported`.  With that reading as `LowMajor`,
`clean_thresholds` fails with `*thrds_out` changed in its first two readings. -/
theorem clean_reading_failure_overwrites :
    clean_reading readingTypeLookup (some unknownTypeReading) (some callerReading) =
      (SA_ERR_HPI_INVALID_DATA, some failedReading) ∧
    failedReading ≠ callerReading ∧
    clean_thresholds readingTypeLookup (some thresholdsBadLowMajor) (some thresholdsOfCaller) =
      (SA_ERR_HPI_INVALID_DATA,
        some { thresholdsOfCaller with
          LowCritical := { IsSupported := SAHPI_FALSE
                           Type_ := SAHPI_SENSOR_READING_TYPE_INT64
                           Value := zeroBytes SAHPI_SENSOR_BUFFER_LENGTH }
          LowMajor := failedReading }) ∧
    (clean_thresholds readingTypeLookup (some thresholdsBadLowMajor)
      (some thresholdsOfCaller)).2 ≠ some thresholdsOfCaller := by
  decide

/-- Claim C22 as amended.  When `clean_reading` fails with `SA_ERR_HPI_INVALID_DATA`, the
destination has been overwritten: it is zero but for `IsSupported`, which is `SAHPI_TRUE`;
the destination is left as it was only when the failure is `SA_ERR_HPI_INVALID_PARAMS`.
When `clean_thresholds` fails on non-null arguments, the readings of `*thrds_out` before the
failing one hold the cleaned readings, the failing one is zero but for `IsSupported`, and
only the readings behind it are left as they were. -/
theorem clean_failure_destination (lookup : Nat → Option String) :
    (∀ x d, (clean_reading lookup (some x) (some d)).1 = SA_ERR_HPI_INVALID_DATA →
      (clean_reading lookup (some x) (some d)).2 = some failedReading) ∧
    (∀ read_in read_out, (clean_reading lookup read_in read_out).1 = SA_ERR_HPI_INVALID_PARAMS →
      (clean_reading lookup read_in read_out).2 = read_out) ∧
    (∀ T o, (clean_thresholds lookup (some T) (some o)).1 ≠ SA_OK →
      ∃ out k, (clean_thresholds lookup (some T) (some o)).2 = some out ∧ k < 8 ∧
        thresholdReadings out =
          ((thresholdReadings T).take k).map (cleanValue lookup) ++ [failedReading] ++
            (thresholdReadings o).drop (k + 1)) := by
  refine ⟨fun x d h => ?_, fun i o h => ?_, fun T o h => ?_⟩
  · rw [clean_reading_closed] at h ⊢
    have hne : cleanStatus lookup x ≠ SA_OK := by
      intro hh
      rw [show (cleanStatus lookup x, some (cleanValue lookup x)).1 = cleanStatus lookup x
        from rfl, hh] at h
      exact absurd h (by decide)
    rw [cleanValue_failed lookup x hne]
  · cases i with
    | none => cases o <;> rfl
    | some x =>
      cases o with
      | none => rfl
      | some d =>
        rw [clean_reading_closed, cleanStatus_eq] at h
        simp only at h
        split_ifs at h <;> exact absurd h (by decide)
  · simp only [clean_thresholds, clean_member_closed] at h ⊢
    by_cases h1 : cleanStatus lookup T.LowCritical = SA_OK
    · by_cases h2 : cleanStatus lookup T.LowMajor = SA_OK
      · by_cases h3 : cleanStatus lookup T.LowMinor = SA_OK
        · by_cases h4 : cleanStatus lookup T.UpCritical = SA_OK
          · by_cases h5 : cleanStatus lookup T.UpMajor = SA_OK
            · by_cases h6 : cleanStatus lookup T.UpMinor = SA_OK
              · by_cases h7 : cleanStatus lookup T.PosThdHysteresis = SA_OK
                · have h8 : cleanStatus lookup T.NegThdHysteresis ≠ SA_OK := by
                    simpa [h1, h2, h3, h4, h5, h6, h7] using h
                  rw [if_neg (not_not.mpr h1), if_neg (not_not.mpr h2), if_neg (not_not.mpr h3),
                    if_neg (not_not.mpr h4), if_neg (not_not.mpr h5), if_neg (not_not.mpr h6),
                    if_neg (not_not.mpr h7)]
                  exact ⟨_, 7, rfl, by omega,
                    by simp [thresholdReadings, cleanValue_failed lookup _ h8]⟩
                · rw [if_neg (not_not.mpr h1), if_neg (not_not.mpr h2), if_neg (not_not.mpr h3),
                    if_neg (not_not.mpr h4), if_neg (not_not.mpr h5), if_neg (not_not.mpr h6),
                    if_pos h7]
                  exact ⟨_, 6, rfl, by omega,
                    by simp [thresholdReadings, cleanValue_failed lookup _ h7]⟩
              · rw [if_neg (not_not.mpr h1), if_neg (not_not.mpr h2), if_neg (not_not.mpr h3),
                  if_neg (not_not.mpr h4), if_neg (not_not.mpr h5), if_pos h6]
                exact ⟨_, 5, rfl, by omega,
                  by simp [thresholdReadings, cleanValue_failed lookup _ h6]⟩
            · rw [if_neg (not_not.mpr h1), if_neg (not_not.mpr h2), if_neg (not_not.mpr h3),
                if_neg (not_not.mpr h4), if_pos h5]
              exact ⟨_, 4, rfl, by omega,
                by simp [thresholdReadings, cleanValue_failed lookup _ h5]⟩
          · rw [if_neg (not_not.mpr h1), if_neg (not_not.mpr h2), if_neg (not_not.mpr h3),
              if_pos h4]
            exact ⟨_, 3, rfl, by omega,
              by simp [thresholdReadings, cleanValue_failed lookup _ h4]⟩
        · rw [if_neg (not_not.mpr h1), if_neg (not_not.mpr h2), if_pos h3]
          exact ⟨_, 2, rfl, by omega,
            by simp [thresholdReadings, cleanValue_failed lookup _ h3]⟩
      · rw [if_neg (not_not.mpr h1), if_pos h2]
        exact ⟨_, 1, rfl, by omega,
          by simp [thresholdReadings, cleanValue_failed lookup _ h2]⟩
    · rw [if_pos h1]
      exact ⟨_, 0, rfl, by omega,
        by simp [thresholdReadings, cleanValue_failed lookup _ h1]⟩

/-- The theorem of claim C22 as amended, at a supported reading of unknown type and at
thresholds whose `LowMajor` is that reading. -/
theorem clean_failure_destination_witness :
    (clean_reading readingTypeLookup (some unknownTypeReading) (some callerReading)).2 =
      some failedReading ∧
    ∃ out k, (clean_thresholds readingTypeLookup (some thresholdsBadLowMajor)
        (some thresholdsOfCaller)).2 = some out ∧ k < 8 ∧
      thresholdReadings out =
        ((thresholdReadings thresholdsBadLowMajor).take k).map (cleanValue readingTypeLookup) ++
          [failedReading] ++ (thresholdReadings thresholdsOfCaller).drop (k + 1) :=
  ⟨(clean_failure_destination readingTypeLookup).1 unknownTypeReading callerReading
      (by decide),
    (clean_failure_destination readingTypeLookup).2.2 thresholdsBadLowMajor thresholdsOfCaller
      (by decide)⟩

/-! ## Idempotence -/

theorem cleanValue_idem (lookup : Nat → Option String) (x : SaHpiSensorReadingT)
    (hlen : x.Value.length = SAHPI_SENSOR_BUFFER_LENGTH) (hok : cleanStatus lookup x = SA_OK) :
    cleanStatus lookup (cleanValue lookup x) = SA_OK ∧
      cleanValue lookup (cleanValue lookup x) = cleanValue lookup x := by
  rw [cleanStatus_eq] at hok
  by_cases hs : x.IsSupported = SAHPI_TRUE
  · have hl : lookup x.Type_ ≠ none := by
      intro hn
      rw [if_pos ⟨hs, hn⟩] at hok
      exact absurd hok (by decide)
    have hc := cleanValue_supported lookup x hs hl
    have hs' : (cleanValue lookup x).IsSupported = SAHPI_TRUE := by rw [hc]
    have ht' : (cleanValue lookup x).Type_ = x.Type_ := by rw [hc]
    have hl' : lookup (cleanValue lookup x).Type_ ≠ none := by rw [ht']; exact hl
    refine ⟨?_, ?_⟩
    · rw [cleanStatus_eq, if_neg (fun hh => hl' hh.2)]
    · rw [cleanValue_supported lookup _ hs' hl', ht']
      have hv : (cleanValue lookup x).Value.take (armLength x.Type_) =
          x.Value.take (armLength x.Type_) := by
        rw [hc]
        exact take_arm_of_cleaned _ _ (hlen ▸ armLength_le _)
      rw [hv, hc]
  · have hc := cleanValue_unsupported lookup x hs
    have hs' : (cleanValue lookup x).IsSupported ≠ SAHPI_TRUE := by rw [hc]; exact hs
    refine ⟨?_, ?_⟩
    · rw [cleanStatus_eq, if_neg (fun hh => hs' hh.1)]
    · rw [cleanValue_unsupported lookup _ hs', hc]

theorem clean_thresholds_all_ok (lookup : Nat → Option String) (T o : SaHpiSensorThresholdsT)
    (h : (clean_thresholds lookup (some T) (some o)).1 = SA_OK) :
    ∀ x ∈ thresholdReadings T, cleanStatus lookup x = SA_OK := by
  by_contra hn
  simp only [not_forall] at hn
  obtain ⟨x, hx, hne⟩ := hn
  exact (clean_thresholds_fail lookup T o ⟨x, hx, hne⟩).1 h

/-- Claim C25.  For every non-null reading `r` (its `Value` having its
`SAHPI_SENSOR_BUFFER_LENGTH` bytes) on which `clean_reading` succeeds with output `c`,
`clean_reading` on `c` succeeds again and its output is `c`, whatever the destinations held.
Likewise, when `clean_thresholds` succeeds on thresholds with output `C`, it succeeds on `C`
with output `C`. -/
theorem clean_idempotent (lookup : Nat → Option String) :
    (∀ r d c, r.Value.length = SAHPI_SENSOR_BUFFER_LENGTH →
      clean_reading lookup (some r) (some d) = (SA_OK, some c) →
      ∀ e, clean_reading lookup (some c) (some e) = (SA_OK, some c)) ∧
    (∀ T o C, (∀ x ∈ thresholdReadings T, x.Value.length = SAHPI_SENSOR_BUFFER_LENGTH) →
      clean_thresholds lookup (some T) (some o) = (SA_OK, some C) →
      ∀ o', clean_thresholds lookup (some C) (some o') = (SA_OK, some C)) := by
  refine ⟨fun r d c hlen h e => ?_, fun T o C hlen h o' => ?_⟩
  · rw [clean_reading_closed] at h
    have h1 : cleanStatus lookup r = SA_OK := (Prod.mk.inj h).1
    have h2 : cleanValue lookup r = c := Option.some.inj (Prod.mk.inj h).2
    obtain ⟨i1, i2⟩ := cleanValue_idem lookup r hlen h1
    rw [clean_reading_closed, ← h2, i1, i2]
  · have hall := clean_thresholds_all_ok lookup T o (by rw [h])
    have hC := clean_thresholds_ok lookup T o hall
    rw [h] at hC
    have hCeq := Option.some.inj (Prod.mk.inj hC).2
    have hi : ∀ x ∈ thresholdReadings T, cleanStatus lookup (cleanValue lookup x) = SA_OK ∧
        cleanValue lookup (cleanValue lookup x) = cleanValue lookup x :=
      fun x hx => cleanValue_idem lookup x (hlen x hx) (hall x hx)
    simp only [thresholdReadings, List.mem_cons, List.mem_singleton, forall_eq_or_imp,
      forall_eq, List.not_mem_nil, false_implies, implies_true, and_true] at hi
    obtain ⟨⟨a1, b1⟩, ⟨a2, b2⟩, ⟨a3, b3⟩, ⟨a4, b4⟩, ⟨a5, b5⟩, ⟨a6, b6⟩, ⟨a7, b7⟩, ⟨a8, b8⟩⟩ := hi
    have hok : ∀ x ∈ thresholdReadings C, cleanStatus lookup x = SA_OK := by
      rw [hCeq]
      simp only [thresholdReadings, List.mem_cons, List.mem_singleton, forall_eq_or_imp,
        forall_eq, List.not_mem_nil, false_implies, implies_true, and_true]
      exact ⟨a1, a2, a3, a4, a5, a6, a7, a8⟩
    rw [clean_thresholds_ok lookup C o' hok, hCeq]
    simp only [b1, b2, b3, b4, b5, b6, b7, b8]

/-- The theorem of claim C25 at a supported `UINT64` reading of 32 bytes: cleaning the
cleaned reading gives it back. -/
theorem clean_idempotent_witness :
    clean_reading readingTypeLookup (some (cleanValue readingTypeLookup fullReading))
        (some callerReading) =
      (SA_OK, some (cleanValue readingTypeLookup fullReading)) :=
  (clean_idempotent readingTypeLookup).1 fullReading stackReading
    (cleanValue readingTypeLookup fullReading) (by decide)
    (clean_reading_closed readingTypeLookup fullReading stackReading) callerReading

/-! ## Function codes -/

set_option maxRecDepth 100000 in
/-- Claim C24.  Over all 126 calls of `ohc_sess_rpc` in `oh_client.cpp`: no function contains
two of them, no function code is passed at two of them, and the code passed in the function
`saHpiX` or `oHpiX` is `eFsaHpiX` or `eFoHpiX`. -/
theorem rpc_codes_injective :
    rpcCallSites.length = 126 ∧
    (rpcCallSites.map Prod.fst).Nodup ∧
    (rpcCallSites.map Prod.snd).Nodup ∧
    ∀ p ∈ rpcCallSites, p.2 = "eF" ++ p.1 := by
  decide

/-! ## The count of the handler configuration -/

theorem dehash_step_mod (key value : List Nat) (pre : List oHpiHandlerConfigParamT) (m : Nat) :
    __dehash_config key value
        { NumberOfParams := pre.length, Params := pre ++ List.replicate (m + 1) zeroParam } =
      { NumberOfParams := (pre.length + 1) % 256
        Params := (pre ++ [paramOfEntry (key, value)]) ++ List.replicate m zeroParam } := by
  simp only [__dehash_config, modify_append_replicate]
  simp [zeroParam, strncpyBytes_zero, paramOfEntry]

theorem oHpiHandlerCreate_wraps (rpc : Rpc oHpiHandlerConfigT Nat) (sid : SaHpiSessionIdT)
    (cfg : List (List Nat × List Nat)) (i : Nat) (hlen : cfg.length = 256) :
    (oHpiHandlerCreate rpc sid (some cfg) (some i)).calls =
      [Call.rpc .eFoHpiHandlerCreate sid
        { NumberOfParams := 0, Params := cfg.map paramOfEntry }] := by
  have hne : cfg ≠ [] := by
    intro h
    rw [h] at hlen
    exact absurd hlen (by decide)
  have h0 : ¬ cfg.length = 0 := by omega
  obtain ⟨ini, last, hc⟩ : ∃ ini last, cfg = ini ++ [last] :=
    ⟨cfg.dropLast, cfg.getLast hne, (List.dropLast_append_getLast hne).symm⟩
  have hini : ini.length = 255 := by
    have := congrArg List.length hc
    simp only [List.length_append, List.length_singleton] at this
    omega
  have hf := dehash_fold ini [] 1 (by simp [hini])
  simp only [List.length_nil, Nat.zero_add, List.nil_append] at hf
  have hs := dehash_step_mod last.1 last.2 (ini.map paramOfEntry) 0
  simp only [List.length_map, hini, List.replicate_zero, List.append_nil] at hs
  have hz : ({ Name := zeroBytes SAHPI_MAX_TEXT_BUFFER_LENGTH,
               Value := zeroBytes SAHPI_MAX_TEXT_BUFFER_LENGTH } : oHpiHandlerConfigParamT) =
      zeroParam := rfl
  simp only [oHpiHandlerCreate]
  rw [if_neg h0, hz]
  simp only [hc, List.length_append, List.length_singleton, List.foldl_append, List.foldl_cons,
    List.foldl_nil, List.map_append, List.map_cons, List.map_nil]
  rw [hf]
  simp only [hini] at hs ⊢
  rw [hs]

/-- Claim C23 as stated fails.  A configuration of 256 entries, each key and value shorter
than `SAHPI_MAX_TEXT_BUFFER_LENGTH`, is forwarded with `NumberOfParams == 0`: the 8-bit
counter wraps at its 256th increment. -/
theorem oHpiHandlerCreate_count_wraps :
    config256.length = 256 ∧
    (∀ kv ∈ config256, kv.1.length < SAHPI_MAX_TEXT_BUFFER_LENGTH ∧
      kv.2.length < SAHPI_MAX_TEXT_BUFFER_LENGTH) ∧
    ∃ hc, (oHpiHandlerCreate (rpcAccepts _ _) 1 (some config256) (some 0)).calls =
        [Call.rpc .eFoHpiHandlerCreate 1 hc] ∧
      hc.NumberOfParams = 0 ∧ hc.NumberOfParams ≠ config256.length := by
  have hl : config256.length = 256 := by
    simp only [config256, List.length_map, List.length_range]
  refine ⟨hl, ?_, _, oHpiHandlerCreate_wraps _ 1 config256 0 hl, rfl, ?_⟩
  · intro kv hkv
    simp only [config256, List.mem_map] at hkv
    obtain ⟨i, _, rfl⟩ := hkv
    simp [SAHPI_MAX_TEXT_BUFFER_LENGTH]
  · rw [hl]
    decide

theorem paramOfEntry_short (kv : List Nat × List Nat)
    (h1 : kv.1.length < SAHPI_MAX_TEXT_BUFFER_LENGTH)
    (h2 : kv.2.length < SAHPI_MAX_TEXT_BUFFER_LENGTH) :
    paramOfEntry kv = paramOfShortEntry kv := by
  simp only [paramOfEntry, paramOfShortEntry, boundedCopy]
  rw [List.take_of_length_le (Nat.le_of_lt h1), List.take_of_length_le (Nat.le_of_lt h2)]

/-- Claim C23 as amended.  `oHpiHandlerCreate` returns `SA_ERR_HPI_INVALID_PARAMS` without a
call if and only if `config` is null, `id` is null or `config` is empty.  Otherwise, for a
configuration of `n` entries with `n` at most 255, whose keys and values are each shorter
than `SAHPI_MAX_TEXT_BUFFER_LENGTH`, the configuration passed to the call has
`NumberOfParams == n` and its `n` parameters are, in the order the hash table is visited,
the keys and values of the configuration, each followed by NUL up to the size of its
array. -/
theorem oHpiHandlerCreate_count_prefixed (rpc : Rpc oHpiHandlerConfigT Nat)
    (sid : SaHpiSessionIdT) :
    (∀ config id, ((oHpiHandlerCreate rpc sid config id).rv = SA_ERR_HPI_INVALID_PARAMS ∧
        (oHpiHandlerCreate rpc sid config id).calls = []) ↔
      (config = none ∨ id = none ∨ config = some [])) ∧
    (∀ cfg i, cfg ≠ [] → cfg.length ≤ 255 →
      (∀ kv ∈ cfg, kv.1.length < SAHPI_MAX_TEXT_BUFFER_LENGTH ∧
        kv.2.length < SAHPI_MAX_TEXT_BUFFER_LENGTH) →
      ∃ hc, (oHpiHandlerCreate rpc sid (some cfg) (some i)).calls =
          [Call.rpc .eFoHpiHandlerCreate sid hc] ∧
        (oHpiHandlerCreate rpc sid (some cfg) (some i)).rv =
          (rpc .eFoHpiHandlerCreate sid hc i).1 ∧
        hc.NumberOfParams = cfg.length ∧
        hc.Params = cfg.map paramOfShortEntry) := by
  refine ⟨fun config id => ?_, fun cfg i hne hlen hshort => ?_⟩
  · cases config with
    | none => cases id <;> simp [oHpiHandlerCreate]
    | some cfg =>
      cases id with
      | none => simp [oHpiHandlerCreate]
      | some i =>
        cases cfg with
        | nil => simp [oHpiHandlerCreate]
        | cons kv rest => simp [oHpiHandlerCreate]
  · rw [oHpiHandlerCreate_forwards rpc sid cfg i hne (by omega)]
    refine ⟨_, rfl, rfl, rfl, ?_⟩
    exact List.map_congr_left (fun kv hkv => paramOfEntry_short kv (hshort kv hkv).1
      (hshort kv hkv).2)

/-- The theorem of claim C23 as amended, at a configuration with the one entry
("k", "v"). -/
theorem oHpiHandlerCreate_count_prefixed_witness :
    ∃ hc, (oHpiHandlerCreate (rpcAccepts _ _) 1 (some [([107], [118])]) (some 0)).calls =
        [Call.rpc .eFoHpiHandlerCreate 1 hc] ∧
      hc.NumberOfParams = 1 ∧ hc.Params = [paramOfShortEntry ([107], [118])] :=
  ((oHpiHandlerCreate_count_prefixed (rpcAccepts _ _) 1).2 [([107], [118])] 0 (by simp)
    (by simp) (by simp [SAHPI_MAX_TEXT_BUFFER_LENGTH])).imp
    (fun _ h => ⟨h.1, h.2.2.1, h.2.2.2⟩)

/-! ## Control states -/

/-- Claim C26.  The state that `saHpiControlGet` passes as input of its call: when `State` is
non-null and its `Type` is known, it is the caller's state unchanged; when `State` is
non-null and its `Type` is unknown, it is the caller's state with `Type` replaced by
`SAHPI_CTRL_TYPE_TEXT`, the other bytes kept; when `State` is null, its `Type` is
`SAHPI_CTRL_TYPE_TEXT`.  Thus, `oh_lookup_ctrltype` knowing `SAHPI_CTRL_TYPE_TEXT`, the
`Type` passed is always a known control type. -/
theorem saHpiControlGet_forwards_known_type (lookup_type : Nat → Option String)
    (rpc : Rpc (SaHpiResourceIdT × Nat × SaHpiCtrlStateT) (Nat × SaHpiCtrlStateT))
    (mode : Nat) (state : SaHpiCtrlStateT) (sid : SaHpiSessionIdT) (rid : SaHpiResourceIdT)
    (num : Nat) (Mode : Option Nat) (State : Option SaHpiCtrlStateT) :
    ∃ sent : SaHpiCtrlStateT,
      (saHpiControlGet lookup_type rpc mode state sid rid num Mode State).calls =
        [Call.rpc .eFsaHpiControlGet sid (rid, num, sent)] ∧
      (∀ st, State = some st → lookup_type st.Type_ ≠ none → sent = st) ∧
      (∀ st, State = some st → lookup_type st.Type_ = none →
        sent = { st with Type_ := SAHPI_CTRL_TYPE_TEXT }) ∧
      (State = none → sent = { state with Type_ := SAHPI_CTRL_TYPE_TEXT }) ∧
      (lookup_type SAHPI_CTRL_TYPE_TEXT ≠ none → lookup_type sent.Type_ ≠ none) := by
  cases State with
  | none =>
    refine ⟨{ state with Type_ := SAHPI_CTRL_TYPE_TEXT }, rfl, ?_, ?_, fun _ => rfl, fun h => h⟩
    · intro st h; cases h
    · intro st h; cases h
  | some st =>
    cases hl : lookup_type st.Type_ with
    | none =>
      refine ⟨{ st with Type_ := SAHPI_CTRL_TYPE_TEXT }, ?_, ?_, ?_, ?_, fun h => h⟩
      · simp [saHpiControlGet, hl]
      · intro st' h hk
        cases h
        exact absurd hl hk
      · intro st' h _
        cases h
        rfl
      · intro h; cases h
    | some nm =>
      refine ⟨st, ?_, ?_, ?_, ?_, fun _ => by simp [hl]⟩
      · simp [saHpiControlGet, hl]
      · intro st' h _
        cases h
        rfl
      · intro st' h hk
        cases h
        rw [hl] at hk
        cases hk
      · intro h; cases h

/-- The theorem of claim C26 at a caller's state of the unknown type 77: the state passed
has type `SAHPI_CTRL_TYPE_TEXT`, which the lookup knows. -/
theorem saHpiControlGet_forwards_known_type_witness :
    ∃ sent : SaHpiCtrlStateT,
      (saHpiControlGet ctrlTypeLookup (rpcAccepts _ _) 0 zeroCtrlState 1 2 3 none
        (some (ctrlStateOfType 77))).calls = [Call.rpc .eFsaHpiControlGet 1 (2, 3, sent)] ∧
      sent = { ctrlStateOfType 77 with Type_ := SAHPI_CTRL_TYPE_TEXT } ∧
      ctrlTypeLookup sent.Type_ ≠ none :=
  (saHpiControlGet_forwards_known_type ctrlTypeLookup (rpcAccepts _ _) 0 zeroCtrlState 1 2 3
    none (some (ctrlStateOfType 77))).imp
    (fun _ h => ⟨h.1, h.2.2.1 _ rfl (by decide), h.2.2.2.2 (by decide)⟩)

/-- Claim C27.  `saHpiControlSet` in mode `SAHPI_CTRL_MODE_AUTO`: for any two `State`
arguments, null or not, that pass the local validation, the two runs make the same one call
with the same input parameters, and the control state passed is the all-zero state.  In any
other mode, a `State` that passes the local validation is itself the state passed. -/
theorem saHpiControlSet_auto_ignores_state
    (lookup_mode lookup_digital lookup_type : Nat → Option String)
    (rpc : Rpc (SaHpiResourceIdT × Nat × Nat × Option SaHpiCtrlStateT) Unit)
    (sid : SaHpiSessionIdT) (rid : SaHpiResourceIdT) (num : Nat) :
    (∀ State1 State2 : Option SaHpiCtrlStateT,
      saHpiControlSet_invalid_params lookup_mode lookup_digital SAHPI_CTRL_MODE_AUTO State1
        = false →
      saHpiControlSet_invalid_params lookup_mode lookup_digital SAHPI_CTRL_MODE_AUTO State2
        = false →
      saHpiControlSet lookup_mode lookup_digital lookup_type rpc sid rid num
          SAHPI_CTRL_MODE_AUTO State1 =
        saHpiControlSet lookup_mode lookup_digital lookup_type rpc sid rid num
          SAHPI_CTRL_MODE_AUTO State2 ∧
      (saHpiControlSet lookup_mode lookup_digital lookup_type rpc sid rid num
          SAHPI_CTRL_MODE_AUTO State1).calls =
        [Call.rpc .eFsaHpiControlSet sid (rid, num, SAHPI_CTRL_MODE_AUTO, some zeroCtrlState)]) ∧
    (zeroCtrlState.Type_ = 0 ∧ zeroCtrlState.StateUnion.Digital = 0 ∧
      zeroCtrlState.StateUnion.StreamLength = 0 ∧
      ∀ b ∈ zeroCtrlState.StateUnion.Rest, b = 0) ∧
    (∀ (Mode : Nat) (State : Option SaHpiCtrlStateT), Mode ≠ SAHPI_CTRL_MODE_AUTO →
      saHpiControlSet_invalid_params lookup_mode lookup_digital Mode State = false →
      State.any (fun st => (lookup_type st.Type_).isNone) = false →
      (∃ st, State = some st) ∧
      (saHpiControlSet lookup_mode lookup_digital lookup_type rpc sid rid num Mode State).calls =
        [Call.rpc .eFsaHpiControlSet sid (rid, num, Mode, State)]) := by
  refine ⟨fun S1 S2 h1 h2 => ?_, ⟨rfl, rfl, rfl, ?_⟩, fun Mode State hm hv ht => ⟨?_, ?_⟩⟩
  · rw [saHpiControlSet_of_auto _ _ _ _ _ _ _ _ _ (by simp [h1]) rfl,
      saHpiControlSet_of_auto _ _ _ _ _ _ _ _ _ (by simp [h2]) rfl]
    exact ⟨rfl, rfl⟩
  · intro b hb
    simp only [zeroCtrlState, zeroBytes] at hb
    exact List.eq_of_mem_replicate hb
  · cases State with
    | none =>
      have hne : (Mode != SAHPI_CTRL_MODE_AUTO) = true := by simpa using hm
      simp [saHpiControlSet_invalid_params, hne] at hv
    | some st => exact ⟨st, rfl⟩
  · rw [saHpiControlSet_of_manual _ _ _ _ _ _ _ _ _ (by simp [hv]) hm (by simp [ht])]

/-- The theorem of claim C27: in automatic mode a null state and a digital state give the
same call, and in manual mode the caller's text state is passed. -/
theorem saHpiControlSet_auto_ignores_state_witness :
    saHpiControlSet ctrlModeLookup ctrlDigitalLookup ctrlTypeLookup (rpcAccepts _ _) 1 2 3
        SAHPI_CTRL_MODE_AUTO none =
      saHpiControlSet ctrlModeLookup ctrlDigitalLookup ctrlTypeLookup (rpcAccepts _ _) 1 2 3
        SAHPI_CTRL_MODE_AUTO (some (ctrlStateOfType 0)) ∧
    (saHpiControlSet ctrlModeLookup ctrlDigitalLookup ctrlTypeLookup (rpcAccepts _ _) 1 2 3 1
        (some (ctrlStateOfType 4))).calls =
      [Call.rpc .eFsaHpiControlSet 1 (2, 3, 1, some (ctrlStateOfType 4))] :=
  ⟨((saHpiControlSet_auto_ignores_state ctrlModeLookup ctrlDigitalLookup ctrlTypeLookup
      (rpcAccepts _ _) 1 2 3).1 none (some (ctrlStateOfType 0)) (by decide) (by decide)).1,
    ((saHpiControlSet_auto_ignores_state ctrlModeLookup ctrlDigitalLookup ctrlTypeLookup
      (rpcAccepts _ _) 1 2 3).2.2 1 (some (ctrlStateOfType 4)) (by decide) (by decide)
      (by decide)).2⟩

/-! ## Severity of annunciator calls -/

/-- Claim C28.  `saHpiAnnunciatorAcknowledge` and `saHpiAnnunciatorDelete` return
`SA_ERR_HPI_INVALID_PARAMS` without a call if and only if
`EntryId == SAHPI_ENTRY_UNSPECIFIED` and `Severity` is unknown.  Otherwise they make one
call, whose severity is the caller's `Severity` when `EntryId == SAHPI_ENTRY_UNSPECIFIED`
and `SAHPI_DEBUG`, whatever the caller's `Severity`, for every other `EntryId`. -/
theorem annunciator_severity_forwarding (lookup : Nat → Option String)
    (rpc : Rpc (SaHpiResourceIdT × Nat × SaHpiEntryIdT × Nat) Unit)
    (sid : SaHpiSessionIdT) (rid : SaHpiResourceIdT) (ann : Nat) (EntryId : SaHpiEntryIdT)
    (Severity : Nat) :
    ((((saHpiAnnunciatorAcknowledge lookup rpc sid rid ann EntryId Severity).rv =
          SA_ERR_HPI_INVALID_PARAMS ∧
        (saHpiAnnunciatorAcknowledge lookup rpc sid rid ann EntryId Severity).calls = []) ↔
        (EntryId = SAHPI_ENTRY_UNSPECIFIED ∧ lookup Severity = none)) ∧
      (EntryId = SAHPI_ENTRY_UNSPECIFIED → lookup Severity ≠ none →
        (saHpiAnnunciatorAcknowledge lookup rpc sid rid ann EntryId Severity).calls =
          [Call.rpc .eFsaHpiAnnunciatorAcknowledge sid (rid, ann, EntryId, Severity)]) ∧
      (EntryId ≠ SAHPI_ENTRY_UNSPECIFIED →
        (saHpiAnnunciatorAcknowledge lookup rpc sid rid ann EntryId Severity).calls =
          [Call.rpc .eFsaHpiAnnunciatorAcknowledge sid (rid, ann, EntryId, SAHPI_DEBUG)])) ∧
    ((((saHpiAnnunciatorDelete lookup rpc sid rid ann EntryId Severity).rv =
          SA_ERR_HPI_INVALID_PARAMS ∧
        (saHpiAnnunciatorDelete lookup rpc sid rid ann EntryId Severity).calls = []) ↔
        (EntryId = SAHPI_ENTRY_UNSPECIFIED ∧ lookup Severity = none)) ∧
      (EntryId = SAHPI_ENTRY_UNSPECIFIED → lookup Severity ≠ none →
        (saHpiAnnunciatorDelete lookup rpc sid rid ann EntryId Severity).calls =
          [Call.rpc .eFsaHpiAnnunciatorDelete sid (rid, ann, EntryId, Severity)]) ∧
      (EntryId ≠ SAHPI_ENTRY_UNSPECIFIED →
        (saHpiAnnunciatorDelete lookup rpc sid rid ann EntryId Severity).calls =
          [Call.rpc .eFsaHpiAnnunciatorDelete sid (rid, ann, EntryId, SAHPI_DEBUG)])) := by
  by_cases he : EntryId = SAHPI_ENTRY_UNSPECIFIED
  · cases hl : lookup Severity with
    | none => simp [saHpiAnnunciatorAcknowledge, saHpiAnnunciatorDelete, he, hl]
    | some nm => simp [saHpiAnnunciatorAcknowledge, saHpiAnnunciatorDelete, he, hl]
  · simp [saHpiAnnunciatorAcknowledge, saHpiAnnunciatorDelete, he]

/-- The theorem of claim C28: for entry 7 the severity sent is `SAHPI_DEBUG` although the
caller passed the unknown severity 99, and for the unspecified entry the known severity 1
is sent as it is. -/
theorem annunciator_severity_forwarding_witness :
    (saHpiAnnunciatorAcknowledge severityLookup (rpcAccepts _ _) 1 2 3 7 99).calls =
      [Call.rpc .eFsaHpiAnnunciatorAcknowledge 1 (2, 3, 7, SAHPI_DEBUG)] ∧
    (saHpiAnnunciatorDelete severityLookup (rpcAccepts _ _) 1 2 3 SAHPI_ENTRY_UNSPECIFIED
        1).calls =
      [Call.rpc .eFsaHpiAnnunciatorDelete 1 (2, 3, SAHPI_ENTRY_UNSPECIFIED, 1)] :=
  ⟨(annunciator_severity_forwarding severityLookup (rpcAccepts _ _) 1 2 3 7 99).1.2.2
      (by decide),
    (annunciator_severity_forwarding severityLookup (rpcAccepts _ _) 1 2 3
      SAHPI_ENTRY_UNSPECIFIED 1).2.2.1 rfl (by decide)⟩

/-! ## Bounds of the host-name copy -/

theorem hostCopyAccesses_write (n i : Nat) :
    HostCopyAccess.write_buf i ∈ hostCopyAccesses n ↔ i ≤ n := by
  simp only [hostCopyAccesses, List.mem_append, List.mem_flatMap, List.mem_range,
    List.mem_cons, List.mem_singleton, List.not_mem_nil, or_false, reduceCtorEq, false_or,
    HostCopyAccess.write_buf.injEq]
  constructor
  · rintro (⟨j, hj, rfl⟩ | rfl) <;> omega
  · intro h
    rcases Nat.lt_or_ge i n with hlt | hge
    · exact Or.inl ⟨i, hlt, rfl⟩
    · exact Or.inr (by omega)

theorem hostCopyAccesses_read (n i : Nat) :
    HostCopyAccess.read_data i ∈ hostCopyAccesses n ↔ i < n := by
  simp only [hostCopyAccesses, List.mem_append, List.mem_flatMap, List.mem_range,
    List.mem_cons, List.mem_singleton, List.not_mem_nil, or_false, reduceCtorEq,
    HostCopyAccess.read_data.injEq]
  constructor
  · rintro ⟨j, hj, rfl⟩
    exact hj
  · intro h
    exact ⟨i, h, rfl⟩

/-- Claim C29.  For a host whose `DataLength` is an 8-bit value, the copy in `oHpiDomainAdd`
and `oHpiDomainAddById` writes `buf` exactly at the indices 0 to `DataLength`, all of them
below the size `SAHPI_MAX_TEXT_BUFFER_LENGTH + 1` of `buf`, and reads `host->Data` exactly at
the indices below `DataLength`, all of them below `SAHPI_MAX_TEXT_BUFFER_LENGTH`.  The
buffer keeps its size. -/
theorem host_copy_in_bounds (DataLength : Nat) (h8 : DataLength < 256) :
    (∀ i, HostCopyAccess.write_buf i ∈ hostCopyAccesses DataLength →
      i ≤ DataLength ∧ i < SAHPI_MAX_TEXT_BUFFER_LENGTH + 1) ∧
    (∀ i, HostCopyAccess.read_data i ∈ hostCopyAccesses DataLength →
      i < DataLength ∧ i < SAHPI_MAX_TEXT_BUFFER_LENGTH) ∧
    (∀ (buf : List Nat) (host : SaHpiTextBufferT),
      host.DataLength = DataLength → buf.length = SAHPI_MAX_TEXT_BUFFER_LENGTH + 1 →
      host.Data.length = SAHPI_MAX_TEXT_BUFFER_LENGTH →
      (hostBuffer buf host).length = SAHPI_MAX_TEXT_BUFFER_LENGTH + 1) := by
  refine ⟨fun i hi => ?_, fun i hi => ?_, fun buf host hd hb hl => ?_⟩
  · have := (hostCopyAccesses_write DataLength i).mp hi
    exact ⟨this, by unfold SAHPI_MAX_TEXT_BUFFER_LENGTH; omega⟩
  · have := (hostCopyAccesses_read DataLength i).mp hi
    exact ⟨this, by unfold SAHPI_MAX_TEXT_BUFFER_LENGTH; omega⟩
  · unfold SAHPI_MAX_TEXT_BUFFER_LENGTH at hb hl ⊢
    simp only [hostBuffer, memcpyBytes, List.length_set, List.length_append, List.length_take,
      List.length_drop, hd, hb, hl]
    omega

/-- The theorem of claim C29 at the largest 8-bit `DataLength`, 255: the terminator goes to
index 255 of the 256 bytes of `buf`, and the last byte read is `Data[254]`. -/
theorem host_copy_in_bounds_witness :
    (HostCopyAccess.write_buf 255 ∈ hostCopyAccesses 255 →
      255 ≤ 255 ∧ 255 < SAHPI_MAX_TEXT_BUFFER_LENGTH + 1) ∧
    (HostCopyAccess.read_data 254 ∈ hostCopyAccesses 255 →
      254 < 255 ∧ 254 < SAHPI_MAX_TEXT_BUFFER_LENGTH) ∧
    HostCopyAccess.write_buf 255 ∈ hostCopyAccesses 255 :=
  ⟨(host_copy_in_bounds 255 (by decide)).1 255, (host_copy_in_bounds 255 (by decide)).2.1 254,
    (hostCopyAccesses_write 255 255).mpr (Nat.le_refl _)⟩

/-! ## The client `hpifan` -/

theorem int32_roundtrip (i : Int) (h1 : -2147483648 ≤ i) (h2 : i < 2147483648) :
    int32OfWord (wordOfInt32 i) = i := by
  unfold int32OfWord wordOfInt32
  have hnn : 0 ≤ i % 4294967296 := Int.emod_nonneg _ (by decide)
  have hlt : i % 4294967296 < 4294967296 := Int.emod_lt_of_pos _ (by decide)
  have hc : ((i % 4294967296).toNat : Int) = i % 4294967296 := Int.toNat_of_nonneg hnn
  have hm : (i % 4294967296).toNat % 4294967296 = (i % 4294967296).toNat := by
    apply Nat.mod_eq_of_lt
    omega
  rw [hm]
  split_ifs with h <;> omega

theorem fanState_analog (state : SaHpiCtrlStateT) (speed : Int)
    (h1 : -2147483648 ≤ speed) (h2 : speed < 2147483648) :
    (fanState state speed).Type_ = SAHPI_CTRL_TYPE_ANALOG ∧
      (fanState state speed).Analog = speed :=
  ⟨rfl, int32_roundtrip speed h1 h2⟩

theorem get_fan_speed_ok {W : Type} (api : FanApi W) (w : W) (state : SaHpiCtrlStateT)
    (sid : SaHpiSessionIdT) (rid : SaHpiResourceIdT) (num : Nat) (speed : Int) (mode : Nat)
    (h : (get_fan_speed api w state sid rid num speed mode).1.1 = SA_OK) :
    (api.saHpiControlGet w sid rid num mode state).1.1 = SA_OK ∧
      (api.saHpiControlGet w sid rid num mode state).1.2.2.Type_ = SAHPI_CTRL_TYPE_ANALOG ∧
      (get_fan_speed api w state sid rid num speed mode).1.2.1 =
        (api.saHpiControlGet w sid rid num mode state).1.2.2.Analog := by
  unfold get_fan_speed at h ⊢
  simp only at h ⊢
  by_cases h1 : (api.saHpiControlGet w sid rid num mode state).1.1 = SA_OK
  · by_cases h2 : (api.saHpiControlGet w sid rid num mode state).1.2.2.Type_ =
        SAHPI_CTRL_TYPE_ANALOG
    · simp [h1, h2]
    · rw [if_neg (not_not.mpr h1), if_pos h2] at h
      have hd : SA_ERR_HPI_ERROR ≠ SA_OK := by decide
      exact absurd h hd
  · rw [if_pos h1] at h
    exact absurd h h1

/-- Claim C30.  `do_fan` returns 0 in every case.  It calls `saHpiControlSet` only if a new
setting was requested, the control record is analog, and the read of the current state
before it succeeded with an analog state; the call is for the session, resource and control
at hand, in the requested mode, with an analog state whose speed lies between `Analog.Min`
and `Analog.Max` of the control record (both 32-bit values).  When the requested mode is
automatic, the speed sent is the speed just read; otherwise it is the speed requested. -/
theorem do_fan_in_range {W : Type} (api : FanApi W) (w : W) (g : FanGlobals) (l : FanLocals)
    (sid : SaHpiSessionIdT) (rid : SaHpiResourceIdT) (rec : SaHpiCtrlRecT)
    (hmin : -2147483648 ≤ rec.AnalogMin) (hmax : rec.AnalogMax < 2147483648) :
    (do_fan api w g l sid rid rec).ret = 0 ∧
    ∀ s r n mode st,
      FanCall.controlSet s r n mode st ∈ (do_fan api w g l sid rid rec).calls →
      g.set_new ≠ SAHPI_FALSE ∧ rec.Type_ = SAHPI_CTRL_TYPE_ANALOG ∧
      (do_fan api w g l sid rid rec).calls.head? = some (FanCall.controlGet sid rid rec.Num) ∧
      (api.saHpiControlGet w sid rid rec.Num l.ctrl_mode l.state_get1).1.1 = SA_OK ∧
      (api.saHpiControlGet w sid rid rec.Num l.ctrl_mode l.state_get1).1.2.2.Type_ =
        SAHPI_CTRL_TYPE_ANALOG ∧
      s = sid ∧ r = rid ∧ n = rec.Num ∧ mode = g.new_mode ∧
      st.Type_ = SAHPI_CTRL_TYPE_ANALOG ∧
      rec.AnalogMin ≤ st.Analog ∧ st.Analog ≤ rec.AnalogMax ∧
      (g.new_mode = SAHPI_CTRL_MODE_AUTO →
        st.Analog =
          (api.saHpiControlGet w sid rid rec.Num l.ctrl_mode l.state_get1).1.2.2.Analog) ∧
      (g.new_mode ≠ SAHPI_CTRL_MODE_AUTO → st.Analog = g.new_speed) := by
  unfold do_fan
  by_cases ht : rec.Type_ = SAHPI_CTRL_TYPE_ANALOG
  swap
  · rw [if_pos ht]
    exact ⟨rfl, fun s r n mode st hmem => absurd hmem (by simp)⟩
  rw [if_neg (not_not.mpr ht)]
  simp only
  by_cases hg : (get_fan_speed api w l.state_get1 sid rid rec.Num l.speed l.ctrl_mode).1.1 = SA_OK
  swap
  · rw [if_pos hg]
    exact ⟨rfl, fun s r n mode st hmem => absurd hmem (by simp)⟩
  rw [if_neg (not_not.mpr hg)]
  obtain ⟨hrv, hty, hsp⟩ := get_fan_speed_ok api w l.state_get1 sid rid rec.Num l.speed
    l.ctrl_mode hg
  by_cases hsn : g.set_new = SAHPI_FALSE
  · rw [if_pos hsn]
    exact ⟨rfl, fun s r n mode st hmem => absurd hmem (by simp)⟩
  rw [if_neg hsn]
  generalize hg' : (if g.new_mode = SAHPI_CTRL_MODE_AUTO then
    { g with new_speed :=
      (get_fan_speed api w l.state_get1 sid rid rec.Num l.speed l.ctrl_mode).1.2.1 }
    else g) = g'
  have hmode : g'.new_mode = g.new_mode := by
    rw [← hg']
    split_ifs <;> rfl
  have hspeed_auto : g.new_mode = SAHPI_CTRL_MODE_AUTO → g'.new_speed =
      (api.saHpiControlGet w sid rid rec.Num l.ctrl_mode l.state_get1).1.2.2.Analog := by
    intro ha
    rw [← hg', if_pos ha, ← hsp]
  have hspeed_man : g.new_mode ≠ SAHPI_CTRL_MODE_AUTO → g'.new_speed = g.new_speed := by
    intro ha
    rw [← hg', if_neg ha]
  by_cases hr : g'.new_speed < rec.AnalogMin ∨ g'.new_speed > rec.AnalogMax
  · rw [if_pos hr]
    exact ⟨rfl, fun s r n mode st hmem => absurd hmem (by simp)⟩
  rw [if_neg hr]
  have hlo : rec.AnalogMin ≤ g'.new_speed := by omega
  have hhi : g'.new_speed ≤ rec.AnalogMax := by omega
  obtain ⟨hft, hfa⟩ := fanState_analog l.state_set g'.new_speed (by omega) (by omega)
  have key : ∀ s r n mode st,
      FanCall.controlSet s r n mode st = FanCall.controlSet sid rid rec.Num g'.new_mode
        (fanState l.state_set g'.new_speed) →
      s = sid ∧ r = rid ∧ n = rec.Num ∧ mode = g.new_mode ∧
      st.Type_ = SAHPI_CTRL_TYPE_ANALOG ∧
      rec.AnalogMin ≤ st.Analog ∧ st.Analog ≤ rec.AnalogMax ∧
      (g.new_mode = SAHPI_CTRL_MODE_AUTO →
        st.Analog =
          (api.saHpiControlGet w sid rid rec.Num l.ctrl_mode l.state_get1).1.2.2.Analog) ∧
      (g.new_mode ≠ SAHPI_CTRL_MODE_AUTO → st.Analog = g.new_speed) := by
    intro s r n mode st he
    injection he with e1 e2 e3 e4 e5
    subst e1 e2 e3 e4 e5
    refine ⟨rfl, rfl, rfl, hmode, hft, ?_, ?_, ?_, ?_⟩
    · rw [hfa]; exact hlo
    · rw [hfa]; exact hhi
    · intro ha; rw [hfa]; exact hspeed_auto ha
    · intro ha; rw [hfa]; exact hspeed_man ha
  split_ifs
  · refine ⟨rfl, fun s r n mode st hmem => ?_⟩
    simp only [List.mem_cons, List.mem_singleton, List.not_mem_nil, or_false, reduceCtorEq,
      false_or] at hmem
    exact ⟨hsn, ht, rfl, hrv, hty, key s r n mode st hmem⟩
  · refine ⟨rfl, fun s r n mode st hmem => ?_⟩
    simp only [List.mem_cons, List.mem_singleton, List.not_mem_nil, or_false, reduceCtorEq,
      false_or] at hmem
    exact ⟨hsn, ht, rfl, hrv, hty, key s r n mode st hmem⟩

theorem do_fan_sample_calls :
    (do_fan fanApi { mode := 1, speed := 40 }
        { set_new := SAHPI_TRUE, new_mode := 1, new_speed := 60 } fanLocals 1 2 fanRecord).calls =
      [FanCall.controlGet 1 2 4,
        FanCall.controlSet 1 2 4 1 (fanState fanLocals.state_set 60),
        FanCall.controlGet 1 2 4] := by
  have h40 := (fanState_analog (ctrlStateOfType 0) 40 (by decide) (by decide)).2
  simp [do_fan, get_fan_speed, set_fan_speed, fanApi, fanLocals, fanRecord, h40,
    fanState, SaHpiCtrlStateT.setAnalog, SAHPI_TRUE, SAHPI_FALSE, SAHPI_CTRL_MODE_AUTO, SA_OK]

/-- The theorem of claim C30 at a fan running at speed 40 in manual mode, with the request
to go to speed 60 and a control record that allows 10 to 100: the state sent is analog and
its speed lies between 10 and 100. -/
theorem do_fan_in_range_witness :
    (do_fan fanApi { mode := 1, speed := 40 }
        { set_new := SAHPI_TRUE, new_mode := 1, new_speed := 60 } fanLocals 1 2 fanRecord).ret
      = 0 ∧
    (fanState fanLocals.state_set 60).Type_ = SAHPI_CTRL_TYPE_ANALOG ∧
    fanRecord.AnalogMin ≤ (fanState fanLocals.state_set 60).Analog ∧
    (fanState fanLocals.state_set 60).Analog ≤ fanRecord.AnalogMax :=
  have h := (do_fan_in_range fanApi { mode := 1, speed := 40 }
    { set_new := SAHPI_TRUE, new_mode := 1, new_speed := 60 } fanLocals 1 2 fanRecord
    (by decide) (by decide)).2 1 2 4 1 (fanState fanLocals.state_set 60)
    (by rw [do_fan_sample_calls]; simp)
  ⟨(do_fan_in_range fanApi { mode := 1, speed := 40 }
      { set_new := SAHPI_TRUE, new_mode := 1, new_speed := 60 } fanLocals 1 2 fanRecord
      (by decide) (by decide)).1,
    h.2.2.2.2.2.2.2.2.2.1, h.2.2.2.2.2.2.2.2.2.2.1, h.2.2.2.2.2.2.2.2.2.2.2.1⟩

end OpenHpi
